import Mathlib

/-!
# NICOF inside proxy (IOPROXY.C): a shallow embedding

The definitions below follow `src/cms/ioproxy.c` function by function and keep
its names.  Conventions of the embedding:

* a `RequestPtr` is either `NULL` (`none`) or the address of `requests[i]`
  (`some i`); `slots[i]` is initialised to `&requests[i]` and never written
  again, so `slots[i]` is read as `requests i`;
* arrays are functions from the index; bytes and machine words are natural
  numbers, S/370 storage is big-endian;
* every VMCF request and every SIO is appended to the trace `out`;
  diagnostics (`printf`, the log ring, `lastSIO`) are not part of the model.
  `doSIO` retries a failed SIO once with the same channel program; the trace
  records the channel program that is issued.
-/

namespace Nicof

/-! ## constants -/

/-- MAX_PACKET_LEN: max. length of the data part of a packet. -/
def MAX_PACKET_LEN : Nat := 2048

/-- MAX_REQUEST_COUNT: number of entries of the request table and of both rings. -/
def MAX_REQUEST_COUNT : Nat := 128

/-- Size of `recvBuffer`. -/
def RECV_BUFFER_SIZE : Nat := 2560

def AID_ENTER : Nat := 0x7D
def AID_CLEAR : Nat := 0x6D
def AID_F1 : Nat := 0xF1
def AID_F2 : Nat := 0xF2
def AID_F3 : Nat := 0xF3
def AID_F4 : Nat := 0xF4
def AID_F5 : Nat := 0xF5
def AID_F9 : Nat := 0xF9

def Unit_Attention : Nat := 0x80000000
def Unit_DeviceEnd : Nat := 0x04000000

def GRAFDEV : Nat := 0x0097

def VMCPSENR : Nat := 0x0003
def VMCPSENX : Nat := 0x0004

/-- Character codes of the execution character set (EBCDIC on VM/370) for the
literals the program compares input with. -/
def chr_D : Nat := 0xC4
def chr_I : Nat := 0xC9
def chr_A : Nat := 0xC1
def chr_L : Nat := 0xD3
def chr_SP : Nat := 0x40

/-- The literal "END". -/
def str_END : List Nat := [0xC5, 0xD5, 0xC4]

/-- The literal "STAT". -/
def str_STAT : List Nat := [0xE2, 0xE3, 0xC1, 0xE3]

/-- The literal "MAINT   ". -/
def str_MAINT : List Nat := [0xD4, 0xC1, 0xC9, 0xD5, 0xE3, 0x40, 0x40, 0x40]

/-- RING_NEXT(idx): ring-index counting. -/
def RING_NEXT (idx : Nat) : Nat :=
  if idx ≥ MAX_REQUEST_COUNT - 1 then 0 else idx + 1

/-! ## data model -/

/-- The possible states of the state machine (`s_...` constants). -/
inductive PState
  | s_INITIAL
  | s_iWELCOME
  | s_iIDLE
  | s_IDLE
  | s_iTRANSMITPREP
  | s_TRANSMITPREP
  | s_iTRANSMITTING
  | s_TRANSMITTING
  | s_iRECEIVING
  | s_RECEIVING
  | s_iRESET
  | s_RESET
  | s_RECONNECT_CPREAD
  | s_iRECONNECT_CPREAD
  | s_RECONNECT_DIALED
  | s_iRECONNECT_DIALED
  deriving DecidableEq, Repr

open PState

/-- Structure `Request`: a request from reception up to the response sent back. -/
structure Request where
  slot : Nat
  msgId : Nat
  user : List Nat
  userWord1 : Nat
  userWord2 : Nat
  inDataLen : Nat
  inData : Nat → Nat

/-- The channel programs (CCW chains) the proxy starts. -/
inductive Ccw
  | ccw_handshake_welcome
  | ccw_handshake_welcomeb
  | ccw_handshake_willsend
  | ccw_handshake_ack
  | ccw_handshake_dosend
  | ccw_handshake_reset
  | ccw_handshake_dump
  | ccw_reconnect_cpread
  | ccw_reconnect_dialed
  | ccw_xmit_packet_empty
  | ccw_xmit_packet
  | ccw_recv_data
  deriving DecidableEq, Repr

/-- The struct `data_xmit_header` (XMIT_HEADER_LEN = 22 bytes). -/
structure XmitHeader where
  wcc : Nat
  sba : List Nat
  user : List Nat
  userWord1 : Nat
  userWord2 : Nat
  slot : Nat
  deriving DecidableEq, Repr

/-- Calls that leave the program: VMCF requests, SIOs and ECB posts. -/
inductive Effect
  | sio (ccw : Ccw)
  | vmcfReject (user : List Nat) (msgId : Nat) (reasonCode : Nat)
  | vmcfReply (user : List Nat) (msgId : Nat) (userWord1 userWord2 : Nat)
      (responseDataLen : Nat) (responseData : List Nat)
  | vmcfReceive (user : List Nat) (msgId : Nat)
  | post_ecb
  deriving DecidableEq, Repr

/-- The VMCF interrupt data area `vmcmhdr` as CP fills it before the external
interrupt; `vmcmuse1`, `vmcmuse2` are `vmcmuse.words.w1/w2`. -/
structure VMCMHDR where
  vmcmfunc : Nat
  vmcmmid : Nat
  vmcmuser : List Nat
  vmcmlena : Nat
  vmcmuse1 : Nat
  vmcmuse2 : Nat
  messageData : List Nat

/-- The static variables of IOPROXY.C together with the trace of external calls. -/
structure Proxy where
  pstate : PState
  requests : Nat → Request
  reqFree : Nat → Option Nat
  reqCurrFree : Nat
  reqLastFree : Nat
  reqQueue : Nat → Option Nat
  reqLastIn : Nat
  reqLastOut : Nat
  totalReqCount : Nat
  responseCount : Nat
  isDone : Bool
  doStat : Bool
  usingBinaryTransfer : Bool
  inRecv : Bool
  recvBuffer : Nat → Nat
  data_xmit_header : XmitHeader
  xmitLen : Nat
  xmitAddr : Option Nat
  recvCcwLen : Nat
  lastCsw2 : Nat
  out : List Effect

/-- Append one external call to the trace. -/
def emit (e : Effect) (st : Proxy) : Proxy :=
  { st with out := st.out ++ [e] }

/-- Macro `doSIO(GRAFDEV, ccw, name)`. -/
def doSIO (ccw : Ccw) (st : Proxy) : Proxy :=
  emit (Effect.sio ccw) st

/-- Big-endian halfword at `buf[i..i+1]`. -/
def half_at (buf : Nat → Nat) (i : Nat) : Nat :=
  buf i * 256 + buf (i + 1)

/-- Big-endian fullword at `buf[i..i+3]`. -/
def full_at (buf : Nat → Nat) (i : Nat) : Nat :=
  buf i * 16777216 + buf (i + 1) * 65536 + buf (i + 2) * 256 + buf (i + 3)

/-- A halfword read as `short`. -/
def asShort (v : Nat) : Int :=
  if v % 65536 ≥ 32768 then (v % 65536 : Nat) - 65536 else (v % 65536 : Nat)

/-- The `len` bytes of `buf` starting at `start`. -/
def bytesFrom (buf : Nat → Nat) (start len : Nat) : List Nat :=
  (List.range len).map (fun i => buf (start + i))

/-- The four bytes of a fullword in storage order. -/
def wordBytes (w : Nat) : List Nat :=
  [w / 16777216 % 256, w / 65536 % 256, w / 256 % 256, w % 256]

/-! ## request buffers -/

/-- A request after `memset(requests, 0, ...)`. -/
def zeroRequest : Request :=
  { slot := 0, msgId := 0, user := List.replicate 8 0, userWord1 := 0,
    userWord2 := 0, inDataLen := 0, inData := fun _ => 0 }

/-- Function `initRequestBuffers()`. -/
def initRequestBuffers (st : Proxy) : Proxy :=
  { st with
    requests := fun i =>
      if i < MAX_REQUEST_COUNT then { zeroRequest with slot := i } else zeroRequest
    reqFree := fun i => if i < MAX_REQUEST_COUNT then some i else none
    reqQueue := fun _ => none
    reqLastIn := 0
    reqLastOut := 0
    reqCurrFree := 1
    reqLastFree := 0 }

/-- Function `getSlot()`: the request handed out (or NULL) and the new state. -/
def getSlot (st : Proxy) : Option Nat × Proxy :=
  if st.reqCurrFree = st.reqLastFree then (none, st)
  else
    match st.reqFree st.reqCurrFree with
    | none => (none, st)
    | some req =>
      (some req,
        { st with
          reqFree := Function.update st.reqFree st.reqCurrFree none
          reqCurrFree := RING_NEXT st.reqCurrFree })

/-- Function `freeSlot(req)`. -/
def freeSlot (req : Nat) (st : Proxy) : Proxy :=
  let thisFree := RING_NEXT st.reqLastFree
  { st with
    requests := Function.update st.requests req { st.requests req with msgId := 0 }
    reqFree := Function.update st.reqFree thisFree (some req)
    reqLastFree := thisFree }

/-- Function `sendVmcfReject(userid, msgId, reasonCode)`. -/
def sendVmcfReject (userid : List Nat) (msgId reasonCode : Nat) (st : Proxy) : Proxy :=
  emit (Effect.vmcfReject userid msgId reasonCode) st

/-- The loop of `resetAllRequests()` over the slots `i, i+1, ...` (`n` of them). -/
def resetLoop : Nat → Nat → Proxy → Proxy
  | 0, _, st => st
  | n + 1, i, st =>
    let slot := st.requests i
    resetLoop n (i + 1)
      (if slot.msgId ≠ 0 then sendVmcfReject slot.user slot.msgId 2 st else st)

/-- Function `resetAllRequests()`. -/
def resetAllRequests (st : Proxy) : Proxy :=
  initRequestBuffers (resetLoop MAX_REQUEST_COUNT 0 st)

/-- Function `enqueueRequest(req)`. -/
def enqueueRequest (hdr : VMCMHDR) (req : Nat) (st : Proxy) : Proxy :=
  let idx := RING_NEXT st.reqLastIn
  { st with
    requests := Function.update st.requests req
      { st.requests req with
        msgId := hdr.vmcmmid
        user := hdr.vmcmuser
        inDataLen := if hdr.vmcmlena > MAX_PACKET_LEN then MAX_PACKET_LEN else hdr.vmcmlena
        userWord1 := hdr.vmcmuse1
        userWord2 := hdr.vmcmuse2 }
    reqQueue := Function.update st.reqQueue idx (some req)
    reqLastIn := idx }

/-- Function `readVmcfRequestIntoSlot(req)`: the VMCF RECEIVE stores the data
part `payload` of the request (at most MAX_PACKET_LEN bytes) into `req->inData`. -/
def readVmcfRequestIntoSlot (payload : List Nat) (req : Nat) (st : Proxy) : Proxy :=
  let r := st.requests req
  emit (Effect.vmcfReceive r.user r.msgId)
    { st with
      requests := Function.update st.requests req
        { r with
          inData := fun i =>
            if i < min payload.length MAX_PACKET_LEN then payload.getD i 0 else r.inData i } }

/-- Macro `havingRequest()`. -/
def havingRequest (st : Proxy) : Bool :=
  st.reqLastOut != st.reqLastIn

/-- Function `getNextRequestToSend()`. -/
def getNextRequestToSend (st : Proxy) : Option Nat × Proxy :=
  if st.reqLastOut = st.reqLastIn then (none, st)
  else
    let idx := RING_NEXT st.reqLastOut
    (st.reqQueue idx,
      { st with
        reqQueue := Function.update st.reqQueue idx none
        reqLastOut := idx })

/-- Function `sendVmcfReplyForSlot(req, userWord1, userWord2, responseDataLen,
responseData)`; `responseData` points to `recvBuffer[src]`. -/
def sendVmcfReplyForSlot (req : Nat) (userWord1 userWord2 responseDataLen src : Nat)
    (st : Proxy) : Proxy :=
  let r := st.requests req
  emit (Effect.vmcfReply r.user r.msgId userWord1 userWord2 responseDataLen
          (bytesFrom st.recvBuffer src responseDataLen))
    { st with responseCount := st.responseCount + 1 }

/-! ## state transitions -/

/-- Function `send_Dump()`. -/
def send_Dump (st : Proxy) : Proxy :=
  doSIO Ccw.ccw_handshake_dump st

/-- Macro `enter_iWELCOME()`. -/
def enter_iWELCOME (st : Proxy) : Proxy :=
  doSIO Ccw.ccw_handshake_welcome { st with pstate := s_iWELCOME }

/-- Macro `enter_iWELCOMEBIN()`. -/
def enter_iWELCOMEBIN (st : Proxy) : Proxy :=
  doSIO Ccw.ccw_handshake_welcomeb { st with pstate := s_iWELCOME }

/-- Function `enter_iTRANSMITPREP()`. -/
def enter_iTRANSMITPREP (st : Proxy) : Proxy :=
  doSIO Ccw.ccw_handshake_willsend { st with pstate := s_iTRANSMITPREP }

/-- Macro `enter_iRECEIVING()`. -/
def enter_iRECEIVING (st : Proxy) : Proxy :=
  doSIO Ccw.ccw_handshake_dosend { st with pstate := s_iRECEIVING }

/-- Macro `enter_iIDLE()`. -/
def enter_iIDLE (st : Proxy) : Proxy :=
  doSIO Ccw.ccw_handshake_ack { st with pstate := s_iIDLE }

/-- Macro `enter_iRESET()`. -/
def enter_iRESET (st : Proxy) : Proxy :=
  doSIO Ccw.ccw_handshake_reset { st with pstate := s_iRESET }

/-- Function `enter_iRECONNECT_CPREAD()`. -/
def enter_iRECONNECT_CPREAD (st : Proxy) : Proxy :=
  doSIO Ccw.ccw_reconnect_cpread { st with pstate := s_iRECONNECT_CPREAD }

/-- Function `enter_iRECONNECT_DIALED()`. -/
def enter_iRECONNECT_DIALED (st : Proxy) : Proxy :=
  doSIO Ccw.ccw_reconnect_dialed { st with pstate := s_INITIAL }

/-- Function `enter_iTRANSMITTING(req)`; `none` when `req` is NULL (the
function dereferences it). -/
def enter_iTRANSMITTING (payload : List Nat) (req : Option Nat) (st : Proxy) :
    Option Proxy :=
  match req with
  | none => none
  | some q =>
    let st1 := readVmcfRequestIntoSlot payload q { st with pstate := s_iTRANSMITTING }
    let r := st1.requests q
    let st2 : Proxy :=
      { st1 with
        data_xmit_header :=
          { st1.data_xmit_header with
            user := r.user
            slot := r.slot % 65536
            userWord1 := r.userWord1
            userWord2 := r.userWord2 } }
    if r.inDataLen > 0 then
      some <| doSIO Ccw.ccw_xmit_packet
        { st2 with xmitLen := r.inDataLen % 65536, xmitAddr := some q }
    else
      some <| doSIO Ccw.ccw_xmit_packet_empty st2

/-- Function `handleExt(intrParams)`: `intrCode` is `hParams[49]`, `hdr` the
VMCF interrupt data area. -/
def handleExt (intrCode : Nat) (hdr : VMCMHDR) (st : Proxy) : Proxy :=
  if intrCode = 0x4001 then
    if hdr.vmcmfunc = VMCPSENX then
      let msg := (hdr.messageData.take hdr.vmcmlena).takeWhile (fun c => c != 0)
      if msg = str_END ∧ wordBytes hdr.vmcmuse1 ++ wordBytes hdr.vmcmuse2 = str_MAINT then
        emit Effect.post_ecb { st with isDone := true }
      else if msg = str_STAT then
        emit Effect.post_ecb (send_Dump { st with doStat := true })
      else st
    else if hdr.vmcmfunc = VMCPSENR then
      match getSlot st with
      | (none, st1) => sendVmcfReject hdr.vmcmuser hdr.vmcmmid 1 st1
      | (some req, st1) =>
        let st2 := enqueueRequest hdr req st1
        let st3 := { st2 with totalReqCount := st2.totalReqCount + 1 }
        if st3.pstate = s_IDLE then enter_iTRANSMITPREP st3 else st3
    else st
  else st

/-- Function `beginReceivePacket()`. -/
def beginReceivePacket (st : Proxy) : Proxy :=
  doSIO Ccw.ccw_recv_data { st with inRecv := true, recvCcwLen := RECV_BUFFER_SIZE }

/-! ## 7-to-8 decoding -/

/-- The local variables of the decoding loop in `endReceivePacket` together
with the receive buffer; `block` and `dest` are indices into `recvBuffer`. -/
structure DecState where
  buf : Nat → Nat
  block : Nat
  dest : Nat
  blockModif : Nat
  mask : Nat
  dlen : Int

/-- One pass through the body of `while(dlen > 0) { ... }`. -/
def decodeStep (s : DecState) : DecState :=
  let b := if s.blockModif &&& s.mask ≠ 0 then s.buf s.block ||| 0x80 else s.buf s.block
  let buf := Function.update s.buf s.dest b
  let mask := s.mask >>> 1
  if mask = 0 then
    { buf := buf, block := s.block + 2, dest := s.dest + 1,
      blockModif := buf (s.block + 2 + 7), mask := 0x40, dlen := s.dlen - 8 }
  else
    { buf := buf, block := s.block + 1, dest := s.dest + 1,
      blockModif := s.blockModif, mask := mask, dlen := s.dlen }

/-- The loop `while(dlen > 0) { ... }`, at most `fuel` passes. -/
def decodeLoop : Nat → DecState → DecState
  | 0, s => s
  | fuel + 1, s => if s.dlen > 0 then decodeLoop fuel (decodeStep s) else s

/-- Number of passes of the decoding loop for a region of `dlen` bytes: seven
for each started block of eight. -/
def decodePasses (dlen : Int) : Nat :=
  7 * ((dlen + 7) / 8).toNat

/-- The block `if (!usingBinaryTransfer) { ... }` of `endReceivePacket`: the
receive buffer and `recvLen` after decoding in place. -/
def decode7to8 (buf : Nat → Nat) (recvLen : Int) : (Nat → Nat) × Int :=
  let dlen := recvLen - 11
  let s := decodeLoop (decodePasses dlen)
    { buf := buf, block := 11, dest := 11, blockModif := buf (11 + 7), mask := 0x40,
      dlen := dlen }
  (s.buf, 11 + ((dlen + 7) / 8) * 7)

/-! ## receiving a packet -/

/-- Second half of `endReceivePacket` ("here, we seem to have a response to a
waiting slot"), entered with the flag `keepReceivingAfterData`. -/
def processData (recvLen0 : Int) (keepReceivingAfterData : Bool) (st0 : Proxy) : Proxy :=
  let dec : (Nat → Nat) × Int :=
    if !st0.usingBinaryTransfer then decode7to8 st0.recvBuffer recvLen0
    else (st0.recvBuffer, recvLen0)
  let st : Proxy := { st0 with recvBuffer := dec.1 }
  let recvLen := dec.2
  let recvDataLen : Nat := ((recvLen - 21) % 65536).toNat
  let slot : Int := asShort (half_at st.recvBuffer 11)
  let userWord1 := full_at st.recvBuffer 13
  let userWord2 := full_at st.recvBuffer 17
  let xmitDataLen := half_at st.recvBuffer 21 % 65536
  let src := 23
  if slot < 0 ∨ slot ≥ MAX_REQUEST_COUNT then enter_iRESET st
  else
    let req := slot.toNat
    if ((st.requests req).slot : Int) ≠ slot then
      if keepReceivingAfterData then enter_iRECEIVING st else enter_iIDLE st
    else
      let xmitDataLen := if recvDataLen < xmitDataLen then recvDataLen else xmitDataLen
      let st1 := sendVmcfReplyForSlot req userWord1 userWord2 xmitDataLen src st
      let st2 := freeSlot req st1
      if keepReceivingAfterData then enter_iRECEIVING st2 else enter_iIDLE st2

/-- The local `recvLen` of `endReceivePacket`: the buffer size minus the
residual count `restLen = csw2 & 0x0000FFFF`. -/
def recvLenOf (csw2 : Nat) : Int :=
  (RECV_BUFFER_SIZE : Int) - ((csw2 &&& 0x0000FFFF : Nat) : Int)

/-- Function `endReceivePacket(csw2)`; `payload` is what a VMCF RECEIVE
delivers if the transition issues one; `none` is a NULL dereference. -/
def endReceivePacket (csw2 : Nat) (payload : List Nat) (st0 : Proxy) : Option Proxy :=
  let recvLen : Int := recvLenOf csw2
  let st : Proxy := { st0 with inRecv := false }
  let aid := st.recvBuffer 0
  if recvLen < 1 then some st
  else if aid = AID_F5 then
    if st.pstate = s_IDLE then some (enter_iRECEIVING st)
    else if st.pstate = s_TRANSMITPREP then some (enter_iTRANSMITPREP st)
    else some (enter_iRESET st)
  else if aid = AID_F2 ∨ aid = AID_F9 then
    let st1 : Proxy := { st with usingBinaryTransfer := decide (aid = AID_F9) }
    if st1.pstate = s_INITIAL then
      if st1.usingBinaryTransfer then some (enter_iWELCOMEBIN st1)
      else some (enter_iWELCOME st1)
    else some (enter_iRESET st1)
  else if aid = AID_F1 then
    if st.pstate = s_TRANSMITPREP then
      let r := getNextRequestToSend st
      enter_iTRANSMITTING payload r.1 r.2
    else if st.pstate = s_TRANSMITTING ∨ st.pstate = s_RESET then
      if havingRequest st then some (enter_iTRANSMITPREP st)
      else if recvLen > 3 ∧ st.recvBuffer 3 = AID_F5 then some (enter_iRECEIVING st)
      else some { st with pstate := s_IDLE }
    else some st
  else if aid = AID_F3 then
    if st.pstate = s_TRANSMITTING ∨ st.pstate = s_RESET then some (enter_iRECEIVING st)
    else some (enter_iRESET st)
  else if aid = AID_CLEAR then some (enter_iRECONNECT_CPREAD st)
  else if aid = AID_ENTER ∧ st.pstate = s_iRECONNECT_CPREAD then
    if st.recvBuffer 6 = chr_D ∧ st.recvBuffer 7 = chr_I ∧ st.recvBuffer 8 = chr_A
        ∧ st.recvBuffer 9 = chr_L ∧ st.recvBuffer 10 = chr_SP then
      some (enter_iRECONNECT_DIALED (resetAllRequests st))
    else some (enter_iRECONNECT_CPREAD st)
  else if recvLen < 21 then some (enter_iRESET st)
  else if aid = AID_F4 then
    if st.pstate ≠ s_RECEIVING ∧ st.pstate ≠ s_iRECEIVING then some (enter_iRESET st)
    else some (processData recvLen true st)
  else if aid = AID_ENTER then
    if st.pstate ≠ s_RECEIVING ∧ st.pstate ≠ s_iRECEIVING then some (enter_iRESET st)
    else some (processData recvLen false st)
  else some (enter_iRESET st)

/-- Function `devintHandler(deviceAddress, oldPsw1, oldPsw2, csw1, csw2)`. -/
def devintHandler (deviceAddress csw2 : Nat) (payload : List Nat) (st0 : Proxy) :
    Option Proxy :=
  if deviceAddress = GRAFDEV then
    let st1 : Proxy := { st0 with lastCsw2 := csw2 }
    let st : Proxy := if csw2 &&& Unit_Attention ≠ 0 then beginReceivePacket st1 else st1
    if csw2 &&& Unit_DeviceEnd ≠ 0 then
      if st.inRecv then endReceivePacket csw2 payload st
      else if st.pstate = s_iTRANSMITPREP then some { st with pstate := s_TRANSMITPREP }
      else if st.pstate = s_iRECEIVING then some { st with pstate := s_RECEIVING }
      else if st.pstate = s_iTRANSMITTING then some { st with pstate := s_TRANSMITTING }
      else if st.pstate = s_iIDLE ∧ havingRequest st then some (enter_iTRANSMITPREP st)
      else if st.pstate = s_iIDLE then some { st with pstate := s_IDLE }
      else if st.pstate = s_iRESET then some { st with pstate := s_RESET }
      else if st.pstate = s_iWELCOME then some (enter_iIDLE st)
      else some st
    else some st
  else some st0

/-- The static initial values of IOPROXY.C followed by `init_ccws()` and
`initRequestBuffers()` as `main()` runs them. -/
def initialProxy : Proxy :=
  initRequestBuffers
    { pstate := s_INITIAL
      requests := fun _ => zeroRequest
      reqFree := fun _ => none
      reqCurrFree := 0
      reqLastFree := 0
      reqQueue := fun _ => none
      reqLastIn := 0
      reqLastOut := 0
      totalReqCount := 0
      responseCount := 0
      isDone := false
      doStat := false
      usingBinaryTransfer := false
      inRecv := false
      recvBuffer := fun _ => 0
      data_xmit_header :=
        { wcc := 0x00, sba := [0x11, 0x7f, 0x7f], user := List.replicate 8 0,
          userWord1 := 0, userWord2 := 0, slot := 0 }
      xmitLen := 0
      xmitAddr := none
      recvCcwLen := RECV_BUFFER_SIZE
      lastCsw2 := 0
      out := [] }

/-- The receive buffer as `endReceivePacket` reads the header fields of a data
frame from it: decoded in place unless binary transfer is in use. -/
def decodedBuffer (st : Proxy) (csw2 : Nat) : Nat → Nat :=
  if st.usingBinaryTransfer then st.recvBuffer
  else (decode7to8 st.recvBuffer (recvLenOf csw2)).1

/-- The channel stores the bytes read by `ccw_recv_data` at the start of
`recvBuffer`; the rest of the buffer keeps its content. -/
def channelStore (frame : List Nat) (st : Proxy) : Proxy :=
  { st with
    recvBuffer := fun i => if i < frame.length then frame.getD i 0 else st.recvBuffer i }

/-- The channel status word of the device end that completes a read of `len`
bytes: DeviceEnd with the residual count in the low halfword. -/
def csw2ReadEnd (len : Nat) : Nat :=
  Unit_DeviceEnd + (RECV_BUFFER_SIZE - len)

/-- One event seen by the proxy. -/
inductive Event
  | attention
  | deviceEnd
  | readEnd (frame : List Nat)
  | vmcf (hdr : VMCMHDR)

/-- Deliver one event to its interrupt handler. -/
def deliver (st : Proxy) (e : Event) : Option Proxy :=
  match e with
  | Event.attention => devintHandler GRAFDEV Unit_Attention [] st
  | Event.deviceEnd => devintHandler GRAFDEV Unit_DeviceEnd [] st
  | Event.readEnd frame =>
    devintHandler GRAFDEV (csw2ReadEnd frame.length) [] (channelStore frame st)
  | Event.vmcf hdr => some (handleExt 0x4001 hdr st)

/-- Deliver a sequence of events, starting from `st`. -/
def run (st : Proxy) : List Event → Option Proxy
  | [] => some st
  | e :: es => (deliver st e).bind (fun st1 => run st1 es)

/-- The results of `n` consecutive calls of `getSlot()` and the state after them. -/
def getSlots : Nat → Proxy → List (Option Nat) × Proxy
  | 0, st => ([], st)
  | n + 1, st =>
    let r := getSlot st
    let rs := getSlots n r.2
    (r.1 :: rs.1, rs.2)

/-- A state in s_RECEIVING that holds the frame `frame` in its receive buffer. -/
def receivingWith (binary : Bool) (frame : List Nat) : Proxy :=
  channelStore frame
    { initialProxy with pstate := s_RECEIVING, inRecv := true, usingBinaryTransfer := binary }

/-- A send-and-receive request of 5 bytes from the user with id bytes
`C1 40 40 40 40 40 40 40`, message id 100. -/
def requestA : VMCMHDR :=
  { vmcmfunc := VMCPSENR, vmcmmid := 100, vmcmuser := [0xC1, 0x40, 0x40, 0x40, 0x40, 0x40, 0x40, 0x40],
    vmcmlena := 5, vmcmuse1 := 1, vmcmuse2 := 2, messageData := [] }

/-- The events from start-up to the point where the request `requestA` (in
slot 1) has been transmitted in binary mode and the outside proxy has announced
its next frame: welcome (F9), request, WillSend/Ack (F1), packet, Ack with
want-send (F3), DoSend, attention. -/
def eventsInFlight : List Event :=
  [Event.attention, Event.readEnd [0xF9], Event.deviceEnd, Event.deviceEnd,
   Event.vmcf requestA, Event.deviceEnd,
   Event.attention, Event.readEnd [0xF1], Event.deviceEnd,
   Event.attention, Event.readEnd [0xF3], Event.deviceEnd,
   Event.attention]

/-- The state reached from `initialProxy` by `eventsInFlight`. -/
def inFlightProxy : Proxy :=
  (run initialProxy eventsInFlight).getD initialProxy

/-- A second request: user id bytes `C2 40 ...`, message id 200. -/
def requestB : VMCMHDR :=
  { vmcmfunc := VMCPSENR, vmcmmid := 200, vmcmuser := [0xC2, 0x40, 0x40, 0x40, 0x40, 0x40, 0x40, 0x40],
    vmcmlena := 0, vmcmuse1 := 3, vmcmuse2 := 4, messageData := [] }

/-- A third request: user id bytes `C3 40 ...`, message id 300. -/
def requestC : VMCMHDR :=
  { vmcmfunc := VMCPSENR, vmcmmid := 300, vmcmuser := [0xC3, 0x40, 0x40, 0x40, 0x40, 0x40, 0x40, 0x40],
    vmcmlena := 7, vmcmuse1 := 5, vmcmuse2 := 6, messageData := [] }

/-- The events from start-up to a takeover request: welcome (F9), three client
requests, then Clear (AID 6D) from a new outside proxy and the attention that
announces its next input. -/
def eventsTakeover : List Event :=
  [Event.attention, Event.readEnd [0xF9], Event.deviceEnd, Event.deviceEnd,
   Event.vmcf requestA, Event.vmcf requestB, Event.vmcf requestC, Event.deviceEnd,
   Event.attention, Event.readEnd [0x6D], Event.deviceEnd,
   Event.attention]

/-- The state reached from `initialProxy` by `eventsTakeover`. -/
def takeoverProxy : Proxy :=
  (run initialProxy eventsTakeover).getD initialProxy

/-- An Enter frame whose bytes 6..10 are "DIAL ". -/
def dialFrame : List Nat :=
  [0x7D, 0x5B, 0x60, 0x11, 0x5B, 0x5F, 0xC4, 0xC9, 0xC1, 0xD3, 0x40, 0xD5, 0xC9, 0xC3]

/-- Byte `m` of the decoded region in terms of the wire bytes `wire` of the
receive buffer: byte `m % 7` of wire block `m / 7`, with 0x80 or-ed in when
the block's eighth byte has the bit `0x40 >> (m % 7)`. -/
def decodedByte (wire : Nat → Nat) (m : Nat) : Nat :=
  if wire (11 + 8 * (m / 7) + 7) &&& (0x40 >>> (m % 7)) ≠ 0
  then wire (11 + 8 * (m / 7) + m % 7) ||| 0x80
  else wire (11 + 8 * (m / 7) + m % 7)

/-- The relation between the loop state after `n` passes and the wire bytes
`wire` of a region of `dlen0` bytes. -/
def DecInv (wire : Nat → Nat) (dlen0 : Int) (n : Nat) (s : DecState) : Prop :=
  s.block = 11 + 8 * (n / 7) + n % 7 ∧
  s.dest = 11 + n ∧
  s.mask = 0x40 >>> (n % 7) ∧
  s.blockModif = wire (11 + 8 * (n / 7) + 7) ∧
  s.dlen = dlen0 - 8 * ((n / 7 : Nat) : Int) ∧
  (∀ i, 11 + n ≤ i → s.buf i = wire i) ∧
  (∀ m, m < n → s.buf (11 + m) = decodedByte wire m)

/-- The receive buffer with a 27-byte Enter frame in 7-of-8 encoding: two
wire blocks behind the first 11 bytes. -/
def sampleWire : Nat → Nat :=
  (receivingWith false
    [0x7D, 0, 0, 0, 0, 0, 0, 0, 0, 0, 0,
     0x00, 0x01, 0x11, 0x11, 0x11, 0x11, 0x22, 0x00,
     0x22, 0x22, 0x22, 0x00, 0x05, 0x77, 0x6F, 0x20]).recvBuffer

/-- A 27-byte Enter frame in 7-of-8 encoding whose first block modifier (0x40)
marks the first byte of the slot index. -/
def negativeSlotFrame : List Nat :=
  [0x7D, 0, 0, 0, 0, 0, 0, 0, 0, 0, 0,
   0x00, 0x01, 0x11, 0x11, 0x11, 0x11, 0x22, 0x40,
   0x22, 0x22, 0x22, 0x00, 0x05, 0x77, 0x6F, 0x20]

/-- The stripped high bit (0x80) of a byte, as 0 or 1. -/
def highBit (b : Nat) : Nat :=
  b / 128 % 2

/-- Modelled from the spec: the eighth byte of wire block `k` of the sender's
7-of-8 encoding of `B`, "collecting the seven stripped high bits" of the
block's seven bytes.  The encoder belongs to the outside proxy and is not under
src/; the spec does not fix the bit order, which is taken here as the one the
decoder reads (first byte of the group in bit 0x40, seventh in bit 0x01). -/
def encodeModifier (B : List Nat) (k : Nat) : Nat :=
  highBit (B.getD (7 * k) 0) * 64 + highBit (B.getD (7 * k + 1) 0) * 32
    + highBit (B.getD (7 * k + 2) 0) * 16 + highBit (B.getD (7 * k + 3) 0) * 8
    + highBit (B.getD (7 * k + 4) 0) * 4 + highBit (B.getD (7 * k + 5) 0) * 2
    + highBit (B.getD (7 * k + 6) 0)

/-- Modelled from the spec: the sender's 7-of-8 encoding of the byte string
`B` (the encoder belongs to the outside proxy and is not under src/): "groups
of seven bytes with the high bit stripped, each followed by an eighth byte
collecting the seven stripped high bits"; the last group is filled up with
zero bytes, so the encoding consists of whole 8-byte blocks. -/
def encode7of8 (B : List Nat) : List Nat :=
  (List.range (8 * ((B.length + 6) / 7))).map
    (fun i => if i % 8 < 7 then B.getD (7 * (i / 8) + i % 8) 0 % 128
              else encodeModifier B (i / 8))

/-- A receive buffer that holds `region` behind its first 11 bytes; the other
bytes are those of `other`. -/
def withRegion (region : List Nat) (other : Nat → Nat) : Nat → Nat :=
  fun i => if 11 ≤ i ∧ i < 11 + region.length then region.getD (i - 11) 0 else other i

/-- The rejects of `resetAllRequests()` for the request table `requests`: one
for each slot with a message id other than 0, in slot order. -/
def rejectsFor (requests : Nat → Request) : List Effect :=
  ((List.range MAX_REQUEST_COUNT).filter (fun i => (requests i).msgId ≠ 0)).map
    (fun i => Effect.vmcfReject (requests i).user (requests i).msgId 2)

/-- The events from start-up to the collision of scenario 2: welcome (F9), a
client request in s_IDLE (WillSend is issued), its device end, and the attention
that announces the next frame of the outside proxy. -/
def eventsCollision : List Event :=
  [Event.attention, Event.readEnd [0xF9], Event.deviceEnd, Event.deviceEnd,
   Event.vmcf requestA, Event.deviceEnd,
   Event.attention]

/-- The state reached from `initialProxy` by `eventsCollision`: s_TRANSMITPREP
with the request of `requestA` (slot 1) in the transmit queue. -/
def collisionProxy : Proxy :=
  (run initialProxy eventsCollision).getD initialProxy

/-- The state after start-up when the first attention interrupt has started
the read of the first frame. -/
def firstReadProxy : Proxy :=
  (run initialProxy [Event.attention]).getD initialProxy

/-- The events from start-up to the point where the packet of `requestA` has
been written (s_TRANSMITTING, transmit queue empty) and the outside proxy has
announced its next frame. -/
def eventsTransmitting : List Event :=
  [Event.attention, Event.readEnd [0xF9], Event.deviceEnd, Event.deviceEnd,
   Event.vmcf requestA, Event.deviceEnd,
   Event.attention, Event.readEnd [0xF1], Event.deviceEnd,
   Event.attention]

/-- The state reached from `initialProxy` by `eventsTransmitting`. -/
def transmittingProxy : Proxy :=
  (run initialProxy eventsTransmitting).getD initialProxy

/-- A 27-byte data frame with want-send (AID 0xF4) for slot 1 in binary mode:
user words 0x11111111 and 0x22222222, four data bytes. -/
def dataFrameF4 : List Nat :=
  [0xF4, 0, 0, 0, 0, 0, 0, 0, 0, 0, 0, 0, 1, 0x11, 0x11, 0x11, 0x11,
   0x22, 0x22, 0x22, 0x22, 0, 4, 0xDE, 0xAD, 0xBE, 0xEF]

/-- The state after the welcome handshake in binary mode: s_IDLE, no request. -/
def idleProxy : Proxy :=
  (run initialProxy
    [Event.attention, Event.readEnd [0xF9], Event.deviceEnd, Event.deviceEnd]).getD initialProxy

/-- An operation on the transmit queue: `enqueueRequest(req)` with the VMCF
interrupt data `hdr`, or `getNextRequestToSend()`. -/
inductive QOp
  | enqueue (hdr : VMCMHDR) (req : Nat)
  | dequeue

/-- Run a sequence of transmit-queue operations; the list holds the results of
the `getNextRequestToSend()` calls in call order. -/
def queueRun : List QOp → Proxy → List (Option Nat)
  | [], _ => []
  | QOp.enqueue hdr req :: ops, st => queueRun ops (enqueueRequest hdr req st)
  | QOp.dequeue :: ops, st =>
    let r := getNextRequestToSend st
    r.1 :: queueRun ops r.2

/-- The same sequence of operations on a first-in first-out list of slots:
enqueue appends at the end, dequeue takes the head, or yields nothing when
the list is empty. -/
def fifoRun : List QOp → List Nat → List (Option Nat)
  | [], _ => []
  | QOp.enqueue _ req :: ops, l => fifoRun ops (l ++ [req])
  | QOp.dequeue :: ops, l => l.head? :: fifoRun ops l.tail

/-- No enqueue of the sequence happens with 127 slots outstanding; `n` is the
number of slots outstanding at the start. -/
def outstandingOk : List QOp → Nat → Bool
  | [], _ => true
  | QOp.enqueue _ _ :: ops, n => decide (n < 127) && outstandingOk ops (n + 1)
  | QOp.dequeue :: ops, n => outstandingOk ops (n - 1)

/-- The transmit queue of `st` holds exactly the slots of `l`, oldest first. -/
def QueueIs (st : Proxy) (l : List Nat) : Prop :=
  st.reqLastOut < 128 ∧
  st.reqLastIn = (st.reqLastOut + l.length) % 128 ∧
  l.length ≤ 127 ∧
  ∀ i, i < l.length → st.reqQueue ((st.reqLastOut + 1 + i) % 128) = l[i]?

/-! ## socket API: inet_addr (NCFSOCKT.C) -/

/-- RCBASE: base for all socket-API (h_)errno values. -/
def RCBASE : Nat := 0x01000000

/-- EOK: operation successful. -/
def EOK : Nat := RCBASE + 0

/-- EINVAL of socket.h. -/
def EINVAL : Nat := RCBASE + 0x070000

/-- The loop `while(*c) { ... }` of `inet_addr` followed by the final return:
`cs` is the rest of the string (a character with code 0 ends it), `nibbles`
the array of the four numbers, `n` the index of the current number.  The
result is the returned `ncs_ulong` and the value left in `h_errno`.  The
characters are those of the source text: which characters are digits, the
value `*c - '0'` of a digit and the dot do not depend on the character set. -/
def inet_addr_loop : List Char → List Nat → Nat → Nat × Nat
  | [], nibbles, _ =>
    (((nibbles.getD 0 0 <<< 24) ||| (nibbles.getD 1 0 <<< 16) ||| (nibbles.getD 2 0 <<< 8)
        ||| nibbles.getD 3 0) % 4294967296, EOK)
  | c :: cs, nibbles, n =>
    if c.toNat = 0 then
      (((nibbles.getD 0 0 <<< 24) ||| (nibbles.getD 1 0 <<< 16) ||| (nibbles.getD 2 0 <<< 8)
          ||| nibbles.getD 3 0) % 4294967296, EOK)
    else if '0' ≤ c ∧ c ≤ '9' then
      let v := nibbles.getD n 0 * 10 + (c.toNat - ('0').toNat)
      if v > 255 then (0xFFFFFFFF, EINVAL)
      else inet_addr_loop cs (nibbles.set n v) n
    else if c = '.' then
      if n + 1 ≥ 4 then (0xFFFFFFFF, EINVAL)
      else inet_addr_loop cs nibbles (n + 1)
    else (EINVAL, EINVAL)

/-- Function `inet_addr(addr)`: `none` is the NULL pointer; the result is the
returned value and the value left in `h_errno`. -/
def inet_addr (addr : Option (List Char)) : Nat × Nat :=
  match addr with
  | none => (0xFFFFFFFF, EINVAL)
  | some cs => inet_addr_loop cs [0, 0, 0, 0] 0

/-! ## socket API: fd_set macros (socket.h) -/

/-- FD_SETSIZE: number of sockets that can be handled. -/
def FD_SETSIZE : Nat := 64

/-- FD_BYTES: size in bytes of the `fd_set` structure. -/
def FD_BYTES : Nat := (FD_SETSIZE + 7) / 8

/-- Macro `__FDSET1(_pos)`: the byte `0x80 >> _pos`.  (As `ncs_char` the
value for position 0 may be negative; the macros combine it with an unsigned
byte by `|=` and `&`, where only its low 8 bits take part.) -/
def FDSET1 (pos : Nat) : Nat :=
  0x80 >>> pos

/-- Macro `__FDSET0(_pos)`: `(ncs_uchar)~__FDSET1(_pos)`. -/
def FDSET0 (pos : Nat) : Nat :=
  0xFF ^^^ FDSET1 pos

/-- The cast `(ncs_uint)_fd` of an `int`. -/
def asUint (fd : Int) : Nat :=
  (fd % 4294967296).toNat

/-- Macro `FD_ZERO(_set)`: `memset(_set, 0, FD_BYTES)` on the array `fd_bytes`. -/
def FD_ZERO (set : Nat → Nat) : Nat → Nat :=
  fun b => if b < FD_BYTES then 0 else set b

/-- Macro `FD_ISSET(_fd, _set)`. -/
def FD_ISSET (fd : Int) (set : Nat → Nat) : Nat :=
  if asUint fd ≥ FD_SETSIZE then 0
  else set (fd.toNat >>> 3) &&& FDSET1 (fd.toNat &&& 0x07)

/-- Macro `FD_SET(_fd, _set)`; the byte is stored as `ncs_uchar`. -/
def FD_SET (fd : Int) (set : Nat → Nat) : Nat → Nat :=
  if asUint fd < FD_SETSIZE then
    Function.update set (fd.toNat >>> 3)
      ((set (fd.toNat >>> 3) ||| FDSET1 (fd.toNat &&& 0x07)) % 256)
  else set

/-- Macro `FD_CLR(_fd, _set)`; the byte is stored as `ncs_uchar`. -/
def FD_CLR (fd : Int) (set : Nat → Nat) : Nat → Nat :=
  if asUint fd < FD_SETSIZE then
    Function.update set (fd.toNat >>> 3)
      ((set (fd.toNat >>> 3) &&& FDSET0 (fd.toNat &&& 0x07)) % 256)
  else set

/-- All bytes of the array `fd_bytes` are byte values. -/
def FdBytes (set : Nat → Nat) : Prop :=
  ∀ b, b < 8 → set b < 256

/-! ## EBCDIC and ISO-Latin-1 translation tables (NICOFCLT.C) -/

/-- Table `e2a_tab`: EBCDIC-bracket to ISO-Latin-1 (simplified). -/
def e2a_tab : List Nat :=
  [0x20, 0x20, 0x20, 0x20, 0x20, 0x20, 0x20, 0x20, 0x20, 0x20, 0x20, 0x20, 0x20, 0x0D, 0x20, 0x20,
   0x20, 0x20, 0x20, 0x20, 0x20, 0x20, 0x20, 0x20, 0x20, 0x20, 0x20, 0x20, 0x20, 0x20, 0x20, 0x20,
   0x20, 0x20, 0x20, 0x20, 0x20, 0x0A, 0x20, 0x20, 0x20, 0x20, 0x20, 0x20, 0x20, 0x20, 0x20, 0x20,
   0x20, 0x20, 0x20, 0x20, 0x20, 0x20, 0x20, 0x20, 0x20, 0x20, 0x20, 0x20, 0x20, 0x20, 0x20, 0x20,
   0x20, 0xA0, 0xE2, 0xE4, 0xE0, 0xE1, 0xE3, 0xE5, 0xE7, 0xF1, 0xA2, 0x2E, 0x3C, 0x28, 0x2B, 0x7C,
   0x26, 0xE9, 0xEA, 0xEB, 0xE8, 0xED, 0xEE, 0xEF, 0xEC, 0xDF, 0x21, 0x24, 0x2A, 0x29, 0x3B, 0xAC,
   0x2D, 0x2F, 0xC2, 0xC4, 0xC0, 0xC1, 0xC3, 0xC5, 0xC7, 0xD1, 0xA6, 0x2C, 0x25, 0x5F, 0x3E, 0x3F,
   0xF8, 0xC9, 0xCA, 0xCB, 0xC8, 0xCD, 0xCE, 0xCF, 0xCC, 0x60, 0x3A, 0x23, 0x40, 0x27, 0x3D, 0x22,
   0xD8, 0x61, 0x62, 0x63, 0x64, 0x65, 0x66, 0x67, 0x68, 0x69, 0xAB, 0xBB, 0xF0, 0xFD, 0xFE, 0xB1,
   0xB0, 0x6A, 0x6B, 0x6C, 0x6D, 0x6E, 0x6F, 0x70, 0x71, 0x72, 0xAA, 0xBA, 0xE6, 0xB8, 0xC6, 0xA4,
   0xB5, 0x7E, 0x73, 0x74, 0x75, 0x76, 0x77, 0x78, 0x79, 0x7A, 0xA1, 0xBF, 0xD0, 0x5B, 0xDE, 0xAE,
   0x5E, 0xA3, 0xA5, 0xB7, 0xA9, 0xA7, 0xB6, 0xBC, 0xBD, 0xBE, 0xDD, 0xA8, 0xAF, 0x5D, 0xB4, 0xD7,
   0x7B, 0x41, 0x42, 0x43, 0x44, 0x45, 0x46, 0x47, 0x48, 0x49, 0xAD, 0xF4, 0xF6, 0xF2, 0xF3, 0xF5,
   0x7D, 0x4A, 0x4B, 0x4C, 0x4D, 0x4E, 0x4F, 0x50, 0x51, 0x52, 0xB9, 0xFB, 0xFC, 0xF9, 0xFA, 0xFF,
   0x5C, 0xF7, 0x53, 0x54, 0x55, 0x56, 0x57, 0x58, 0x59, 0x5A, 0xB2, 0xD4, 0xD6, 0xD2, 0xD3, 0xD5,
   0x30, 0x31, 0x32, 0x33, 0x34, 0x35, 0x36, 0x37, 0x38, 0x39, 0xB3, 0xDB, 0xDC, 0xD9, 0xDA, 0x20]

/-- Table `a2e_tab`: ISO-Latin-1 to EBCDIC-bracket (simplified). -/
def a2e_tab : List Nat :=
  [0x40, 0x40, 0x40, 0x40, 0x40, 0x40, 0x40, 0x40, 0x40, 0x40, 0x25, 0x40, 0x40, 0x0D, 0x40, 0x40,
   0x40, 0x40, 0x40, 0x40, 0x40, 0x40, 0x40, 0x40, 0x40, 0x40, 0x40, 0x40, 0x40, 0x40, 0x40, 0x40,
   0x40, 0x5A, 0x7F, 0x7B, 0x5B, 0x6C, 0x50, 0x7D, 0x4D, 0x5D, 0x5C, 0x4E, 0x6B, 0x60, 0x4B, 0x61,
   0xF0, 0xF1, 0xF2, 0xF3, 0xF4, 0xF5, 0xF6, 0xF7, 0xF8, 0xF9, 0x7A, 0x5E, 0x4C, 0x7E, 0x6E, 0x6F,
   0x7C, 0xC1, 0xC2, 0xC3, 0xC4, 0xC5, 0xC6, 0xC7, 0xC8, 0xC9, 0xD1, 0xD2, 0xD3, 0xD4, 0xD5, 0xD6,
   0xD7, 0xD8, 0xD9, 0xE2, 0xE3, 0xE4, 0xE5, 0xE6, 0xE7, 0xE8, 0xE9, 0xAD, 0xE0, 0xBD, 0xB0, 0x6D,
   0x79, 0x81, 0x82, 0x83, 0x84, 0x85, 0x86, 0x87, 0x88, 0x89, 0x91, 0x92, 0x93, 0x94, 0x95, 0x96,
   0x97, 0x98, 0x99, 0xA2, 0xA3, 0xA4, 0xA5, 0xA6, 0xA7, 0xA8, 0xA9, 0xC0, 0x4F, 0xD0, 0xA1, 0x40,
   0x40, 0x40, 0x40, 0x40, 0x40, 0x40, 0x40, 0x40, 0x40, 0x40, 0x40, 0x40, 0x40, 0x40, 0x40, 0x40,
   0x40, 0x40, 0x40, 0x40, 0x40, 0x40, 0x40, 0x40, 0x40, 0x40, 0x40, 0x40, 0x40, 0x40, 0x40, 0x40,
   0x41, 0xAA, 0x4A, 0xB1, 0x9F, 0xB2, 0x6A, 0xB5, 0xBB, 0xB4, 0x9A, 0x8A, 0x5F, 0xCA, 0xAF, 0xBC,
   0x90, 0x8F, 0xEA, 0xFA, 0xBE, 0xA0, 0xB6, 0xB3, 0x9D, 0xDA, 0x9B, 0x8B, 0xB7, 0xB8, 0xB9, 0xAB,
   0x64, 0x65, 0x62, 0x66, 0x63, 0x67, 0x9E, 0x68, 0x74, 0x71, 0x72, 0x73, 0x78, 0x75, 0x76, 0x77,
   0xAC, 0x69, 0xED, 0xEE, 0xEB, 0xEF, 0xEC, 0xBF, 0x80, 0xFD, 0xFE, 0xFB, 0xFC, 0xBA, 0xAE, 0x59,
   0x44, 0x45, 0x42, 0x46, 0x43, 0x47, 0x9C, 0x48, 0x54, 0x51, 0x52, 0x53, 0x58, 0x55, 0x56, 0x57,
   0x8C, 0x49, 0xCD, 0xCE, 0xCB, 0xCF, 0xCC, 0xE1, 0x70, 0xDD, 0xDE, 0xDB, 0xDC, 0x8D, 0x8E, 0xDF]

/-- The table lookup `e2a[x]` for a byte `x`. -/
def e2a (x : Nat) : Nat :=
  e2a_tab.getD x 0

/-- The table lookup `a2e[x]` for a byte `x`. -/
def a2e (x : Nat) : Nat :=
  a2e_tab.getD x 0

/-- An Enter frame whose bytes 6..10 are not "DIAL ". -/
def helloFrame : List Nat :=
  [0x7D, 0x5B, 0x60, 0x11, 0x5B, 0x5F, 0xC8, 0xC5, 0xD3, 0xD3, 0xD6, 0x40, 0x40, 0x40]

/-- The calls that a transition from `st` to `st1` has added to the trace. -/
def newEffects (st st1 : Proxy) : List Effect :=
  st1.out.drop st.out.length

/-- Slot table, free ring and transmit queue of `st1` are those of `st`. -/
def SameSlots (st st1 : Proxy) : Prop :=
  st1.requests = st.requests ∧ st1.reqFree = st.reqFree ∧
  st1.reqCurrFree = st.reqCurrFree ∧ st1.reqLastFree = st.reqLastFree ∧
  st1.reqQueue = st.reqQueue ∧ st1.reqLastIn = st.reqLastIn ∧
  st1.reqLastOut = st.reqLastOut

/-- The state of `collisionProxy` (s_TRANSMITPREP, slot 1 queued, read started)
when the channel has stored the one-byte frame F3. -/
def collisionF3Proxy : Proxy :=
  channelStore [0xF3] collisionProxy

/-- The state after the device end of the read in `collisionF3Proxy`. -/
def collisionF3Result : Proxy :=
  (devintHandler GRAFDEV (csw2ReadEnd 1) [] collisionF3Proxy).getD initialProxy

/-- Rounds of the resync handshake, one per frame of `frames`: the attention
interrupt starts the read, the device end of the read delivers the frame and has
to issue Reset (`none` otherwise), and the device end of the Reset command
follows. -/
def resetRounds : List (List Nat) → Proxy → Option Proxy
  | [], st => some st
  | f :: fs, st =>
    (deliver st Event.attention).bind fun sa =>
    (deliver sa (Event.readEnd f)).bind fun sb =>
    if Effect.sio Ccw.ccw_handshake_reset ∈ newEffects sa sb then
      (deliver sb Event.deviceEnd).bind (resetRounds fs)
    else none

/-- An Ack frame (AID F1) of the outside proxy without want-send: no 0xF5 in
a byte at offset 3. -/
def plainAck (f : List Nat) : Prop :=
  1 ≤ f.length ∧ f.length ≤ RECV_BUFFER_SIZE ∧ f.getD 0 0 = AID_F1 ∧
  ¬ (3 < f.length ∧ f.getD 3 0 = AID_F5)

/-! ## reference decoder for the in-place property -/

/-- Reference for the in-place property: one pass of the decoding loop that
takes the wire byte and the next block modifier from the unmodified copy
`wire` of the receive buffer, and writes to `s.buf` only. -/
def decodeStepFrom (wire : Nat → Nat) (s : DecState) : DecState :=
  let b := if s.blockModif &&& s.mask ≠ 0 then wire s.block ||| 0x80 else wire s.block
  let buf := Function.update s.buf s.dest b
  let mask := s.mask >>> 1
  if mask = 0 then
    { buf := buf, block := s.block + 2, dest := s.dest + 1,
      blockModif := wire (s.block + 2 + 7), mask := 0x40, dlen := s.dlen - 8 }
  else
    { buf := buf, block := s.block + 1, dest := s.dest + 1,
      blockModif := s.blockModif, mask := mask, dlen := s.dlen }

/-- Reference for the in-place property: the decoding loop reading from the
copy `wire`, at most `fuel` passes. -/
def decodeLoopFrom (wire : Nat → Nat) : Nat → DecState → DecState
  | 0, s => s
  | fuel + 1, s => if s.dlen > 0 then decodeLoopFrom wire fuel (decodeStepFrom wire s) else s

/-- Reference for the in-place property: the decoding of the receive buffer
`buf` with all reads served from an unmodified copy of `buf`. -/
def decodeFromCopy (buf : Nat → Nat) (recvLen : Int) : (Nat → Nat) × Int :=
  let dlen := recvLen - 11
  let s := decodeLoopFrom buf (decodePasses dlen)
    { buf := buf, block := 11, dest := 11, blockModif := buf (11 + 7), mask := 0x40,
      dlen := dlen }
  (s.buf, 11 + ((dlen + 7) / 8) * 7)

/-- The loop variables when the decoding loop is entered. -/
def decodeStart (buf : Nat → Nat) (recvLen : Int) : DecState :=
  { buf := buf, block := 11, dest := 11, blockModif := buf (11 + 7), mask := 0x40,
    dlen := recvLen - 11 }

/-- The indices of `recvBuffer` that one pass through the body of the decoding
loop touches: `*block` (read), `*dest` (written) and, when the pass finishes a
block, `block[7]` of the next block (read ahead). -/
def decodeStepIndices (s : DecState) : List Nat :=
  if s.mask >>> 1 = 0 then [s.block, s.dest, s.block + 2 + 7] else [s.block, s.dest]

/-! ## slot bookkeeping in reachable states -/

/-- A 23-byte data frame with want-send (AID 0xF4) for slot 5 in binary mode:
user words 1 and 2, no data. -/
def freeSlotFrame : List Nat :=
  [0xF4, 0, 0, 0, 0, 0, 0, 0, 0, 0, 0, 0, 5, 0, 0, 0, 1, 0, 0, 0, 2, 0, 0]

/-- The events of `eventsInFlight` (slot 1 in flight, slot 5 never handed out)
followed by four frames of the outside proxy for slot 5, each with its device
end, and then the client request `requestB`. -/
def eventsDoubleFree : List Event :=
  eventsInFlight ++
  [Event.readEnd freeSlotFrame, Event.deviceEnd, Event.attention,
   Event.readEnd freeSlotFrame, Event.deviceEnd, Event.attention,
   Event.readEnd freeSlotFrame, Event.deviceEnd, Event.attention,
   Event.readEnd freeSlotFrame, Event.deviceEnd,
   Event.vmcf requestB]

/-- The slots that `getSlot()` can still hand out in state `st`: the results
of calling it until it reports exhaustion (128 calls are enough). -/
def acquirable (st : Proxy) : List Nat :=
  (getSlots 128 st).1.filterMap id

/-- The slots in the transmit queue of `st`, oldest first: the results of
calling `getNextRequestToSend()` until the queue is empty (128 calls are
enough). -/
def queued (st : Proxy) : List Nat :=
  (queueRun (List.replicate 128 QOp.dequeue) st).filterMap id

/-- A 23-byte data frame (AID 0x7D) for slot 0 in binary mode: user words 1
and 2, no data. -/
def slotZeroFrame : List Nat :=
  [0x7D, 0, 0, 0, 0, 0, 0, 0, 0, 0, 0, 0, 0, 0, 0, 0, 1, 0, 0, 0, 2, 0, 0]

/-- Welcome (F9) and want-send (F5) of the outside proxy, 126 client requests
while the proxy is in s_RECEIVING (slots 1..126), a data frame of the outside
proxy for slot 0 (which was never handed out), the device end of the Ack
(WillSend is issued), two more client requests (slots 127 and 0), the device
end of WillSend, and the attention for the next frame. -/
def eventsQueueWrap : List Event :=
  [Event.attention, Event.readEnd [0xF9], Event.deviceEnd, Event.deviceEnd,
   Event.attention, Event.readEnd [0xF5], Event.deviceEnd] ++
  List.replicate 126 (Event.vmcf requestA) ++
  [Event.attention, Event.readEnd slotZeroFrame, Event.deviceEnd,
   Event.vmcf requestB, Event.vmcf requestC, Event.deviceEnd,
   Event.attention]

/-! ## sequences of slot operations -/

/-- An operation on the slot table: `getSlot()`, `enqueueRequest(req)` with the
VMCF interrupt data `hdr`, `getNextRequestToSend()`, or `freeSlot(req)`. -/
inductive SlotOp
  | acquire
  | enqueue (hdr : VMCMHDR) (req : Nat)
  | dequeue
  | release (req : Nat)

/-- The history of a sequence of slot operations: the slots that are
acquired (handed out by `getSlot()` and not released since), those of them
that have not been enqueued yet, and the slots enqueued and not yet dequeued,
oldest first. -/
structure Book where
  acquired : List Nat
  fresh : List Nat
  queue : List Nat

/-- The history before the first operation. -/
def emptyBook : Book :=
  { acquired := [], fresh := [], queue := [] }

/-- One slot operation on the program state, with the history kept beside. -/
def slotStep (op : SlotOp) (p : Proxy × Book) : Proxy × Book :=
  match op with
  | SlotOp.acquire =>
    let r := getSlot p.1
    match r.1 with
    | none => (r.2, p.2)
    | some q => (r.2, { p.2 with acquired := q :: p.2.acquired, fresh := q :: p.2.fresh })
  | SlotOp.enqueue hdr q =>
    (enqueueRequest hdr q p.1,
      { p.2 with fresh := p.2.fresh.erase q, queue := p.2.queue ++ [q] })
  | SlotOp.dequeue =>
    ((getNextRequestToSend p.1).2, { p.2 with queue := p.2.queue.tail })
  | SlotOp.release q =>
    (freeSlot q p.1,
      { p.2 with acquired := p.2.acquired.erase q, fresh := p.2.fresh.erase q })

/-- A sequence of slot operations. -/
def slotRun : List SlotOp → Proxy × Book → Proxy × Book
  | [], p => p
  | op :: ops, p => slotRun ops (slotStep op p)

/-- Every `freeSlot(req)` of the sequence releases a slot that is acquired at
that time. -/
def releasesAcquired : List SlotOp → Proxy × Book → Bool
  | [], _ => true
  | SlotOp.release q :: ops, p =>
    decide (q ∈ p.2.acquired) && releasesAcquired ops (slotStep (SlotOp.release q) p)
  | op :: ops, p => releasesAcquired ops (slotStep op p)

/-- Every `enqueueRequest(req)` of the sequence enqueues a slot that is
acquired and has not been enqueued since it was acquired. -/
def enqueuesFresh : List SlotOp → Proxy × Book → Bool
  | [], _ => true
  | SlotOp.enqueue hdr q :: ops, p =>
    decide (q ∈ p.2.fresh) && enqueuesFresh ops (slotStep (SlotOp.enqueue hdr q) p)
  | op :: ops, p => enqueuesFresh ops (slotStep op p)

/-- No `freeSlot(req)` of the sequence releases a slot that is still waiting
in the transmit queue. -/
def releasesUnqueued : List SlotOp → Proxy × Book → Bool
  | [], _ => true
  | SlotOp.release q :: ops, p =>
    decide (q ∉ p.2.queue) && releasesUnqueued ops (slotStep (SlotOp.release q) p)
  | op :: ops, p => releasesUnqueued ops (slotStep op p)

/-- Acquire and enqueue `n` times: the slots 1..n of a fresh table. -/
def fillOps : Nat → List SlotOp
  | 0 => []
  | n + 1 => fillOps n ++ [SlotOp.acquire, SlotOp.enqueue requestA (n + 1)]

/-- Fill the table (127 slots acquired and enqueued), release slot 1 while it
waits in the transmit queue, then acquire and enqueue once more (slot 0). -/
def opsReleaseQueued : List SlotOp :=
  fillOps 127 ++ [SlotOp.release 1, SlotOp.acquire, SlotOp.enqueue requestA 0]

/-- The free ring offers 127 slots minus those acquired. -/
def RingInv (p : Proxy × Book) : Prop :=
  p.1.reqCurrFree < 128 ∧ p.1.reqLastFree < 128 ∧
  (p.1.reqLastFree + 128 - p.1.reqCurrFree) % 128 + p.2.acquired.length = 127

/-- The slots not yet enqueued and the slots in the queue are among the
acquired ones, and the transmit queue of the program holds the queue of the
history. -/
def BookInv (p : Proxy × Book) : Prop :=
  (p.2.fresh ++ p.2.queue).Subperm p.2.acquired ∧ QueueIs p.1 p.2.queue

/-- A short sequence in the order of the program: a slot is acquired,
enqueued, dequeued and released, and the next slot is acquired and enqueued. -/
def opsInOrder : List SlotOp :=
  [SlotOp.acquire, SlotOp.enqueue requestA 1, SlotOp.dequeue, SlotOp.release 1,
   SlotOp.acquire, SlotOp.enqueue requestB 2]

/-! ## replies behind the end of a frame, requests with message id 0 -/

/-- The events from start-up to the point where the requests `requestA`
(slot 1) and `requestB` (slot 2) have both been transmitted in binary mode, the
outside proxy has answered the first one with the 27-byte frame `dataFrameF4`
(data DE AD BE EF, with want-send) and has announced its next frame. -/
def eventsTwoInFlight : List Event :=
  [Event.attention, Event.readEnd [0xF9], Event.deviceEnd, Event.deviceEnd,
   Event.vmcf requestA, Event.vmcf requestB, Event.deviceEnd,
   Event.attention, Event.readEnd [0xF1], Event.deviceEnd,
   Event.attention, Event.readEnd [0xF1], Event.deviceEnd,
   Event.attention, Event.readEnd [0xF1], Event.deviceEnd,
   Event.attention, Event.readEnd [0xF3], Event.deviceEnd,
   Event.attention, Event.readEnd dataFrameF4, Event.deviceEnd,
   Event.attention]

/-- The state reached from `initialProxy` by `eventsTwoInFlight`. -/
def twoInFlightProxy : Proxy :=
  (run initialProxy eventsTwoInFlight).getD initialProxy

/-- A 25-byte data frame (AID 0x7D) for slot 2 in binary mode: user words 7
and 8, declared transmit length 4, and the two data bytes AA BB. -/
def shortDataFrame : List Nat :=
  [0x7D, 0, 0, 0, 0, 0, 0, 0, 0, 0, 0, 0, 2, 0, 0, 0, 7, 0, 0, 0, 8, 0, 4, 0xAA, 0xBB]

/-- A client request with VMCF message id 0: user id bytes `C4 40 ...`. -/
def requestZero : VMCMHDR :=
  { vmcmfunc := VMCPSENR, vmcmmid := 0, vmcmuser := [0xC4, 0x40, 0x40, 0x40, 0x40, 0x40, 0x40, 0x40],
    vmcmlena := 3, vmcmuse1 := 7, vmcmuse2 := 8, messageData := [] }

/-- The events of `eventsTakeover` with `requestZero` in the place of the
first request: welcome (F9), three client requests (slots 1, 2, 3), then Clear
(AID 6D) from a new outside proxy and the attention that announces its next
input. -/
def eventsTakeoverZero : List Event :=
  [Event.attention, Event.readEnd [0xF9], Event.deviceEnd, Event.deviceEnd,
   Event.vmcf requestZero, Event.vmcf requestB, Event.vmcf requestC, Event.deviceEnd,
   Event.attention, Event.readEnd [0x6D], Event.deviceEnd,
   Event.attention]

/-- The state reached from `initialProxy` by `eventsTakeoverZero`. -/
def takeoverZeroProxy : Proxy :=
  (run initialProxy eventsTakeoverZero).getD initialProxy

set_option maxRecDepth 100000

/-! ## slot table: acquire -/

theorem getSlot_none_state (st : Proxy) (h : (getSlot st).1 = none) :
    getSlot st = (none, st) := by
  unfold getSlot at h ⊢
  by_cases hc : st.reqCurrFree = st.reqLastFree
  · simp [hc]
  · cases hreq : st.reqFree st.reqCurrFree with
    | none => simp [hc]
    | some req => simp [hc, hreq] at h

/-- C5: when a client send-and-receive (VMCPSENR) arrives and `getSlot()`
reports exhaustion, the state after `handleExt` is the state before it with
exactly one call added to the trace, the reject with reason code 1 for the
request's user and message id: `pstate`, the free ring, the transmit queue and
all slots are unchanged and no SIO is issued. -/
theorem handleExt_exhausted_rejects (hdr : VMCMHDR) (st : Proxy)
    (hfunc : hdr.vmcmfunc = VMCPSENR) (hfull : (getSlot st).1 = none) :
    handleExt 0x4001 hdr st
      = { st with out := st.out ++ [Effect.vmcfReject hdr.vmcmuser hdr.vmcmmid 1] } := by
  have h2 := getSlot_none_state st hfull
  simp [handleExt, hfunc, VMCPSENR, VMCPSENX, h2, sendVmcfReject, emit]

/-- C5 (witness): after 127 acquisitions from the freshly initialised table a
further send-and-receive is rejected with reason 1. -/
theorem handleExt_exhausted_rejects_witness :
    (getSlot (getSlots 127 initialProxy).2).1 = none ∧
    handleExt 0x4001
        { vmcmfunc := VMCPSENR, vmcmmid := 4711, vmcmuser := [1, 2, 3, 4, 5, 6, 7, 8],
          vmcmlena := 5, vmcmuse1 := 1, vmcmuse2 := 2, messageData := [] }
        (getSlots 127 initialProxy).2
      = { (getSlots 127 initialProxy).2 with
          out := (getSlots 127 initialProxy).2.out
            ++ [Effect.vmcfReject [1, 2, 3, 4, 5, 6, 7, 8] 4711 1] } :=
  ⟨by decide, handleExt_exhausted_rejects _ _ rfl (by decide)⟩

/-- C6 (counterexample): from the freshly initialised table the 128th
consecutive `getSlot()` already returns NULL, so 128 calls do not all succeed. -/
theorem getSlot_128th_call_fails :
    (getSlot (getSlots 127 initialProxy).2).1 = none ∧
    ¬ (∀ r ∈ (getSlots 128 initialProxy).1, r ≠ none) := by
  decide

/-- C6 (amended): from the freshly initialised table 127 consecutive
`getSlot()` calls succeed, handing out the slots 1, 2, ..., 127 in this order,
and the 128th call reports exhaustion. -/
theorem getSlot_capacity_127 :
    (getSlots 127 initialProxy).1 = (List.range 127).map (fun i => some (i + 1)) ∧
    (getSlot (getSlots 127 initialProxy).2).1 = none := by
  decide

/-! ## receiving: frames that are answered with Reset -/

/-- C10: a frame with AID 0x7D (Enter) of length 1..20, received in any state
other than s_iRECONNECT_CPREAD, makes `endReceivePacket` issue the Reset
handshake and set the state to s_iRESET; nothing is added to the trace but this
SIO (no reply), the slot table and both rings are unchanged (no slot released)
and the receive buffer is unchanged (no decoding). -/
theorem endReceivePacket_short_enter_resets (csw2 : Nat) (payload : List Nat) (st : Proxy)
    (haid : st.recvBuffer 0 = AID_ENTER)
    (hmin : 1 ≤ recvLenOf csw2) (hshort : recvLenOf csw2 < 21)
    (hstate : st.pstate ≠ s_iRECONNECT_CPREAD) :
    endReceivePacket csw2 payload st
      = some { st with
          inRecv := false
          pstate := s_iRESET
          out := st.out ++ [Effect.sio Ccw.ccw_handshake_reset] } := by
  have h1 : ¬ recvLenOf csw2 < 1 := by omega
  simp [endReceivePacket, haid, AID_ENTER, AID_F1, AID_F2, AID_F3, AID_F4, AID_F5, AID_F9,
    AID_CLEAR, h1, hstate, hshort, enter_iRESET, emit, doSIO]

/-- C10 (witness): an Enter frame of length 18 received in s_RECEIVING. -/
theorem endReceivePacket_short_enter_resets_witness :
    endReceivePacket (csw2ReadEnd 18) []
        (receivingWith false [0x7D, 0, 0, 0, 0, 0, 0, 0, 0, 0, 0, 0, 1, 0, 0, 0, 1, 0])
      = some { receivingWith false [0x7D, 0, 0, 0, 0, 0, 0, 0, 0, 0, 0, 0, 1, 0, 0, 0, 1, 0] with
          inRecv := false
          pstate := s_iRESET
          out := (receivingWith false
              [0x7D, 0, 0, 0, 0, 0, 0, 0, 0, 0, 0, 0, 1, 0, 0, 0, 1, 0]).out
            ++ [Effect.sio Ccw.ccw_handshake_reset] } :=
  endReceivePacket_short_enter_resets _ _ _ (by decide) (by decide) (by decide) (by decide)

/-- C9: a data frame (AID 0x7D or 0xF4) of length at least 21 received in
s_RECEIVING or s_iRECEIVING whose slot index field, read as a signed halfword
from the (decoded) buffer, is negative or at least 128 makes `endReceivePacket`
issue Reset and set the state to s_iRESET; the trace gets this SIO only (no
reply) and the slot table and both rings are unchanged (no slot released). -/
theorem endReceivePacket_bad_slot_resets (csw2 : Nat) (payload : List Nat) (st : Proxy)
    (haid : st.recvBuffer 0 = AID_ENTER ∨ st.recvBuffer 0 = AID_F4)
    (hstate : st.pstate = s_RECEIVING ∨ st.pstate = s_iRECEIVING)
    (hlen : 21 ≤ recvLenOf csw2)
    (hslot : asShort (half_at (decodedBuffer st csw2) 11) < 0
      ∨ asShort (half_at (decodedBuffer st csw2) 11) ≥ 128) :
    endReceivePacket csw2 payload st
      = some { st with
          inRecv := false
          recvBuffer := decodedBuffer st csw2
          pstate := s_iRESET
          out := st.out ++ [Effect.sio Ccw.ccw_handshake_reset] } := by
  have h1 : ¬ recvLenOf csw2 < 1 := by omega
  have h2 : ¬ recvLenOf csw2 < 21 := by omega
  have hs1 : st.pstate ≠ s_iRECONNECT_CPREAD := by
    rcases hstate with h | h <;> simp [h]
  have hs2 : ¬ (st.pstate ≠ s_RECEIVING ∧ st.pstate ≠ s_iRECEIVING) := by
    rcases hstate with h | h <;> simp [h]
  cases hb : st.usingBinaryTransfer <;> simp [decodedBuffer, hb] at hslot <;>
    rcases haid with ha | ha <;>
    simp [endReceivePacket, ha, AID_ENTER, AID_F1, AID_F2, AID_F3, AID_F4, AID_F5, AID_F9,
      AID_CLEAR, h1, h2, hs1, hs2, processData, hb, decodedBuffer, MAX_REQUEST_COUNT, hslot,
      enter_iRESET, emit, doSIO]

/-- C9 (witness): in 7-of-8 mode a 27-byte Enter frame whose first block
modifier sets the high bit of the first slot byte: the decoded slot index is
0x8001, a negative halfword. -/
theorem endReceivePacket_bad_slot_resets_witness :
    endReceivePacket (csw2ReadEnd 27) [] (receivingWith false negativeSlotFrame)
      = some { receivingWith false negativeSlotFrame with
          inRecv := false
          recvBuffer := decodedBuffer (receivingWith false negativeSlotFrame) (csw2ReadEnd 27)
          pstate := s_iRESET
          out := (receivingWith false negativeSlotFrame).out
            ++ [Effect.sio Ccw.ccw_handshake_reset] } :=
  endReceivePacket_bad_slot_resets _ _ _ (by decide) (by decide) (by decide) (by decide)

/-! ## receiving: the reply in binary mode -/

theorem asShort_small (s : Nat) (hs : s < 32768) : asShort s = (s : Int) := by
  unfold asShort
  have : s % 65536 = s := Nat.mod_eq_of_lt (by omega)
  simp [this]
  omega

/-- The reply to a data frame in binary mode, in terms of the receive buffer: a
data frame (AID 0x7D or 0xF4, at least the 21 bytes of a data frame) received
in s_RECEIVING or s_iRECEIVING whose slot index `s` refers to a slot with a
message id other than 0 adds exactly one reply to the trace, followed by the
handshake SIO: the reply goes to the user and message id stored in slot `s`,
carries user-word-1 = bytes 13..16 and user-word-2 = bytes 17..20 of the
buffer (big-endian), and its data are the buffer bytes from offset 23 on, of
the transmit length (bytes 21..22) clamped to `recvLen - 21`, taken from the
unchanged receive buffer; the slot is then put into the free ring at the
position after `reqLastFree` and its message id is cleared. -/
theorem endReceivePacket_binary_reply (csw2 : Nat) (payload : List Nat) (st : Proxy)
    (s : Nat)
    (hbin : st.usingBinaryTransfer = true)
    (haid : st.recvBuffer 0 = AID_ENTER ∨ st.recvBuffer 0 = AID_F4)
    (hstate : st.pstate = s_RECEIVING ∨ st.pstate = s_iRECEIVING)
    (hlen : 21 ≤ recvLenOf csw2)
    (hidx : st.recvBuffer 11 * 256 + st.recvBuffer 12 = s) (hs : s < MAX_REQUEST_COUNT)
    (hinuse : (st.requests s).slot = s ∧ (st.requests s).msgId ≠ 0)
    (h21 : st.recvBuffer 21 < 256) (h22 : st.recvBuffer 22 < 256) :
    ∃ st1, endReceivePacket csw2 payload st = some st1 ∧
      st1.out = st.out ++
        [Effect.vmcfReply (st.requests s).user (st.requests s).msgId
          (st.recvBuffer 13 * 16777216 + st.recvBuffer 14 * 65536
            + st.recvBuffer 15 * 256 + st.recvBuffer 16)
          (st.recvBuffer 17 * 16777216 + st.recvBuffer 18 * 65536
            + st.recvBuffer 19 * 256 + st.recvBuffer 20)
          (min (st.recvBuffer 21 * 256 + st.recvBuffer 22) (recvLenOf csw2 - 21).toNat)
          (bytesFrom st.recvBuffer 23
            (min (st.recvBuffer 21 * 256 + st.recvBuffer 22) (recvLenOf csw2 - 21).toNat)),
         Effect.sio (if st.recvBuffer 0 = AID_F4 then Ccw.ccw_handshake_dosend
                     else Ccw.ccw_handshake_ack)] ∧
      st1.recvBuffer = st.recvBuffer ∧
      st1.reqLastFree = RING_NEXT st.reqLastFree ∧
      st1.reqFree = Function.update st.reqFree (RING_NEXT st.reqLastFree) (some s) ∧
      st1.reqCurrFree = st.reqCurrFree ∧
      (st1.requests s).msgId = 0 := by
  have h1 : ¬ recvLenOf csw2 < 1 := by omega
  have h2 : ¬ recvLenOf csw2 < 21 := by omega
  have hs1 : st.pstate ≠ s_iRECONNECT_CPREAD := by
    rcases hstate with h | h <;> simp [h]
  have hs2 : ¬ (st.pstate ≠ s_RECEIVING ∧ st.pstate ≠ s_iRECEIVING) := by
    rcases hstate with h | h <;> simp [h]
  have hs' : s < 128 := hs
  have hlen' : recvLenOf csw2 ≤ 2560 := by
    unfold recvLenOf RECV_BUFFER_SIZE
    omega
  have hhalf : half_at st.recvBuffer 11 = s := hidx
  have hshort : asShort s = (s : Int) := asShort_small s (by omega)
  have hrd : ((recvLenOf csw2 - 21) % 65536).toNat = (recvLenOf csw2 - 21).toNat := by
    congr 1
    omega
  have hx : half_at st.recvBuffer 21 % 65536 = st.recvBuffer 21 * 256 + st.recvBuffer 22 := by
    have h0 : half_at st.recvBuffer 21 = st.recvBuffer 21 * 256 + st.recvBuffer 22 := rfl
    rw [h0]
    omega
  have hmin : ∀ a b : Nat, (if b < a then b else a) = min a b := by
    intro a b
    split <;> omega
  have hge : ¬ ((s : Int) < 0 ∨ 128 ≤ s) := by omega
  rcases haid with ha | ha <;>
    simp [endReceivePacket, ha, AID_ENTER, AID_F1, AID_F2, AID_F3, AID_F4, AID_F5, AID_F9,
      AID_CLEAR, h1, h2, hs1, hs2, processData, hbin, MAX_REQUEST_COUNT, hhalf, hshort, hge,
      hinuse.1, hrd, hx, hmin, full_at, enter_iRECEIVING, enter_iIDLE, emit, doSIO,
      sendVmcfReplyForSlot, freeSlot]

/-- Example for `endReceivePacket_binary_reply`: the response to the in-flight
request in slot 1, a 27-byte Enter frame with user words 0x11111111,
0x22222222 and four data bytes. -/
theorem endReceivePacket_binary_reply_witness :
    ∃ st1, endReceivePacket (csw2ReadEnd 27) []
        (channelStore [0x7D, 0, 0, 0, 0, 0, 0, 0, 0, 0, 0, 0, 1, 0x11, 0x11, 0x11, 0x11,
          0x22, 0x22, 0x22, 0x22, 0, 4, 0xDE, 0xAD, 0xBE, 0xEF] inFlightProxy) = some st1 ∧
      st1.out = inFlightProxy.out ++
        [Effect.vmcfReply [0xC1, 0x40, 0x40, 0x40, 0x40, 0x40, 0x40, 0x40] 100
          0x11111111 0x22222222 4 [0xDE, 0xAD, 0xBE, 0xEF],
         Effect.sio Ccw.ccw_handshake_ack] ∧
      (st1.requests 1).msgId = 0 := by
  obtain ⟨st1, h, hout, -, -, -, -, hfree⟩ :=
    endReceivePacket_binary_reply (csw2ReadEnd 27) []
      (channelStore [0x7D, 0, 0, 0, 0, 0, 0, 0, 0, 0, 0, 0, 1, 0x11, 0x11, 0x11, 0x11,
          0x22, 0x22, 0x22, 0x22, 0, 4, 0xDE, 0xAD, 0xBE, 0xEF] inFlightProxy) 1
      (by decide) (by decide) (by decide) (by decide) (by decide) (by decide) (by decide)
      (by decide) (by decide)
  exact ⟨st1, h, hout.trans (by decide), hfree⟩

/-! ## reset on reconnect -/

theorem resetLoop_eq (n : Nat) : ∀ (i : Nat) (st : Proxy),
    resetLoop n i st = { st with
      out := st.out ++
        ((List.range' i n).filter (fun k => (st.requests k).msgId ≠ 0)).map
          (fun k => Effect.vmcfReject (st.requests k).user (st.requests k).msgId 2) } := by
  induction n with
  | zero => intro i st; simp [resetLoop]
  | succ n ih =>
    intro i st
    rw [resetLoop, ih]
    by_cases h : (st.requests i).msgId = 0
    · simp [h, List.range'_succ]
    · simp [h, List.range'_succ, sendVmcfReject, emit]

theorem resetAllRequests_out (st : Proxy) :
    (resetAllRequests st).out = st.out ++ rejectsFor st.requests := by
  simp [resetAllRequests, initRequestBuffers, resetLoop_eq, rejectsFor, List.range_eq_range']

/-- The takeover in terms of the message ids stored in the slot table: an Enter
frame received in s_iRECONNECT_CPREAD whose bytes 6..10 are "DIAL " makes
`endReceivePacket` add to the trace one reject with reason 2 for each slot
whose message id is not 0 (the test of `resetAllRequests()`),
addressed to the user and message id stored in the slot, no reject for any
other slot, and then the SIO of the "dialed" message; the state becomes
s_INITIAL, and the slot table and both rings are as `initRequestBuffers()`
leaves them: every slot free, the transmit queue empty. -/
theorem endReceivePacket_dial_resets_all (csw2 : Nat) (payload : List Nat) (st : Proxy)
    (haid : st.recvBuffer 0 = AID_ENTER)
    (hstate : st.pstate = s_iRECONNECT_CPREAD)
    (hlen : 1 ≤ recvLenOf csw2)
    (hdial : st.recvBuffer 6 = chr_D ∧ st.recvBuffer 7 = chr_I ∧ st.recvBuffer 8 = chr_A
      ∧ st.recvBuffer 9 = chr_L ∧ st.recvBuffer 10 = chr_SP) :
    ∃ st1, endReceivePacket csw2 payload st = some st1 ∧
      st1.out = st.out ++
        ((List.range MAX_REQUEST_COUNT).filter (fun i => (st.requests i).msgId ≠ 0)).map
          (fun i => Effect.vmcfReject (st.requests i).user (st.requests i).msgId 2)
        ++ [Effect.sio Ccw.ccw_reconnect_dialed] ∧
      st1.pstate = s_INITIAL ∧
      st1.requests = initialProxy.requests ∧
      st1.reqFree = initialProxy.reqFree ∧
      st1.reqCurrFree = 1 ∧ st1.reqLastFree = 0 ∧
      (∀ i, (st1.requests i).msgId = 0) ∧
      (∀ i, i < MAX_REQUEST_COUNT → st1.reqFree i = some i) ∧
      (∀ i, st1.reqQueue i = none) ∧ st1.reqLastIn = 0 ∧ st1.reqLastOut = 0 ∧
      havingRequest st1 = false := by
  have h1 : ¬ recvLenOf csw2 < 1 := by omega
  obtain ⟨d6, d7, d8, d9, d10⟩ := hdial
  have hout := resetAllRequests_out { st with inRecv := false }
  have hend : endReceivePacket csw2 payload st
      = some (enter_iRECONNECT_DIALED (resetAllRequests { st with inRecv := false })) := by
    simp [endReceivePacket, haid, AID_ENTER, AID_F1, AID_F2, AID_F3, AID_F5, AID_F9,
      AID_CLEAR, h1, hstate, d6, d7, d8, d9, d10]
  refine ⟨_, hend, ?_, ?_, ?_, ?_, ?_, ?_, ?_, ?_, ?_, ?_, ?_, ?_⟩
  · simp [enter_iRECONNECT_DIALED, emit, doSIO, hout, rejectsFor]
  · simp [enter_iRECONNECT_DIALED, emit, doSIO]
  · simp [enter_iRECONNECT_DIALED, emit, doSIO, resetAllRequests, initRequestBuffers,
      initialProxy]
  · simp [enter_iRECONNECT_DIALED, emit, doSIO, resetAllRequests, initRequestBuffers,
      initialProxy]
  · simp [enter_iRECONNECT_DIALED, emit, doSIO, resetAllRequests, initRequestBuffers]
  · simp [enter_iRECONNECT_DIALED, emit, doSIO, resetAllRequests, initRequestBuffers]
  · intro i
    simp only [enter_iRECONNECT_DIALED, emit, doSIO, resetAllRequests, initRequestBuffers]
    split <;> rfl
  · intro i hi
    simp [enter_iRECONNECT_DIALED, emit, doSIO, resetAllRequests, initRequestBuffers, hi]
  · simp [enter_iRECONNECT_DIALED, emit, doSIO, resetAllRequests, initRequestBuffers]
  · simp [enter_iRECONNECT_DIALED, emit, doSIO, resetAllRequests, initRequestBuffers]
  · simp [enter_iRECONNECT_DIALED, emit, doSIO, resetAllRequests, initRequestBuffers]
  · simp [enter_iRECONNECT_DIALED, emit, doSIO, resetAllRequests, initRequestBuffers,
      havingRequest]

/-- Example for `endReceivePacket_dial_resets_all`: the takeover of scenario 4,
three requests in the slots 1, 2, 3 when the "DIAL " input arrives. -/
theorem endReceivePacket_dial_resets_all_witness :
    ∃ st1, endReceivePacket (csw2ReadEnd 14) [] (channelStore dialFrame takeoverProxy)
        = some st1 ∧
      st1.out = takeoverProxy.out ++
        [Effect.vmcfReject [0xC1, 0x40, 0x40, 0x40, 0x40, 0x40, 0x40, 0x40] 100 2,
         Effect.vmcfReject [0xC2, 0x40, 0x40, 0x40, 0x40, 0x40, 0x40, 0x40] 200 2,
         Effect.vmcfReject [0xC3, 0x40, 0x40, 0x40, 0x40, 0x40, 0x40, 0x40] 300 2,
         Effect.sio Ccw.ccw_reconnect_dialed] ∧
      st1.pstate = s_INITIAL := by
  obtain ⟨st1, h, hout, hstate, -⟩ :=
    endReceivePacket_dial_resets_all (csw2ReadEnd 14) []
      (channelStore dialFrame takeoverProxy)
      (by decide) (by decide) (by decide) (by decide)
  exact ⟨st1, h, hout.trans (by decide), hstate⟩

/-! ## receiving: defects -/

/-- C8 (code at the failing input): in `inFlightProxy` slot 5 is free (message
id 0, still in the free ring at position 5); a 23-byte Enter frame for slot 5
is nevertheless answered with a VMCF reply (to message id 0) and slot 5 is put
into the free ring a second time, at position 1, with `reqLastFree` advanced
from 0 to 1. -/
theorem endReceivePacket_free_slot_replies :
    (inFlightProxy.requests 5).msgId = 0 ∧ inFlightProxy.reqFree 5 = some 5 ∧
    inFlightProxy.reqLastFree = 0 ∧
    (endReceivePacket (csw2ReadEnd 23) []
        (channelStore [0x7D, 0, 0, 0, 0, 0, 0, 0, 0, 0, 0, 0, 5, 0, 0, 0, 1, 0, 0, 0, 2, 0, 0]
          inFlightProxy)).map
      (fun s => (s.out, s.reqLastFree, s.reqFree 1, s.reqFree 5, s.pstate))
    = some (inFlightProxy.out ++
        [Effect.vmcfReply [0, 0, 0, 0, 0, 0, 0, 0] 0 1 2 0 [],
         Effect.sio Ccw.ccw_handshake_ack], 1, some 5, some 5, s_iIDLE) := by
  decide

/-- C4 (code at the failing input): a 25-byte Enter frame for the in-flight
slot 1 declares a transmit length of 4 but holds only the two data bytes
0xAA 0xBB after the 23 bytes of AID, framing and header fields; the reply is
issued with length 4 and takes two bytes from behind the frame. -/
theorem endReceivePacket_reply_exceeds_frame :
    recvLenOf (csw2ReadEnd 25) = 25 ∧
    (endReceivePacket (csw2ReadEnd 25) []
        (channelStore [0x7D, 0, 0, 0, 0, 0, 0, 0, 0, 0, 0, 0, 1, 0, 0, 0, 7, 0, 0, 0, 8,
          0, 4, 0xAA, 0xBB] inFlightProxy)).map (fun s => s.out)
    = some (inFlightProxy.out ++
        [Effect.vmcfReply [0xC1, 0x40, 0x40, 0x40, 0x40, 0x40, 0x40, 0x40] 100 7 8 4
          [0xAA, 0xBB, 0, 0],
         Effect.sio Ccw.ccw_handshake_ack]) := by
  decide

/-! ## 7-to-8 decoding -/

theorem mask_shift : ∀ j, j < 6 →
    ((0x40 >>> j) >>> 1 = 0x40 >>> (j + 1) ∧ (0x40 >>> j) >>> 1 ≠ 0) := by
  decide

theorem decodeStep_inv (wire : Nat → Nat) (d : Int) (n : Nat) (s : DecState)
    (h : DecInv wire d n s) : DecInv wire d (n + 1) (decodeStep s) := by
  obtain ⟨hb, hd, hm, hbm, hdl, hrest, hdone⟩ := h
  have hj : n % 7 < 7 := Nat.mod_lt _ (by norm_num)
  have hread : s.buf s.block = wire (11 + 8 * (n / 7) + n % 7) := by
    rw [hb]
    apply hrest
    omega
  have hbyte : (if s.blockModif &&& s.mask ≠ 0 then s.buf s.block ||| 0x80 else s.buf s.block)
      = decodedByte wire n := by
    simp only [decodedByte, hbm, hm, hread]
  have hdone1 : ∀ m, m < n + 1 →
      Function.update s.buf s.dest
        (if s.blockModif &&& s.mask ≠ 0 then s.buf s.block ||| 0x80 else s.buf s.block)
        (11 + m) = decodedByte wire m := by
    intro m hmlt
    by_cases hmn : m = n
    · subst hmn
      rw [hd, Function.update_same, hbyte]
    · rw [Function.update_noteq (by omega)]
      exact hdone m (by omega)
  have hrest1 : ∀ i, 11 + (n + 1) ≤ i →
      Function.update s.buf s.dest
        (if s.blockModif &&& s.mask ≠ 0 then s.buf s.block ||| 0x80 else s.buf s.block) i
        = wire i := by
    intro i hi
    rw [Function.update_noteq (by omega)]
    exact hrest i (by omega)
  by_cases h6 : n % 7 = 6
  · have e1 : (n + 1) / 7 = n / 7 + 1 := by omega
    have e2 : (n + 1) % 7 = 0 := by omega
    have hmask : s.mask >>> 1 = 0 := by
      rw [hm, h6]
      decide
    unfold decodeStep
    simp only [hmask, if_true]
    refine ⟨?_, ?_, ?_, ?_, ?_, hrest1, hdone1⟩
    · show s.block + 2 = _
      rw [e1, e2, hb]
      omega
    · show s.dest + 1 = _
      rw [hd]
      omega
    · show 0x40 = _
      rw [e2]
      decide
    · show Function.update s.buf s.dest _ (s.block + 2 + 7) = _
      rw [hrest1 _ (by omega), e1, hb]
      congr 1
      omega
    · show s.dlen - 8 = _
      rw [e1, hdl]
      push_cast
      omega
  · have e1 : (n + 1) / 7 = n / 7 := by omega
    have e2 : (n + 1) % 7 = n % 7 + 1 := by omega
    have hk := mask_shift (n % 7) (by omega)
    have hmask : s.mask >>> 1 = 0x40 >>> (n % 7 + 1) := by
      rw [hm]
      exact hk.1
    have hmask0 : ¬ (s.mask >>> 1 = 0) := by
      rw [hm]
      exact hk.2
    unfold decodeStep
    simp only [hmask0, if_false]
    refine ⟨?_, ?_, ?_, ?_, ?_, hrest1, hdone1⟩
    · show s.block + 1 = _
      rw [e1, e2, hb]
      omega
    · show s.dest + 1 = _
      rw [hd]
      omega
    · show s.mask >>> 1 = _
      rw [e2]
      exact hmask
    · show s.blockModif = _
      rw [e1]
      exact hbm
    · show s.dlen = _
      rw [e1]
      exact hdl

theorem decodePasses_pos (d : Int) (n : Nat) (h : n < decodePasses d) :
    0 < d - 8 * ((n / 7 : Nat) : Int) := by
  unfold decodePasses at h
  omega

theorem decodeLoop_inv (wire : Nat → Nat) (d : Int) : ∀ (f n : Nat) (s : DecState),
    DecInv wire d n s → n + f ≤ decodePasses d → DecInv wire d (n + f) (decodeLoop f s) := by
  intro f
  induction f with
  | zero => intro n s h _; simpa [decodeLoop] using h
  | succ f ih =>
    intro n s h hle
    have hpos : s.dlen > 0 := by
      rw [h.2.2.2.2.1]
      exact decodePasses_pos d n (by omega)
    rw [decodeLoop, if_pos hpos]
    have := ih (n + 1) (decodeStep s) (decodeStep_inv wire d n s h) (by omega)
    rwa [show n + (f + 1) = n + 1 + f by omega]

theorem decode7to8_inv (buf : Nat → Nat) (recvLen : Int) :
    DecInv buf (recvLen - 11) (decodePasses (recvLen - 11))
      (decodeLoop (decodePasses (recvLen - 11))
        { buf := buf, block := 11, dest := 11, blockModif := buf (11 + 7), mask := 0x40,
          dlen := recvLen - 11 }) := by
  have h0 : DecInv buf (recvLen - 11) 0
      { buf := buf, block := 11, dest := 11, blockModif := buf (11 + 7), mask := 0x40,
        dlen := recvLen - 11 } := by
    refine ⟨rfl, rfl, rfl, rfl, by simp, fun _ _ => rfl, fun m hm => absurd hm (by omega)⟩
  have := decodeLoop_inv buf (recvLen - 11) (decodePasses (recvLen - 11)) 0 _ h0 (by omega)
  simpa using this

/-- The decoding loop has left the `while` when its passes are used up: the
remaining `dlen` is not positive. -/
theorem decodeLoop_exits (buf : Nat → Nat) (recvLen : Int) :
    (decodeLoop (decodePasses (recvLen - 11))
        { buf := buf, block := 11, dest := 11, blockModif := buf (11 + 7), mask := 0x40,
          dlen := recvLen - 11 }).dlen ≤ 0 := by
  have h := (decode7to8_inv buf recvLen).2.2.2.2.1
  rw [h]
  unfold decodePasses
  have : 7 * ((recvLen - 11 + 7) / 8).toNat / 7 = ((recvLen - 11 + 7) / 8).toNat := by omega
  rw [this]
  omega

theorem decodeLoop_stable (f : Nat) (s : DecState) (h : s.dlen ≤ 0) :
    decodeLoop f s = s := by
  cases f with
  | zero => rfl
  | succ f => rw [decodeLoop, if_neg (by omega)]

theorem decodeLoop_add : ∀ (f g : Nat) (s : DecState),
    decodeLoop (f + g) s = decodeLoop g (decodeLoop f s) := by
  intro f
  induction f with
  | zero => intro g s; simp [decodeLoop]
  | succ f ih =>
    intro g s
    rw [show f + 1 + g = (f + g) + 1 by omega, decodeLoop, decodeLoop]
    by_cases hpos : s.dlen > 0
    · rw [if_pos hpos, if_pos hpos, ih]
    · rw [if_neg hpos, if_neg hpos, decodeLoop_stable g s (by omega)]

/-- The number of passes given to the decoding loop is enough: with any
number of further passes allowed the loop ends in the same state. -/
theorem decodeLoop_fuel_enough (buf : Nat → Nat) (recvLen : Int) (g : Nat) :
    decodeLoop (decodePasses (recvLen - 11) + g)
        { buf := buf, block := 11, dest := 11, blockModif := buf (11 + 7), mask := 0x40,
          dlen := recvLen - 11 }
      = decodeLoop (decodePasses (recvLen - 11))
        { buf := buf, block := 11, dest := 11, blockModif := buf (11 + 7), mask := 0x40,
          dlen := recvLen - 11 } := by
  rw [decodeLoop_add, decodeLoop_stable g _ (decodeLoop_exits buf recvLen)]

theorem decode7to8_byte (buf : Nat → Nat) (recvLen : Int) (m : Nat)
    (hm : m < decodePasses (recvLen - 11)) :
    (decode7to8 buf recvLen).1 (11 + m) = decodedByte buf m :=
  (decode7to8_inv buf recvLen).2.2.2.2.2.2 m hm

theorem ceil_div_eight (d : Int) : (d + 7) / 8 = ⌈(d : ℚ) / 8⌉ := by
  symm
  rw [Int.ceil_eq_iff]
  have h1 : 8 * ((d + 7) / 8) - 8 < d := by omega
  have h2 : d ≤ 8 * ((d + 7) / 8) := by omega
  have h1q : (8 : ℚ) * (((d + 7) / 8 : Int) : ℚ) - 8 < (d : ℚ) := by exact_mod_cast h1
  have h2q : (d : ℚ) ≤ 8 * (((d + 7) / 8 : Int) : ℚ) := by exact_mod_cast h2
  constructor
  · linarith
  · linarith

/-- C2: the 7-to-8 decoding of `endReceivePacket` maps each 8-byte wire block
of the region behind the first 11 bytes to 7 bytes: for every block `k` that
starts inside the region of `dlen = recvLen - 11` wire bytes and every
`j` in 0..6, the decoded byte at 11 + 7k + j is the wire byte at 11 + 8k + j,
with 0x80 or-ed in exactly when the bit `0x40 >> j` of the block's eighth byte
(wire byte 11 + 8k + 7) is set; the new `recvLen` is 11 + 7 * ceil(dlen / 8). -/
theorem decode7to8_maps_blocks (buf : Nat → Nat) (recvLen : Int) (k j : Nat)
    (hk : 8 * (k : Int) < recvLen - 11) (hj : j < 7) :
    (decode7to8 buf recvLen).1 (11 + 7 * k + j)
      = (if buf (11 + 8 * k + 7) &&& (0x40 >>> j) ≠ 0 then buf (11 + 8 * k + j) ||| 0x80
         else buf (11 + 8 * k + j)) ∧
    (decode7to8 buf recvLen).2 = 11 + 7 * ⌈((recvLen - 11 : Int) : ℚ) / 8⌉ := by
  constructor
  · have hm : 7 * k + j < decodePasses (recvLen - 11) := by
      unfold decodePasses
      omega
    have e1 : (7 * k + j) / 7 = k := by omega
    have e2 : (7 * k + j) % 7 = j := by omega
    have := decode7to8_byte buf recvLen (7 * k + j) hm
    rw [show 11 + (7 * k + j) = 11 + 7 * k + j by omega] at this
    rw [this, decodedByte, e1, e2]
  · rw [← ceil_div_eight]
    show 11 + (recvLen - 11 + 7) / 8 * 7 = _
    ring

/-- C2 (witness): a frame of 27 bytes (two wire blocks), block 1, position 2. -/
theorem decode7to8_maps_blocks_witness :
    (decode7to8 sampleWire 27).1 (11 + 7 * 1 + 2)
      = (if sampleWire (11 + 8 * 1 + 7) &&& (0x40 >>> 2) ≠ 0
         then sampleWire (11 + 8 * 1 + 2) ||| 0x80
         else sampleWire (11 + 8 * 1 + 2)) ∧
    (decode7to8 sampleWire 27).2 = 11 + 7 * ⌈((27 - 11 : Int) : ℚ) / 8⌉ :=
  decode7to8_maps_blocks sampleWire 27 1 2 (by decide) (by decide)

/-! ## 7-to-8 round trip -/

theorem encode7of8_length (B : List Nat) :
    (encode7of8 B).length = 8 * ((B.length + 6) / 7) := by
  simp [encode7of8]

theorem encode7of8_getD (B : List Nat) (i : Nat) (hi : i < 8 * ((B.length + 6) / 7)) :
    (encode7of8 B).getD i 0
      = if i % 8 < 7 then B.getD (7 * (i / 8) + i % 8) 0 % 128 else encodeModifier B (i / 8) := by
  simp [encode7of8, List.getD_eq_getElem?_getD, hi]

theorem bit_of_modifier : ∀ x, x < 128 → ∀ j, j < 7 →
    ((x &&& (0x40 >>> j) ≠ 0) ↔ x / (0x40 >>> j) % 2 = 1) := by
  decide

theorem strip_restore : ∀ b, b < 256 →
    (if b / 128 % 2 = 1 then b % 128 ||| 0x80 else b % 128) = b := by
  decide

theorem modifier_digits (a b c d e f g : Nat) (ha : a ≤ 1) (hb : b ≤ 1) (hc : c ≤ 1)
    (hd : d ≤ 1) (he : e ≤ 1) (hf : f ≤ 1) (hg : g ≤ 1) :
    (a * 64 + b * 32 + c * 16 + d * 8 + e * 4 + f * 2 + g) / 64 % 2 = a ∧
    (a * 64 + b * 32 + c * 16 + d * 8 + e * 4 + f * 2 + g) / 32 % 2 = b ∧
    (a * 64 + b * 32 + c * 16 + d * 8 + e * 4 + f * 2 + g) / 16 % 2 = c ∧
    (a * 64 + b * 32 + c * 16 + d * 8 + e * 4 + f * 2 + g) / 8 % 2 = d ∧
    (a * 64 + b * 32 + c * 16 + d * 8 + e * 4 + f * 2 + g) / 4 % 2 = e ∧
    (a * 64 + b * 32 + c * 16 + d * 8 + e * 4 + f * 2 + g) / 2 % 2 = f ∧
    (a * 64 + b * 32 + c * 16 + d * 8 + e * 4 + f * 2 + g) / 1 % 2 = g ∧
    a * 64 + b * 32 + c * 16 + d * 8 + e * 4 + f * 2 + g < 128 := by
  refine ⟨?_, ?_, ?_, ?_, ?_, ?_, ?_, ?_⟩ <;> omega

theorem highBit_le (b : Nat) : highBit b ≤ 1 := by
  unfold highBit
  omega

theorem encodeModifier_bit (B : List Nat) (k j : Nat) (hj : j < 7) :
    (encodeModifier B k &&& (0x40 >>> j) ≠ 0) ↔ highBit (B.getD (7 * k + j) 0) = 1 := by
  have key := modifier_digits _ _ _ _ _ _ _
    (highBit_le (B.getD (7 * k) 0)) (highBit_le (B.getD (7 * k + 1) 0))
    (highBit_le (B.getD (7 * k + 2) 0)) (highBit_le (B.getD (7 * k + 3) 0))
    (highBit_le (B.getD (7 * k + 4) 0)) (highBit_le (B.getD (7 * k + 5) 0))
    (highBit_le (B.getD (7 * k + 6) 0))
  have hlt : encodeModifier B k < 128 := key.2.2.2.2.2.2.2
  rw [bit_of_modifier _ hlt j hj]
  have hdig : encodeModifier B k / (0x40 >>> j) % 2 = highBit (B.getD (7 * k + j) 0) := by
    interval_cases j
    · exact key.1
    · exact key.2.1
    · exact key.2.2.1
    · exact key.2.2.2.1
    · exact key.2.2.2.2.1
    · exact key.2.2.2.2.2.1
    · exact key.2.2.2.2.2.2.1
  rw [hdig]

/-- C3: round trip of the 7-of-8 encoding: for every byte string `B` (bytes
below 256, any length, in particular 0 to 2048), the 7-to-8 decoding of
`endReceivePacket`, applied to a receive buffer that holds the encoding of `B`
as its region behind the first 11 bytes, leaves exactly the bytes of `B` at
the start of that region. -/
theorem decode7to8_encode7of8 (B : List Nat) (other : Nat → Nat)
    (hB : ∀ b ∈ B, b < 256) :
    bytesFrom
      (decode7to8 (withRegion (encode7of8 B) other) (11 + ((encode7of8 B).length : Int))).1
      11 B.length = B := by
  apply List.ext_getElem
  · simp [bytesFrom]
  · intro i h1 h2
    have hi : i < B.length := h2
    have hq : i / 7 < (B.length + 6) / 7 := by omega
    have hm : i < decodePasses (11 + ((encode7of8 B).length : Int) - 11) := by
      rw [encode7of8_length]
      unfold decodePasses
      push_cast
      omega
    have hbyte := decode7to8_byte (withRegion (encode7of8 B) other)
      (11 + ((encode7of8 B).length : Int)) i hm
    have hw1 : withRegion (encode7of8 B) other (11 + 8 * (i / 7) + i % 7)
        = B.getD i 0 % 128 := by
      have hr : i % 7 < 7 := Nat.mod_lt _ (by norm_num)
      have hidx : 8 * (i / 7) + i % 7 < 8 * ((B.length + 6) / 7) := by omega
      have e1 : (8 * (i / 7) + i % 7) / 8 = i / 7 := by omega
      have e2 : (8 * (i / 7) + i % 7) % 8 = i % 7 := by omega
      have e3 : 7 * (i / 7) + i % 7 = i := by omega
      have e4 : 11 + 8 * (i / 7) + i % 7 - 11 = 8 * (i / 7) + i % 7 := by omega
      unfold withRegion
      rw [if_pos (by rw [encode7of8_length]; omega), e4, encode7of8_getD B _ hidx, e1, e2,
        if_pos hr, e3]
    have hw2 : withRegion (encode7of8 B) other (11 + 8 * (i / 7) + 7)
        = encodeModifier B (i / 7) := by
      have hidx : 8 * (i / 7) + 7 < 8 * ((B.length + 6) / 7) := by omega
      have e1 : (8 * (i / 7) + 7) / 8 = i / 7 := by omega
      have e2 : (8 * (i / 7) + 7) % 8 = 7 := by omega
      have e4 : 11 + 8 * (i / 7) + 7 - 11 = 8 * (i / 7) + 7 := by omega
      unfold withRegion
      rw [if_pos (by rw [encode7of8_length]; omega), e4, encode7of8_getD B _ hidx, e1, e2,
        if_neg (by omega)]
    have hbit := encodeModifier_bit B (i / 7) (i % 7) (Nat.mod_lt _ (by norm_num))
    have e3 : 7 * (i / 7) + i % 7 = i := by omega
    rw [e3] at hbit
    have hlt : B.getD i 0 < 256 := by
      rw [List.getD_eq_getElem _ _ hi]
      exact hB _ (List.getElem_mem _)
    have hfin := strip_restore (B.getD i 0) hlt
    simp only [bytesFrom, List.getElem_map, List.getElem_range]
    rw [hbyte, decodedByte, hw1, hw2]
    rw [List.getD_eq_getElem _ _ hi] at hfin hbit ⊢
    unfold highBit at hbit
    by_cases hh : B[i] / 128 % 2 = 1
    · rw [if_pos (hbit.mpr hh)]
      rw [if_pos hh] at hfin
      exact hfin
    · rw [if_neg (fun hc => hh (hbit.mp hc))]
      rw [if_neg hh] at hfin
      exact hfin

/-- C3 (witness): a string of nine bytes, some with the high bit set, that
fills one group of seven and part of a second. -/
theorem decode7to8_encode7of8_witness :
    bytesFrom
      (decode7to8
        (withRegion (encode7of8 [0x77, 0xEF, 0x72, 0x6C, 0xE4, 0x80, 0xFF, 0x00, 0x99])
          (fun _ => 0))
        (11 + ((encode7of8 [0x77, 0xEF, 0x72, 0x6C, 0xE4, 0x80, 0xFF, 0x00, 0x99]).length
          : Int))).1
      11 [0x77, 0xEF, 0x72, 0x6C, 0xE4, 0x80, 0xFF, 0x00, 0x99].length
      = [0x77, 0xEF, 0x72, 0x6C, 0xE4, 0x80, 0xFF, 0x00, 0x99] :=
  decode7to8_encode7of8 [0x77, 0xEF, 0x72, 0x6C, 0xE4, 0x80, 0xFF, 0x00, 0x99] (fun _ => 0)
    (by decide)

/-! ## handshake tokens -/

/-- C11: a want-send frame (AID 0xF5): in s_IDLE `endReceivePacket` issues
DoSend and enters s_iRECEIVING; in s_TRANSMITPREP it re-issues WillSend and
enters s_iTRANSMITPREP (not s_iRECEIVING); in every other state it issues Reset
and enters s_iRESET.  In all three cases the result is the old state with only
`inRecv`, `pstate` and the trace changed: slot table and both rings are
unchanged. -/
theorem endReceivePacket_want_send (csw2 : Nat) (payload : List Nat) (st : Proxy)
    (haid : st.recvBuffer 0 = AID_F5) (hlen : 1 ≤ recvLenOf csw2) :
    endReceivePacket csw2 payload st
      = some { st with
          inRecv := false
          pstate :=
            if st.pstate = s_IDLE then s_iRECEIVING
            else if st.pstate = s_TRANSMITPREP then s_iTRANSMITPREP
            else s_iRESET
          out := st.out ++
            [Effect.sio
              (if st.pstate = s_IDLE then Ccw.ccw_handshake_dosend
               else if st.pstate = s_TRANSMITPREP then Ccw.ccw_handshake_willsend
               else Ccw.ccw_handshake_reset)] } := by
  have h1 : ¬ recvLenOf csw2 < 1 := by omega
  by_cases hi : st.pstate = s_IDLE
  · simp [endReceivePacket, haid, h1, hi, enter_iRECEIVING, emit, doSIO]
  · by_cases ht : st.pstate = s_TRANSMITPREP
    · simp [endReceivePacket, haid, h1, ht, enter_iTRANSMITPREP, emit, doSIO]
    · simp [endReceivePacket, haid, h1, hi, ht, enter_iRESET, emit, doSIO]

/-- C11 (witness): the collision of scenario 2, want-send arrives in
s_TRANSMITPREP: WillSend is issued again and the state is s_iTRANSMITPREP. -/
theorem endReceivePacket_want_send_witness :
    collisionProxy.pstate = s_TRANSMITPREP ∧
    (endReceivePacket (csw2ReadEnd 1) [] (channelStore [0xF5] collisionProxy)).map
        (fun s => (s.pstate, s.out, s.reqLastIn, s.reqLastOut, s.reqCurrFree, s.reqLastFree))
      = some (s_iTRANSMITPREP,
          collisionProxy.out ++ [Effect.sio Ccw.ccw_handshake_willsend], 1, 0, 2, 0) := by
  refine ⟨by decide, ?_⟩
  rw [endReceivePacket_want_send (csw2ReadEnd 1) [] (channelStore [0xF5] collisionProxy)
    (by decide) (by decide)]
  decide

/-- C12: a welcome frame (AID 0xF2 or 0xF9): in s_INITIAL `endReceivePacket`
issues Welcome for 0xF2 and Welcome-binary for 0xF9, sets `usingBinaryTransfer`
to false for 0xF2 (7-of-8 encoding) and to true for 0xF9 (binary) and enters
s_iWELCOME; in every other state it issues Reset and enters s_iRESET. -/
theorem endReceivePacket_welcome (csw2 : Nat) (payload : List Nat) (st : Proxy)
    (haid : st.recvBuffer 0 = AID_F2 ∨ st.recvBuffer 0 = AID_F9)
    (hlen : 1 ≤ recvLenOf csw2) :
    endReceivePacket csw2 payload st
      = some { st with
          inRecv := false
          usingBinaryTransfer := decide (st.recvBuffer 0 = AID_F9)
          pstate := if st.pstate = s_INITIAL then s_iWELCOME else s_iRESET
          out := st.out ++
            [Effect.sio
              (if st.pstate = s_INITIAL then
                (if st.recvBuffer 0 = AID_F9 then Ccw.ccw_handshake_welcomeb
                 else Ccw.ccw_handshake_welcome)
               else Ccw.ccw_handshake_reset)] } := by
  have h1 : ¬ recvLenOf csw2 < 1 := by omega
  by_cases hi : st.pstate = s_INITIAL <;> rcases haid with ha | ha <;>
    simp [endReceivePacket, ha, h1, hi, AID_F2, AID_F5, AID_F9, enter_iWELCOME,
      enter_iWELCOMEBIN, enter_iRESET, emit, doSIO]

/-- C12 (witness): the first frame after start-up is the welcome 0xF9. -/
theorem endReceivePacket_welcome_witness :
    firstReadProxy.pstate = s_INITIAL ∧
    (endReceivePacket (csw2ReadEnd 1) [] (channelStore [0xF9] firstReadProxy)).map
        (fun s => (s.pstate, s.usingBinaryTransfer, s.out))
      = some (s_iWELCOME, true,
          firstReadProxy.out ++ [Effect.sio Ccw.ccw_handshake_welcomeb]) := by
  refine ⟨by decide, ?_⟩
  rw [endReceivePacket_welcome (csw2ReadEnd 1) [] (channelStore [0xF9] firstReadProxy)
    (by decide) (by decide)]
  decide

/-! ## the transmit path -/

/-- C13: an Ack (AID 0xF1) received in s_TRANSMITPREP with a non-empty
transmit queue whose oldest entry is slot `q`: exactly this entry is dequeued
(`reqLastOut` advances by one, the entry is cleared), the VMCF RECEIVE for the
slot is issued, the frame header gets the slot's user, user words and slot
index (write-control byte 0x00, order 0x11 0x7F 0x7F), the state becomes
s_iTRANSMITTING, and the SIO is XmitPacket with the second command's length
set to the slot's data length when this is positive, XmitPacket-empty when it
is 0. -/
theorem endReceivePacket_ack_transmits (csw2 : Nat) (payload : List Nat) (st : Proxy)
    (q : Nat)
    (haid : st.recvBuffer 0 = AID_F1) (hlen : 1 ≤ recvLenOf csw2)
    (hstate : st.pstate = s_TRANSMITPREP)
    (hqueued : st.reqLastOut ≠ st.reqLastIn)
    (holdest : st.reqQueue (RING_NEXT st.reqLastOut) = some q)
    (hslot : (st.requests q).slot = q ∧ q < MAX_REQUEST_COUNT)
    (hdlen : (st.requests q).inDataLen ≤ MAX_PACKET_LEN)
    (hhdr : st.data_xmit_header.wcc = 0x00 ∧ st.data_xmit_header.sba = [0x11, 0x7F, 0x7F]) :
    ∃ st1, endReceivePacket csw2 payload st = some st1 ∧
      st1.reqLastOut = RING_NEXT st.reqLastOut ∧
      st1.reqLastIn = st.reqLastIn ∧
      st1.reqQueue = Function.update st.reqQueue (RING_NEXT st.reqLastOut) none ∧
      st1.data_xmit_header =
        { wcc := 0x00, sba := [0x11, 0x7F, 0x7F], user := (st.requests q).user,
          userWord1 := (st.requests q).userWord1, userWord2 := (st.requests q).userWord2,
          slot := q } ∧
      st1.pstate = s_iTRANSMITTING ∧
      st1.out = st.out ++
        [Effect.vmcfReceive (st.requests q).user (st.requests q).msgId,
         Effect.sio (if (st.requests q).inDataLen > 0 then Ccw.ccw_xmit_packet
                     else Ccw.ccw_xmit_packet_empty)] ∧
      ((st.requests q).inDataLen > 0 →
        st1.xmitLen = (st.requests q).inDataLen ∧ st1.xmitAddr = some q) := by
  have h1 : ¬ recvLenOf csw2 < 1 := by omega
  have hq : q % 65536 = q := by
    have := hslot.2
    unfold MAX_REQUEST_COUNT at this
    omega
  have hl : (st.requests q).inDataLen % 65536 = (st.requests q).inDataLen := by
    unfold MAX_PACKET_LEN at hdlen
    omega
  obtain ⟨hw, hs⟩ := hhdr
  have hend : endReceivePacket csw2 payload st
      = enter_iTRANSMITTING payload (some q)
          { st with
            inRecv := false
            reqQueue := Function.update st.reqQueue (RING_NEXT st.reqLastOut) none
            reqLastOut := RING_NEXT st.reqLastOut } := by
    simp [endReceivePacket, haid, h1, hstate, getNextRequestToSend, hqueued, holdest,
      AID_F1, AID_F2, AID_F5, AID_F9]
  rw [hend]
  simp only [enter_iTRANSMITTING, readVmcfRequestIntoSlot, emit, Function.update_same]
  split
  · rename_i hpos
    refine ⟨_, rfl, ?_⟩
    simp only [emit, doSIO]
    simp [hslot.1, hq, hl, hpos, hw, hs]
  · rename_i hpos
    refine ⟨_, rfl, ?_⟩
    simp only [emit, doSIO]
    simp [hslot.1, hq, hpos, hw, hs]

/-- C13 (witness): the Ack that answers the WillSend for `requestA`: slot 1
(5 data bytes) is dequeued and XmitPacket is started. -/
theorem endReceivePacket_ack_transmits_witness :
    ∃ st1, endReceivePacket (csw2ReadEnd 1) [] (channelStore [0xF1] collisionProxy)
        = some st1 ∧
      st1.data_xmit_header =
        { wcc := 0x00, sba := [0x11, 0x7F, 0x7F],
          user := [0xC1, 0x40, 0x40, 0x40, 0x40, 0x40, 0x40, 0x40],
          userWord1 := 1, userWord2 := 2, slot := 1 } ∧
      st1.pstate = s_iTRANSMITTING ∧
      st1.out = collisionProxy.out ++
        [Effect.vmcfReceive [0xC1, 0x40, 0x40, 0x40, 0x40, 0x40, 0x40, 0x40] 100,
         Effect.sio Ccw.ccw_xmit_packet] ∧
      st1.xmitLen = 5 := by
  obtain ⟨st1, h, -, -, -, hhdr, hstate, hout, hxl⟩ :=
    endReceivePacket_ack_transmits (csw2ReadEnd 1) [] (channelStore [0xF1] collisionProxy) 1
      (by decide) (by decide) (by decide) (by decide) (by decide) (by decide) (by decide)
      (by decide)
  exact ⟨st1, h, hhdr.trans (by decide), hstate, hout.trans (by decide),
    (hxl (by decide)).1.trans (by decide)⟩

/-- C14 (counterexample): in s_TRANSMITTING with an empty transmit queue an Ack
frame that carries the byte 0xF3 behind the AID and the cursor address does not
start DoSend: the state becomes s_IDLE and no channel program is issued. -/
theorem endReceivePacket_ack_f3_suffix_idles :
    transmittingProxy.pstate = s_TRANSMITTING ∧ havingRequest transmittingProxy = false ∧
    (endReceivePacket (csw2ReadEnd 4) [] (channelStore [0xF1, 0, 0, 0xF3] transmittingProxy)).map
        (fun s => (s.pstate, s.out))
      = some (s_IDLE, transmittingProxy.out) := by
  decide

/-- C14 (amended): an Ack (AID 0xF1) received in s_TRANSMITTING: with a
non-empty transmit queue `endReceivePacket` issues WillSend and enters
s_iTRANSMITPREP; otherwise, if the frame is longer than 3 bytes and its byte at
offset 3 is the want-send AID 0xF5, it issues DoSend and enters s_iRECEIVING;
otherwise the state becomes s_IDLE and nothing is added to the trace. -/
theorem endReceivePacket_ack_transmitting (csw2 : Nat) (payload : List Nat) (st : Proxy)
    (haid : st.recvBuffer 0 = AID_F1) (hlen : 1 ≤ recvLenOf csw2)
    (hstate : st.pstate = s_TRANSMITTING) :
    endReceivePacket csw2 payload st
      = some (if havingRequest st = true then
          { st with
            inRecv := false
            pstate := s_iTRANSMITPREP
            out := st.out ++ [Effect.sio Ccw.ccw_handshake_willsend] }
        else if recvLenOf csw2 > 3 ∧ st.recvBuffer 3 = AID_F5 then
          { st with
            inRecv := false
            pstate := s_iRECEIVING
            out := st.out ++ [Effect.sio Ccw.ccw_handshake_dosend] }
        else { st with inRecv := false, pstate := s_IDLE }) := by
  have h1 : ¬ recvLenOf csw2 < 1 := by omega
  by_cases hq : havingRequest st = true
  · have hq1 : st.reqLastOut ≠ st.reqLastIn := by simpa [havingRequest] using hq
    simp [endReceivePacket, haid, h1, hstate, AID_F1, AID_F2, AID_F5, AID_F9, havingRequest,
      hq1, enter_iTRANSMITPREP, emit, doSIO]
  · have hq1 : st.reqLastOut = st.reqLastIn := by simpa [havingRequest] using hq
    by_cases hs : recvLenOf csw2 > 3 ∧ st.recvBuffer 3 = AID_F5
    · have hs1 := hs.1
      have hs2 := hs.2
      simp [endReceivePacket, haid, h1, hstate, AID_F1, AID_F2, AID_F9, havingRequest,
        hq1, hs1, hs2, enter_iRECEIVING, emit, doSIO]
      simp [AID_F5]
    · have hs3 : ¬ (3 < recvLenOf csw2 ∧ st.recvBuffer 3 = AID_F5) := hs
      simp [endReceivePacket, haid, h1, hstate, AID_F1, AID_F2, AID_F9, havingRequest,
        hq1, hs3]
      simp [AID_F5, hs3]

/-- C14 (witness): in `transmittingProxy` an Ack frame with 0xF5 at offset 3
starts DoSend. -/
theorem endReceivePacket_ack_transmitting_witness :
    (endReceivePacket (csw2ReadEnd 4) [] (channelStore [0xF1, 0, 0, 0xF5] transmittingProxy)).map
        (fun s => (s.pstate, s.out))
      = some (s_iRECEIVING,
          transmittingProxy.out ++ [Effect.sio Ccw.ccw_handshake_dosend]) := by
  rw [endReceivePacket_ack_transmitting (csw2ReadEnd 4) []
    (channelStore [0xF1, 0, 0, 0xF5] transmittingProxy) (by decide) (by decide) (by decide)]
  decide

/-! ## data frames: state transitions -/

theorem processData_reply (recvLen : Int) (keep : Bool) (st : Proxy) (s : Nat)
    (hidx : half_at (if !st.usingBinaryTransfer then decode7to8 st.recvBuffer recvLen
        else (st.recvBuffer, recvLen)).1 11 = s)
    (hs : s < MAX_REQUEST_COUNT) (hslot : (st.requests s).slot = s) :
    ∃ uw1 uw2 len data,
      (processData recvLen keep st).out = st.out ++
        [Effect.vmcfReply (st.requests s).user (st.requests s).msgId uw1 uw2 len data,
         Effect.sio (if keep then Ccw.ccw_handshake_dosend else Ccw.ccw_handshake_ack)] ∧
      (processData recvLen keep st).pstate = (if keep then s_iRECEIVING else s_iIDLE) := by
  have hs1 : s < 128 := hs
  have hshort : asShort s = (s : Int) := asShort_small s (by omega)
  have hge : ¬ ((s : Int) < 0 ∨ 128 ≤ s) := by omega
  cases hb : st.usingBinaryTransfer <;> simp [hb] at hidx <;> cases keep <;>
    simp [processData, hb, hidx, hshort, hge, MAX_REQUEST_COUNT, hslot, enter_iRECEIVING,
      enter_iIDLE, emit, doSIO, sendVmcfReplyForSlot, freeSlot]

/-- C15: a data frame (AID 0x7D or 0xF4) of length at least 21 whose slot index
`s`, read from the (decoded) buffer, refers to an in-use slot: in s_RECEIVING or
s_iRECEIVING the trace gets the reply for slot `s` followed by DoSend with the
new state s_iRECEIVING for AID 0xF4, and followed by Ack with the new state
s_iIDLE for AID 0x7D; in every other state except s_iRECONNECT_CPREAD the
result is the old state with `pstate` s_iRESET and only the Reset SIO added
to the trace (no reply, slot table and rings unchanged). -/
theorem endReceivePacket_data_transitions (csw2 : Nat) (payload : List Nat) (st : Proxy)
    (s : Nat)
    (haid : st.recvBuffer 0 = AID_ENTER ∨ st.recvBuffer 0 = AID_F4)
    (hlen : 21 ≤ recvLenOf csw2)
    (hidx : half_at (decodedBuffer st csw2) 11 = s) (hs : s < MAX_REQUEST_COUNT)
    (hinuse : (st.requests s).slot = s ∧ (st.requests s).msgId ≠ 0) :
    ((st.pstate = s_RECEIVING ∨ st.pstate = s_iRECEIVING) →
      ∃ st1 uw1 uw2 len data, endReceivePacket csw2 payload st = some st1 ∧
        st1.out = st.out ++
          [Effect.vmcfReply (st.requests s).user (st.requests s).msgId uw1 uw2 len data,
           Effect.sio (if st.recvBuffer 0 = AID_F4 then Ccw.ccw_handshake_dosend
                       else Ccw.ccw_handshake_ack)] ∧
        st1.pstate = (if st.recvBuffer 0 = AID_F4 then s_iRECEIVING else s_iIDLE)) ∧
    (st.pstate ≠ s_RECEIVING → st.pstate ≠ s_iRECEIVING → st.pstate ≠ s_iRECONNECT_CPREAD →
      endReceivePacket csw2 payload st
        = some { st with
            inRecv := false
            pstate := s_iRESET
            out := st.out ++ [Effect.sio Ccw.ccw_handshake_reset] }) := by
  have h1 : ¬ recvLenOf csw2 < 1 := by omega
  have h2 : ¬ recvLenOf csw2 < 21 := by omega
  constructor
  · intro hstate
    have hs1 : st.pstate ≠ s_iRECONNECT_CPREAD := by
      rcases hstate with h | h <;> simp [h]
    have hs2 : ¬ (st.pstate ≠ s_RECEIVING ∧ st.pstate ≠ s_iRECEIVING) := by
      rcases hstate with h | h <;> simp [h]
    have hidx1 : half_at (if !({ st with inRecv := false } : Proxy).usingBinaryTransfer
          then decode7to8 ({ st with inRecv := false } : Proxy).recvBuffer (recvLenOf csw2)
          else (({ st with inRecv := false } : Proxy).recvBuffer, recvLenOf csw2)).1 11 = s := by
      rw [← hidx]
      unfold decodedBuffer
      cases st.usingBinaryTransfer <;> rfl
    rcases haid with ha | ha
    · obtain ⟨uw1, uw2, len, data, hout, hst⟩ :=
        processData_reply (recvLenOf csw2) false { st with inRecv := false } s hidx1 hs hinuse.1
      refine ⟨processData (recvLenOf csw2) false { st with inRecv := false }, uw1, uw2, len,
        data, ?_, ?_, ?_⟩
      · simp [endReceivePacket, ha, AID_ENTER, AID_F1, AID_F2, AID_F3, AID_F4, AID_F5,
          AID_F9, AID_CLEAR, h1, h2, hs1, hs2]
      · rw [hout, ha]
        simp [AID_ENTER, AID_F4]
      · rw [hst, ha]
        simp [AID_ENTER, AID_F4]
    · obtain ⟨uw1, uw2, len, data, hout, hst⟩ :=
        processData_reply (recvLenOf csw2) true { st with inRecv := false } s hidx1 hs hinuse.1
      refine ⟨processData (recvLenOf csw2) true { st with inRecv := false }, uw1, uw2, len,
        data, ?_, ?_, ?_⟩
      · simp [endReceivePacket, ha, AID_ENTER, AID_F1, AID_F2, AID_F3, AID_F4, AID_F5,
          AID_F9, AID_CLEAR, h1, h2, hs1, hs2]
      · rw [hout, ha]
        simp
      · rw [hst, ha]
        simp
  · intro hr hir hrc
    rcases haid with ha | ha <;>
      simp [endReceivePacket, ha, AID_ENTER, AID_F1, AID_F2, AID_F3, AID_F4, AID_F5, AID_F9,
        AID_CLEAR, h1, h2, hr, hir, hrc, enter_iRESET, emit, doSIO]

/-- C15 (witness): the response to the in-flight request in slot 1 arrives as
data + want-send (AID 0xF4) in s_RECEIVING: reply, then DoSend, state
s_iRECEIVING. -/
theorem endReceivePacket_data_transitions_witness :
    inFlightProxy.pstate = s_RECEIVING ∧
    ∃ st1 uw1 uw2 len data,
      endReceivePacket (csw2ReadEnd 27) [] (channelStore dataFrameF4 inFlightProxy)
        = some st1 ∧
      st1.out = inFlightProxy.out ++
        [Effect.vmcfReply [0xC1, 0x40, 0x40, 0x40, 0x40, 0x40, 0x40, 0x40] 100 uw1 uw2 len data,
         Effect.sio Ccw.ccw_handshake_dosend] ∧
      st1.pstate = s_iRECEIVING := by
  refine ⟨by decide, ?_⟩
  obtain ⟨st1, uw1, uw2, len, data, h, hout, hst⟩ :=
    (endReceivePacket_data_transitions (csw2ReadEnd 27) []
      (channelStore dataFrameF4 inFlightProxy) 1
      (by decide) (by decide) (by decide) (by decide) (by decide)).1 (by decide)
  exact ⟨st1, uw1, uw2, len, data, h, hout.trans rfl, hst.trans rfl⟩

/-! ## client requests -/

theorem getSlot_some_state (st : Proxy) (q : Nat) (h : (getSlot st).1 = some q) :
    getSlot st = (some q,
      { st with
        reqFree := Function.update st.reqFree st.reqCurrFree none
        reqCurrFree := RING_NEXT st.reqCurrFree }) ∧
    st.reqFree st.reqCurrFree = some q ∧ st.reqCurrFree ≠ st.reqLastFree := by
  unfold getSlot at h ⊢
  by_cases hc : st.reqCurrFree = st.reqLastFree
  · simp [hc] at h
  · cases hreq : st.reqFree st.reqCurrFree with
    | none => simp [hc, hreq] at h
    | some req =>
      simp [hc, hreq] at h
      simp [hc, h]

/-- C16: a client send-and-receive (VMCPSENR) for which `getSlot()` hands out
slot `q`: the slot is taken from the free ring (`reqCurrFree` advances), the
request's user, message id, both user words and its length clamped to 2048
are stored in the slot, and the slot is appended at the tail of the transmit
queue (position after `reqLastIn`); if the state is s_IDLE the handler issues
WillSend and the state becomes s_iTRANSMITPREP, in every other state `pstate`
and the trace are unchanged. -/
theorem handleExt_enqueues (hdr : VMCMHDR) (st : Proxy) (q : Nat)
    (hfunc : hdr.vmcmfunc = VMCPSENR) (hget : (getSlot st).1 = some q) :
    st.reqFree st.reqCurrFree = some q ∧
    (handleExt 0x4001 hdr st).reqCurrFree = RING_NEXT st.reqCurrFree ∧
    (handleExt 0x4001 hdr st).reqFree = Function.update st.reqFree st.reqCurrFree none ∧
    (handleExt 0x4001 hdr st).reqLastFree = st.reqLastFree ∧
    ((handleExt 0x4001 hdr st).requests q).user = hdr.vmcmuser ∧
    ((handleExt 0x4001 hdr st).requests q).msgId = hdr.vmcmmid ∧
    ((handleExt 0x4001 hdr st).requests q).userWord1 = hdr.vmcmuse1 ∧
    ((handleExt 0x4001 hdr st).requests q).userWord2 = hdr.vmcmuse2 ∧
    ((handleExt 0x4001 hdr st).requests q).inDataLen = min hdr.vmcmlena 2048 ∧
    ((handleExt 0x4001 hdr st).requests q).slot = (st.requests q).slot ∧
    (∀ i, i ≠ q → (handleExt 0x4001 hdr st).requests i = st.requests i) ∧
    (handleExt 0x4001 hdr st).reqQueue
      = Function.update st.reqQueue (RING_NEXT st.reqLastIn) (some q) ∧
    (handleExt 0x4001 hdr st).reqLastIn = RING_NEXT st.reqLastIn ∧
    (handleExt 0x4001 hdr st).reqLastOut = st.reqLastOut ∧
    (st.pstate = s_IDLE →
      (handleExt 0x4001 hdr st).pstate = s_iTRANSMITPREP ∧
      (handleExt 0x4001 hdr st).out = st.out ++ [Effect.sio Ccw.ccw_handshake_willsend]) ∧
    (st.pstate ≠ s_IDLE →
      (handleExt 0x4001 hdr st).pstate = st.pstate ∧
      (handleExt 0x4001 hdr st).out = st.out) := by
  obtain ⟨hg, hfree, -⟩ := getSlot_some_state st q hget
  have hmin : (if hdr.vmcmlena > MAX_PACKET_LEN then MAX_PACKET_LEN else hdr.vmcmlena)
      = min hdr.vmcmlena 2048 := by
    unfold MAX_PACKET_LEN
    split <;> omega
  have hext : handleExt 0x4001 hdr st
      = (if st.pstate = s_IDLE then enter_iTRANSMITPREP else id)
          { enqueueRequest hdr q
              { st with
                reqFree := Function.update st.reqFree st.reqCurrFree none
                reqCurrFree := RING_NEXT st.reqCurrFree } with
            totalReqCount := st.totalReqCount + 1 } := by
    by_cases hi : st.pstate = s_IDLE <;>
      simp [handleExt, hfunc, VMCPSENR, VMCPSENX, hg, hi, enqueueRequest]
  rw [hext]
  refine ⟨hfree, ?_⟩
  by_cases hi : st.pstate = s_IDLE
  · simp only [hi, if_true, enter_iTRANSMITPREP, enqueueRequest, emit, doSIO]
    simp [hmin]
    intro i hne
    rw [Function.update_noteq hne]
  · simp only [hi, if_false, id, enqueueRequest]
    simp [hmin, hi]
    intro i hne
    rw [Function.update_noteq hne]

/-- C16 (witness): `requestA` arrives in s_IDLE with slot 1 next in the free
ring: the slot is filled and queued and WillSend is issued. -/
theorem handleExt_enqueues_witness :
    idleProxy.pstate = s_IDLE ∧
    ((handleExt 0x4001 requestA idleProxy).requests 1).msgId = 100 ∧
    ((handleExt 0x4001 requestA idleProxy).requests 1).inDataLen = 5 ∧
    (handleExt 0x4001 requestA idleProxy).reqQueue 1 = some 1 ∧
    (handleExt 0x4001 requestA idleProxy).reqLastIn = 1 ∧
    (handleExt 0x4001 requestA idleProxy).pstate = s_iTRANSMITPREP ∧
    (handleExt 0x4001 requestA idleProxy).out
      = idleProxy.out ++ [Effect.sio Ccw.ccw_handshake_willsend] := by
  obtain ⟨-, -, -, -, -, hm, -, -, hl, -, -, hq, hin, -, hidle, -⟩ :=
    handleExt_enqueues requestA idleProxy 1 rfl (by decide)
  refine ⟨by decide, hm, hl, ?_, hin.trans (by decide), (hidle (by decide)).1,
    (hidle (by decide)).2⟩
  rw [hq]
  decide

/-! ## the transmit queue is first-in first-out -/

theorem RING_NEXT_mod (x : Nat) (hx : x < 128) : RING_NEXT x = (x + 1) % 128 := by
  unfold RING_NEXT MAX_REQUEST_COUNT
  split <;> omega

theorem queueRun_fifoRun : ∀ (ops : List QOp) (st : Proxy) (l : List Nat),
    QueueIs st l → outstandingOk ops l.length = true → queueRun ops st = fifoRun ops l := by
  intro ops
  induction ops with
  | nil => intro st l _ _; rfl
  | cons op ops ih =>
    intro st l hq hok
    obtain ⟨hlo, hli, hlen, hent⟩ := hq
    cases op with
    | enqueue hdr req =>
      simp only [outstandingOk, Bool.and_eq_true, decide_eq_true_eq] at hok
      obtain ⟨hlt, hok⟩ := hok
      simp only [queueRun, fifoRun]
      apply ih
      · have hin : st.reqLastIn < 128 := by omega
        have e1 : (enqueueRequest hdr req st).reqLastOut = st.reqLastOut := rfl
        have e2 : (enqueueRequest hdr req st).reqLastIn = RING_NEXT st.reqLastIn := rfl
        have e3 : (enqueueRequest hdr req st).reqQueue
            = Function.update st.reqQueue (RING_NEXT st.reqLastIn) (some req) := rfl
        unfold QueueIs
        rw [e1, e2, e3, RING_NEXT_mod _ hin, List.length_append]
        simp only [List.length_singleton]
        refine ⟨hlo, by omega, by omega, ?_⟩
        intro i hi
        by_cases hil : i < l.length
        · rw [Function.update_noteq (by omega), hent i hil,
            List.getElem?_append_left hil]
        · have hie : i = l.length := by omega
          subst hie
          have hsame : (st.reqLastOut + 1 + l.length) % 128 = (st.reqLastIn + 1) % 128 := by
            omega
          rw [hsame, Function.update_same]
          simp
      · rw [List.length_append]
        simpa using hok
    | dequeue =>
      simp only [outstandingOk] at hok
      cases l with
      | nil =>
        have heq : st.reqLastOut = st.reqLastIn := by
          rw [hli]
          simp only [List.length_nil]
          omega
        simp only [queueRun, fifoRun, getNextRequestToSend, heq, if_true, List.head?_nil,
          List.tail_nil]
        rw [ih st [] ⟨hlo, hli, hlen, hent⟩ (by simpa using hok)]
      | cons a t =>
        simp only [List.length_cons] at hli hlen hent hok
        have hne : st.reqLastOut ≠ st.reqLastIn := by omega
        have h0 := hent 0 (by omega)
        simp only [List.getElem?_cons_zero] at h0
        have hidx : RING_NEXT st.reqLastOut = (st.reqLastOut + 1 + 0) % 128 := by
          rw [RING_NEXT_mod _ hlo]
        simp only [queueRun, fifoRun, getNextRequestToSend, hne, if_false, List.head?_cons,
          List.tail_cons]
        rw [hidx, h0]
        congr 1
        apply ih
        · refine ⟨?_, ?_, ?_, ?_⟩
          · show (st.reqLastOut + 1 + 0) % 128 < 128
            omega
          · show st.reqLastIn = ((st.reqLastOut + 1 + 0) % 128 + t.length) % 128
            omega
          · omega
          · intro i hi
            show Function.update st.reqQueue ((st.reqLastOut + 1 + 0) % 128) none
              (((st.reqLastOut + 1 + 0) % 128 + 1 + i) % 128) = _
            rw [Function.update_noteq (by omega)]
            have := hent (i + 1) (by omega)
            simp only [List.getElem?_cons_succ] at this
            rw [← this]
            congr 1
            omega
        · simpa using hok

/-- C17: the transmit queue is first-in first-out: starting with an empty
queue, for every sequence of `enqueueRequest` and `getNextRequestToSend` calls
in which no slot is enqueued while 127 are outstanding, the
`getNextRequestToSend` calls return what a first-in first-out list returns:
the enqueued slots in the order of their enqueueing, and NULL exactly when
every enqueued slot has already been dequeued. -/
theorem transmit_queue_fifo (ops : List QOp) (st : Proxy)
    (hempty : st.reqLastOut = st.reqLastIn) (hidx : st.reqLastIn < MAX_REQUEST_COUNT)
    (hok : outstandingOk ops 0 = true) :
    queueRun ops st = fifoRun ops [] := by
  apply queueRun_fifoRun ops st [] _ hok
  refine ⟨?_, ?_, ?_, ?_⟩
  · rw [hempty]
    exact hidx
  · rw [hempty]
    unfold MAX_REQUEST_COUNT at hidx
    simp only [List.length_nil]
    omega
  · simp
  · intro i hi
    simp at hi

/-- C17 (witness): three slots are enqueued and dequeued with an enqueue in
between: the dequeues return 1, 2, 3 in this order and then NULL. -/
theorem transmit_queue_fifo_witness :
    queueRun
        [QOp.enqueue requestA 1, QOp.enqueue requestB 2, QOp.dequeue, QOp.enqueue requestC 3,
         QOp.dequeue, QOp.dequeue, QOp.dequeue] initialProxy
      = fifoRun
        [QOp.enqueue requestA 1, QOp.enqueue requestB 2, QOp.dequeue, QOp.enqueue requestC 3,
         QOp.dequeue, QOp.dequeue, QOp.dequeue] [] ∧
    fifoRun
        [QOp.enqueue requestA 1, QOp.enqueue requestB 2, QOp.dequeue, QOp.enqueue requestC 3,
         QOp.dequeue, QOp.dequeue, QOp.dequeue] []
      = [some 1, some 2, some 3, none] :=
  ⟨transmit_queue_fifo _ initialProxy (by decide) (by decide) (by decide), by decide⟩

/-! ## inet_addr -/

/-- C18 (code at the failing inputs): for "1.2.3" (three components)
`inet_addr` returns 0x01020300 and leaves EOK in `h_errno`, and for "1.2.3.x"
(a character that is neither digit nor dot) it returns the value of EINVAL,
0x01070000; neither call returns 0xFFFFFFFF.  The well-formed "1.2.3.4" gives
0x01020304 and a fifth component gives 0xFFFFFFFF with EINVAL. -/
theorem inet_addr_malformed_accepted :
    inet_addr (some ['1', '.', '2', '.', '3']) = (0x01020300, EOK) ∧
    inet_addr (some ['1', '.', '2', '.', '3', '.', 'x']) = (0x01070000, EINVAL) ∧
    inet_addr (some ['1', '.', '2', '.', '3', '.', '4']) = (0x01020304, EOK) ∧
    inet_addr (some ['1', '.', '2', '.', '3', '.', '4', '.', '5']) = (0xFFFFFFFF, EINVAL) := by
  decide

/-! ## fd_set macros -/

theorem fd_set_byte : ∀ x, x < 256 → ∀ p, p < 8 → ∀ r, r < 8 →
    (((x ||| FDSET1 p) % 256) &&& FDSET1 r ≠ 0 ↔ (r = p ∨ x &&& FDSET1 r ≠ 0)) := by
  decide

theorem fd_clr_byte : ∀ x, x < 256 → ∀ p, p < 8 → ∀ r, r < 8 →
    (((x &&& FDSET0 p) % 256) &&& FDSET1 r ≠ 0 ↔ (r ≠ p ∧ x &&& FDSET1 r ≠ 0)) := by
  decide

theorem fd_index : ∀ i, i < 64 →
    (i >>> 3 = i / 8 ∧ i &&& 0x07 = i % 8) := by
  decide

theorem asUint_small (i : Nat) (hi : i < 64) : asUint (i : Int) = i := by
  unfold asUint
  omega

theorem FdBytes_FD_ZERO (s : Nat → Nat) : FdBytes (FD_ZERO s) := by
  intro b hb
  simp [FD_ZERO, FD_BYTES, FD_SETSIZE, hb]

theorem FdBytes_FD_SET (s : Nat → Nat) (hs : FdBytes s) (i : Int) : FdBytes (FD_SET i s) := by
  intro b hb
  unfold FD_SET
  split
  · by_cases h : b = i.toNat >>> 3
    · subst h
      rw [Function.update_same]
      omega
    · rw [Function.update_noteq h]
      exact hs b hb
  · exact hs b hb

theorem FD_ISSET_FD_ZERO (s : Nat → Nat) (k : Nat) (hk : k < 64) :
    FD_ISSET (k : Int) (FD_ZERO s) = 0 := by
  have hk8 : k / 8 < 8 := by omega
  simp [FD_ISSET, FD_ZERO, FD_BYTES, FD_SETSIZE, asUint_small k hk, (fd_index k hk).1, hk8]

theorem FD_ISSET_FD_SET (s : Nat → Nat) (hs : FdBytes s) (i k : Nat)
    (hi : i < 64) (hk : k < 64) :
    FD_ISSET (k : Int) (FD_SET (i : Int) s) ≠ 0 ↔ (k = i ∨ FD_ISSET (k : Int) s ≠ 0) := by
  have hi2 : ¬ (FD_SETSIZE ≤ i) := by unfold FD_SETSIZE; omega
  have hk2 : ¬ (FD_SETSIZE ≤ k) := by unfold FD_SETSIZE; omega
  have hi3 : i < FD_SETSIZE := by unfold FD_SETSIZE; omega
  simp only [FD_ISSET, FD_SET, asUint_small i hi, asUint_small k hk, Int.toNat_ofNat,
    (fd_index i hi).1, (fd_index i hi).2, (fd_index k hk).1, (fd_index k hk).2, ge_iff_le,
    hi2, hk2, hi3, if_true, if_false]
  by_cases hb : k / 8 = i / 8
  · rw [hb, Function.update_same,
      fd_set_byte (s (i / 8)) (hs _ (by omega)) (i % 8) (by omega) (k % 8) (by omega)]
    constructor
    · rintro (h | h)
      · left
        omega
      · right
        exact h
    · rintro (h | h)
      · left
        omega
      · right
        exact h
  · rw [Function.update_noteq hb]
    constructor
    · intro h
      right
      exact h
    · rintro (h | h)
      · exact absurd (by rw [h]) hb
      · exact h

theorem FD_ISSET_FD_CLR (s : Nat → Nat) (hs : FdBytes s) (i k : Nat)
    (hi : i < 64) (hk : k < 64) :
    FD_ISSET (k : Int) (FD_CLR (i : Int) s) ≠ 0 ↔ (k ≠ i ∧ FD_ISSET (k : Int) s ≠ 0) := by
  have hi2 : ¬ (FD_SETSIZE ≤ i) := by unfold FD_SETSIZE; omega
  have hk2 : ¬ (FD_SETSIZE ≤ k) := by unfold FD_SETSIZE; omega
  have hi3 : i < FD_SETSIZE := by unfold FD_SETSIZE; omega
  simp only [FD_ISSET, FD_CLR, asUint_small i hi, asUint_small k hk, Int.toNat_ofNat,
    (fd_index i hi).1, (fd_index i hi).2, (fd_index k hk).1, (fd_index k hk).2, ge_iff_le,
    hi2, hk2, hi3, if_true, if_false]
  by_cases hb : k / 8 = i / 8
  · rw [hb, Function.update_same,
      fd_clr_byte (s (i / 8)) (hs _ (by omega)) (i % 8) (by omega) (k % 8) (by omega)]
    constructor
    · rintro ⟨h1, h2⟩
      exact ⟨by omega, h2⟩
    · rintro ⟨h1, h2⟩
      exact ⟨by omega, h2⟩
  · rw [Function.update_noteq hb]
    constructor
    · intro h
      exact ⟨fun he => hb (by rw [he]), h⟩
    · rintro ⟨_, h⟩
      exact h

/-- C19: the fd_set macros implement a finite set over the descriptors 0..63:
after FD_ZERO no descriptor is reported by FD_ISSET; for `i`, `j`, `k` in 0..63,
after FD_ZERO, FD_SET(i), FD_SET(j) the value of FD_ISSET(k) is non-zero exactly
when `k = i` or `k = j`, and after a further FD_CLR(j) with `j ≠ i` exactly when
`k = i`; and on every set (array of bytes) FD_SET(i) and FD_CLR(i) leave the
membership of every other descriptor `k` as it was. -/
theorem fd_set_is_finite_set (s0 s : Nat → Nat) (i j k : Nat)
    (hi : i < 64) (hj : j < 64) (hk : k < 64) (hs : FdBytes s) :
    FD_ISSET (k : Int) (FD_ZERO s0) = 0 ∧
    (FD_ISSET (k : Int) (FD_SET (j : Int) (FD_SET (i : Int) (FD_ZERO s0))) ≠ 0
      ↔ (k = i ∨ k = j)) ∧
    (j ≠ i →
      (FD_ISSET (k : Int)
          (FD_CLR (j : Int) (FD_SET (j : Int) (FD_SET (i : Int) (FD_ZERO s0)))) ≠ 0
        ↔ k = i)) ∧
    (k ≠ i →
      ((FD_ISSET (k : Int) (FD_SET (i : Int) s) ≠ 0 ↔ FD_ISSET (k : Int) s ≠ 0) ∧
       (FD_ISSET (k : Int) (FD_CLR (i : Int) s) ≠ 0 ↔ FD_ISSET (k : Int) s ≠ 0))) := by
  have hz := FdBytes_FD_ZERO s0
  have h1 := FdBytes_FD_SET _ hz (i : Int)
  have h2 := FdBytes_FD_SET _ h1 (j : Int)
  have hk0 := FD_ISSET_FD_ZERO s0 k hk
  refine ⟨hk0, ?_, ?_, ?_⟩
  · rw [FD_ISSET_FD_SET _ h1 j k hj hk, FD_ISSET_FD_SET _ hz i k hi hk]
    simp only [hk0, ne_eq, not_true_eq_false, or_false]
    exact or_comm
  · intro hne
    rw [FD_ISSET_FD_CLR _ h2 j k hj hk, FD_ISSET_FD_SET _ h1 j k hj hk,
      FD_ISSET_FD_SET _ hz i k hi hk]
    simp only [hk0, ne_eq, not_true_eq_false, or_false]
    constructor
    · rintro ⟨h, h3 | h3⟩
      · exact absurd h3 h
      · exact h3
    · intro h
      exact ⟨fun hc => hne (hc.symm.trans h), Or.inr h⟩
  · intro hne
    rw [FD_ISSET_FD_SET _ hs i k hi hk, FD_ISSET_FD_CLR _ hs i k hi hk]
    simp [hne]

/-- C19 (witness): descriptors 3 and 12 set, 12 cleared again, 3 queried. -/
theorem fd_set_is_finite_set_witness :
    FD_ISSET 3 (FD_ZERO (fun _ => 0xFF)) = 0 ∧
    (FD_ISSET 3 (FD_SET 12 (FD_SET 3 (FD_ZERO (fun _ => 0xFF)))) ≠ 0) ∧
    (FD_ISSET 3 (FD_CLR 12 (FD_SET 12 (FD_SET 3 (FD_ZERO (fun _ => 0xFF))))) ≠ 0) := by
  obtain ⟨h0, h1, h2, -⟩ :=
    fd_set_is_finite_set (fun _ => 0xFF) (fun _ => 0) 3 12 3 (by decide) (by decide)
      (by decide) (fun _ _ => by norm_num)
  exact ⟨h0, h1.mpr (Or.inl rfl), (h2 (by decide)).mpr rfl⟩

/-! ## translation tables -/

/-- C20 (counterexample): the bytes 0x00 and 0x01 have the same translation in
both tables (the blank, 0x20 and 0x40). -/
theorem translation_tables_not_injective :
    e2a 0x00 = e2a 0x01 ∧ a2e 0x00 = a2e 0x01 ∧ e2a 0x00 = 0x20 ∧ a2e 0x00 = 0x40 := by
  decide

theorem a2e_e2a : ∀ x, x < 256 → e2a x ≠ 0x20 → a2e (e2a x) = x := by
  decide

theorem e2a_a2e : ∀ x, x < 256 → a2e x ≠ 0x40 → e2a (a2e x) = x := by
  decide

/-- C20 (amended): each table is injective on the bytes it does not translate
to the blank: for all bytes `x ≠ y`, if `e2a[x]` is not 0x20 then
`e2a[x] ≠ e2a[y]`, and if `a2e[x]` is not 0x40 then `a2e[x] ≠ a2e[y]`. -/
theorem translation_tables_injective_off_blank (x y : Nat)
    (hx : x < 256) (hy : y < 256) (hne : x ≠ y) :
    (e2a x ≠ 0x20 → e2a x ≠ e2a y) ∧ (a2e x ≠ 0x40 → a2e x ≠ a2e y) := by
  constructor
  · intro hb heq
    have h1 := a2e_e2a x hx hb
    have h2 := a2e_e2a y hy (by rw [← heq]; exact hb)
    rw [heq] at h1
    exact hne (h1.symm.trans h2)
  · intro hb heq
    have h1 := e2a_a2e x hx hb
    have h2 := e2a_a2e y hy (by rw [← heq]; exact hb)
    rw [heq] at h1
    exact hne (h1.symm.trans h2)

/-- C20 (witness): the EBCDIC letters A (0xC1) and B (0xC2), and the Latin-1
letters A (0x41) and B (0x42). -/
theorem translation_tables_injective_off_blank_witness :
    e2a 0xC1 ≠ e2a 0xC2 ∧ a2e 0x41 ≠ a2e 0x42 :=
  ⟨(translation_tables_injective_off_blank 0xC1 0xC2 (by decide) (by decide)
      (by decide)).1 (by decide),
   (translation_tables_injective_off_blank 0x41 0x42 (by decide) (by decide)
      (by decide)).2 (by decide)⟩

/-! ## device interrupts -/

/-- C22: a device-end interrupt on the dialed device (status word with
DeviceEnd and without Attention) while no inbound read is in progress promotes
each pending state to its companion without issuing a channel program:
s_iTRANSMITPREP to s_TRANSMITPREP, s_iRECEIVING to s_RECEIVING, s_iTRANSMITTING
to s_TRANSMITTING, s_iRESET to s_RESET, s_iIDLE to s_IDLE; except that s_iIDLE
with a non-empty transmit queue issues WillSend and enters s_iTRANSMITPREP, and
s_iWELCOME issues Ack and enters s_iIDLE; in every other state `pstate` is left
as it is.  Slot table, rings and `inRecv` are unchanged (the status word is
kept in `lastCsw2`). -/
theorem devintHandler_device_end (csw2 : Nat) (payload : List Nat) (st : Proxy)
    (hde : csw2 &&& Unit_DeviceEnd ≠ 0) (hatt : csw2 &&& Unit_Attention = 0)
    (hin : st.inRecv = false) :
    devintHandler GRAFDEV csw2 payload st
      = some (
        if st.pstate = s_iTRANSMITPREP then
          { st with lastCsw2 := csw2, pstate := s_TRANSMITPREP }
        else if st.pstate = s_iRECEIVING then
          { st with lastCsw2 := csw2, pstate := s_RECEIVING }
        else if st.pstate = s_iTRANSMITTING then
          { st with lastCsw2 := csw2, pstate := s_TRANSMITTING }
        else if st.pstate = s_iRESET then
          { st with lastCsw2 := csw2, pstate := s_RESET }
        else if st.pstate = s_iIDLE then
          (if havingRequest st = true then
            { st with
              lastCsw2 := csw2
              pstate := s_iTRANSMITPREP
              out := st.out ++ [Effect.sio Ccw.ccw_handshake_willsend] }
          else { st with lastCsw2 := csw2, pstate := s_IDLE })
        else if st.pstate = s_iWELCOME then
          { st with
            lastCsw2 := csw2
            pstate := s_iIDLE
            out := st.out ++ [Effect.sio Ccw.ccw_handshake_ack] }
        else { st with lastCsw2 := csw2 }) := by
  unfold devintHandler
  simp only [if_true, hatt, ne_eq, not_true_eq_false, if_false, hde, not_false_eq_true, hin,
    Bool.false_eq_true]
  cases hp : st.pstate <;> by_cases hq : havingRequest st = true <;>
    simp [hp, hq, havingRequest, enter_iTRANSMITPREP, enter_iIDLE, emit, doSIO] <;>
    simp_all [havingRequest]

/-- C22 (witness): the device end of the WillSend issued for `requestA`. -/
theorem devintHandler_device_end_witness :
    (handleExt 0x4001 requestA idleProxy).pstate = s_iTRANSMITPREP ∧
    (devintHandler GRAFDEV Unit_DeviceEnd [] (handleExt 0x4001 requestA idleProxy)).map
        (fun s => (s.pstate, s.out))
      = some (s_TRANSMITPREP, (handleExt 0x4001 requestA idleProxy).out) := by
  refine ⟨by decide, ?_⟩
  rw [devintHandler_device_end Unit_DeviceEnd [] (handleExt 0x4001 requestA idleProxy)
    (by decide) (by decide) (by decide)]
  decide

/-- C25 (counterexample): an interrupt with Attention alone in s_IDLE starts the
inbound read: `inRecv` becomes true and the read channel program is issued. -/
theorem devintHandler_attention_starts_read :
    idleProxy.inRecv = false ∧
    (devintHandler GRAFDEV Unit_Attention [] idleProxy).map (fun s => (s.inRecv, s.out))
      = some (true, idleProxy.out ++ [Effect.sio Ccw.ccw_recv_data]) := by
  decide

/-- C25 (amended): a device interrupt on the dialed device whose status word
does not carry DeviceEnd: if it carries Attention the inbound read is started
(`inRecv` is set and the read channel program is issued), otherwise (only
error flags) nothing but `lastCsw2` changes; in both cases `pstate`, the slot
table and both rings are unchanged. -/
theorem devintHandler_no_device_end (csw2 : Nat) (payload : List Nat) (st : Proxy)
    (hde : csw2 &&& Unit_DeviceEnd = 0) :
    devintHandler GRAFDEV csw2 payload st
      = some (
        if csw2 &&& Unit_Attention ≠ 0 then
          { st with
            lastCsw2 := csw2
            inRecv := true
            recvCcwLen := RECV_BUFFER_SIZE
            out := st.out ++ [Effect.sio Ccw.ccw_recv_data] }
        else { st with lastCsw2 := csw2 }) := by
  by_cases ha : csw2 &&& Unit_Attention = 0 <;>
    simp [devintHandler, hde, ha, beginReceivePacket, emit, doSIO]

/-- C25 (witness): a status word with only the error flag UnitCheck
(0x02000000) in s_IDLE. -/
theorem devintHandler_no_device_end_witness :
    (devintHandler GRAFDEV 0x02000000 [] idleProxy).map
        (fun s => (s.pstate, s.inRecv, s.out, s.reqCurrFree, s.reqLastIn))
      = some (s_IDLE, false, idleProxy.out, 1, 0) := by
  rw [devintHandler_no_device_end 0x02000000 [] idleProxy (by decide)]
  decide

/-! ## reconnect -/

/-- C30: an Enter frame (AID 0x7D, any length from 1 on) received in
s_iRECONNECT_CPREAD: if the receive-buffer bytes 6..10 are "DIAL " the result
is `resetAllRequests()` followed by the "dialed" message with the new state
s_INITIAL; otherwise the CP READ frame is issued again, the state stays
s_iRECONNECT_CPREAD, and slot table, rings and the rest of the state are
unchanged with nothing else added to the trace.  So the state after the frame
is s_INITIAL exactly when the bytes are "DIAL ". -/
theorem endReceivePacket_reconnect_enter (csw2 : Nat) (payload : List Nat) (st : Proxy)
    (haid : st.recvBuffer 0 = AID_ENTER)
    (hstate : st.pstate = s_iRECONNECT_CPREAD)
    (hlen : 1 ≤ recvLenOf csw2) :
    ((st.recvBuffer 6 = chr_D ∧ st.recvBuffer 7 = chr_I ∧ st.recvBuffer 8 = chr_A
        ∧ st.recvBuffer 9 = chr_L ∧ st.recvBuffer 10 = chr_SP) →
      endReceivePacket csw2 payload st
        = some { initRequestBuffers st with
            inRecv := false
            pstate := s_INITIAL
            out := st.out ++ rejectsFor st.requests ++ [Effect.sio Ccw.ccw_reconnect_dialed] }) ∧
    (¬ (st.recvBuffer 6 = chr_D ∧ st.recvBuffer 7 = chr_I ∧ st.recvBuffer 8 = chr_A
        ∧ st.recvBuffer 9 = chr_L ∧ st.recvBuffer 10 = chr_SP) →
      endReceivePacket csw2 payload st
        = some { st with
            inRecv := false
            out := st.out ++ [Effect.sio Ccw.ccw_reconnect_cpread] }) ∧
    ((∃ st1, endReceivePacket csw2 payload st = some st1 ∧ st1.pstate = s_INITIAL) ↔
      (st.recvBuffer 6 = chr_D ∧ st.recvBuffer 7 = chr_I ∧ st.recvBuffer 8 = chr_A
        ∧ st.recvBuffer 9 = chr_L ∧ st.recvBuffer 10 = chr_SP)) := by
  have h1 : ¬ recvLenOf csw2 < 1 := by omega
  have hA : (st.recvBuffer 6 = chr_D ∧ st.recvBuffer 7 = chr_I ∧ st.recvBuffer 8 = chr_A
        ∧ st.recvBuffer 9 = chr_L ∧ st.recvBuffer 10 = chr_SP) →
      endReceivePacket csw2 payload st
        = some { initRequestBuffers st with
            inRecv := false
            pstate := s_INITIAL
            out := st.out ++ rejectsFor st.requests ++ [Effect.sio Ccw.ccw_reconnect_dialed] } := by
    rintro ⟨d6, d7, d8, d9, d10⟩
    have hout := resetAllRequests_out { st with inRecv := false }
    have hend : endReceivePacket csw2 payload st
        = some (enter_iRECONNECT_DIALED (resetAllRequests { st with inRecv := false })) := by
      simp [endReceivePacket, haid, AID_ENTER, AID_F1, AID_F2, AID_F3, AID_F5, AID_F9,
        AID_CLEAR, h1, hstate, d6, d7, d8, d9, d10]
    rw [hend]
    simp only [enter_iRECONNECT_DIALED, emit, doSIO, hout]
    simp [resetAllRequests, initRequestBuffers, resetLoop_eq]
  have hB : ¬ (st.recvBuffer 6 = chr_D ∧ st.recvBuffer 7 = chr_I ∧ st.recvBuffer 8 = chr_A
        ∧ st.recvBuffer 9 = chr_L ∧ st.recvBuffer 10 = chr_SP) →
      endReceivePacket csw2 payload st
        = some { st with
            inRecv := false
            out := st.out ++ [Effect.sio Ccw.ccw_reconnect_cpread] } := by
    intro hn
    simp [endReceivePacket, haid, AID_ENTER, AID_F1, AID_F2, AID_F3, AID_F5, AID_F9,
      AID_CLEAR, h1, hstate, hn, enter_iRECONNECT_CPREAD, emit, doSIO]
  refine ⟨hA, hB, ?_⟩
  constructor
  · rintro ⟨st1, he, hp⟩
    by_contra hn
    rw [hB hn] at he
    injection he with he
    subst he
    simp [hstate] at hp
  · intro hd
    exact ⟨_, hA hd, rfl⟩


/-- C30 (witness): in `takeoverProxy` an Enter frame with other input
("HELLO") makes the proxy issue CP READ again. -/
theorem endReceivePacket_reconnect_enter_witness :
    (endReceivePacket (csw2ReadEnd 14) [] (channelStore helloFrame takeoverProxy)).map
        (fun s => (s.pstate, s.out, s.reqCurrFree, s.reqLastIn))
      = some (s_iRECONNECT_CPREAD,
          takeoverProxy.out ++ [Effect.sio Ccw.ccw_reconnect_cpread], 4, 3) := by
  rw [(endReceivePacket_reconnect_enter (csw2ReadEnd 14) []
    (channelStore helloFrame takeoverProxy) (by decide) (by decide) (by decide)).2.1
    (by decide)]
  decide

/-! ## Reset keeps the slots -/

theorem newEffects_append (st st1 : Proxy) (l : List Effect) (h : st1.out = st.out ++ l) :
    newEffects st st1 = l := by
  simp [newEffects, h]

theorem enter_iTRANSMITTING_effects (payload : List Nat) (req : Option Nat) (st st1 : Proxy)
    (h : enter_iTRANSMITTING payload req st = some st1) :
    st1.out = st.out ++ newEffects st st1 ∧
    Effect.sio Ccw.ccw_handshake_reset ∉ newEffects st st1 := by
  cases req with
  | none => simp [enter_iTRANSMITTING] at h
  | some q =>
    simp only [enter_iTRANSMITTING, readVmcfRequestIntoSlot, emit, Function.update_same] at h
    split at h <;> injection h with h <;> subst h <;> simp [newEffects, emit, doSIO]

theorem processData_effects (recvLen : Int) (keep : Bool) (st : Proxy) :
    (processData recvLen keep st).out = st.out ++ newEffects st (processData recvLen keep st) ∧
    ((SameSlots st (processData recvLen keep st) ∧
      (processData recvLen keep st).pstate = s_iRESET ∧
      newEffects st (processData recvLen keep st) = [Effect.sio Ccw.ccw_handshake_reset] ∧
      (processData recvLen keep st).inRecv = st.inRecv) ∨
    Effect.sio Ccw.ccw_handshake_reset ∉ newEffects st (processData recvLen keep st)) := by
  unfold processData
  generalize (if (!st.usingBinaryTransfer) = true then decode7to8 st.recvBuffer recvLen
    else (st.recvBuffer, recvLen)) = dec
  by_cases h1 : asShort (half_at dec.1 11) < 0 ∨ asShort (half_at dec.1 11) ≥ MAX_REQUEST_COUNT
  · refine ⟨?_, Or.inl ?_⟩ <;>
      simp [h1, SameSlots, newEffects, enter_iRESET, emit, doSIO]
  · by_cases h2 : ((st.requests (asShort (half_at dec.1 11)).toNat).slot : Int)
        ≠ asShort (half_at dec.1 11)
    · refine ⟨?_, Or.inr ?_⟩ <;> cases keep <;>
        simp [h1, h2, newEffects, enter_iRECEIVING, enter_iIDLE, emit, doSIO]
    · refine ⟨?_, Or.inr ?_⟩ <;> cases keep <;>
        simp [h1, h2, newEffects, enter_iRECEIVING, enter_iIDLE, emit, doSIO,
          sendVmcfReplyForSlot, freeSlot]

theorem endReceivePacket_effects (csw2 : Nat) (payload : List Nat) (st st1 : Proxy)
    (h : endReceivePacket csw2 payload st = some st1) :
    st1.out = st.out ++ newEffects st st1 ∧
    ((SameSlots st st1 ∧ st1.pstate = s_iRESET ∧
      newEffects st st1 = [Effect.sio Ccw.ccw_handshake_reset] ∧ st1.inRecv = false) ∨
    Effect.sio Ccw.ccw_handshake_reset ∉ newEffects st st1) := by
  by_cases h1 : recvLenOf csw2 < 1
  · simp [endReceivePacket, AID_ENTER, AID_F1, AID_F2, AID_F3, AID_F4, AID_F5, AID_F9, AID_CLEAR, h1, enter_iRECEIVING, enter_iTRANSMITPREP, enter_iWELCOME, enter_iWELCOMEBIN, enter_iRESET, enter_iRECONNECT_CPREAD, emit, doSIO] at h
    subst h
    exact ⟨by simp [newEffects], Or.inr (by simp [newEffects])⟩
  by_cases a5 : st.recvBuffer 0 = AID_F5
  · by_cases p1 : st.pstate = s_IDLE
    · simp [endReceivePacket, AID_ENTER, AID_F1, AID_F2, AID_F3, AID_F4, AID_F5, AID_F9, AID_CLEAR, h1, a5, p1, enter_iRECEIVING, enter_iTRANSMITPREP, enter_iWELCOME, enter_iWELCOMEBIN, enter_iRESET, enter_iRECONNECT_CPREAD, emit, doSIO] at h
      subst h
      exact ⟨by simp [newEffects], Or.inr (by simp [newEffects])⟩
    by_cases p2 : st.pstate = s_TRANSMITPREP
    · simp [endReceivePacket, AID_ENTER, AID_F1, AID_F2, AID_F3, AID_F4, AID_F5, AID_F9, AID_CLEAR, h1, a5, p2, enter_iRECEIVING, enter_iTRANSMITPREP, enter_iWELCOME, enter_iWELCOMEBIN, enter_iRESET, enter_iRECONNECT_CPREAD, emit, doSIO] at h
      subst h
      exact ⟨by simp [newEffects], Or.inr (by simp [newEffects])⟩
    · simp [endReceivePacket, AID_ENTER, AID_F1, AID_F2, AID_F3, AID_F4, AID_F5, AID_F9, AID_CLEAR, h1, a5, p1, p2, enter_iRECEIVING, enter_iTRANSMITPREP, enter_iWELCOME, enter_iWELCOMEBIN, enter_iRESET, enter_iRECONNECT_CPREAD, emit, doSIO] at h
      subst h
      exact ⟨by simp [newEffects], Or.inl (by simp [SameSlots, newEffects])⟩
  by_cases a2 : st.recvBuffer 0 = AID_F2
  · by_cases p1 : st.pstate = s_INITIAL
    · simp [endReceivePacket, AID_ENTER, AID_F1, AID_F2, AID_F3, AID_F4, AID_F5, AID_F9, AID_CLEAR, h1, a2, p1, enter_iRECEIVING, enter_iTRANSMITPREP, enter_iWELCOME, enter_iWELCOMEBIN, enter_iRESET, enter_iRECONNECT_CPREAD, emit, doSIO] at h
      subst h
      exact ⟨by simp [newEffects], Or.inr (by simp [newEffects])⟩
    · simp [endReceivePacket, AID_ENTER, AID_F1, AID_F2, AID_F3, AID_F4, AID_F5, AID_F9, AID_CLEAR, h1, a2, p1, enter_iRECEIVING, enter_iTRANSMITPREP, enter_iWELCOME, enter_iWELCOMEBIN, enter_iRESET, enter_iRECONNECT_CPREAD, emit, doSIO] at h
      subst h
      exact ⟨by simp [newEffects], Or.inl (by simp [SameSlots, newEffects])⟩
  by_cases a9 : st.recvBuffer 0 = AID_F9
  · by_cases p1 : st.pstate = s_INITIAL
    · simp [endReceivePacket, AID_ENTER, AID_F1, AID_F2, AID_F3, AID_F4, AID_F5, AID_F9, AID_CLEAR, h1, a9, p1, enter_iRECEIVING, enter_iTRANSMITPREP, enter_iWELCOME, enter_iWELCOMEBIN, enter_iRESET, enter_iRECONNECT_CPREAD, emit, doSIO] at h
      subst h
      exact ⟨by simp [newEffects], Or.inr (by simp [newEffects])⟩
    · simp [endReceivePacket, AID_ENTER, AID_F1, AID_F2, AID_F3, AID_F4, AID_F5, AID_F9, AID_CLEAR, h1, a9, p1, enter_iRECEIVING, enter_iTRANSMITPREP, enter_iWELCOME, enter_iWELCOMEBIN, enter_iRESET, enter_iRECONNECT_CPREAD, emit, doSIO] at h
      subst h
      exact ⟨by simp [newEffects], Or.inl (by simp [SameSlots, newEffects])⟩
  by_cases a1 : st.recvBuffer 0 = AID_F1
  · by_cases p1 : st.pstate = s_TRANSMITPREP
    · have h2 : enter_iTRANSMITTING payload (getNextRequestToSend { st with inRecv := false }).1
          (getNextRequestToSend { st with inRecv := false }).2 = some st1 := by
        simpa [endReceivePacket, AID_ENTER, AID_F1, AID_F2, AID_F3, AID_F4, AID_F5, AID_F9,
          AID_CLEAR, h1, a1, p1] using h
      have h3 := enter_iTRANSMITTING_effects _ _ _ _ h2
      have h4 : (getNextRequestToSend { st with inRecv := false }).2.out = st.out := by
        unfold getNextRequestToSend
        split <;> rfl
      have h5 : newEffects (getNextRequestToSend { st with inRecv := false }).2 st1
          = newEffects st st1 := by
        simp [newEffects, h4]
      rw [h4, h5] at h3
      exact ⟨h3.1, Or.inr h3.2⟩
    by_cases p2 : st.pstate = s_TRANSMITTING ∨ st.pstate = s_RESET
    · by_cases q : havingRequest { st with inRecv := false } = true
      · simp [endReceivePacket, AID_ENTER, AID_F1, AID_F2, AID_F3, AID_F4, AID_F5, AID_F9,
          AID_CLEAR, h1, a1, p1, p2, q, enter_iTRANSMITPREP, emit, doSIO] at h
        subst h
        exact ⟨by simp [newEffects], Or.inr (by simp [newEffects])⟩
      · by_cases w : recvLenOf csw2 > 3 ∧ st.recvBuffer 3 = 0xF5
        · simp [endReceivePacket, AID_ENTER, AID_F1, AID_F2, AID_F3, AID_F4, AID_F5, AID_F9,
            AID_CLEAR, h1, a1, p1, p2, q, w, enter_iRECEIVING, emit, doSIO] at h
          subst h
          exact ⟨by simp [newEffects], Or.inr (by simp [newEffects])⟩
        · simp [endReceivePacket, AID_ENTER, AID_F1, AID_F2, AID_F3, AID_F4, AID_F5, AID_F9,
            AID_CLEAR, h1, a1, p1, p2, q, w] at h
          subst h
          exact ⟨by simp [newEffects], Or.inr (by simp [newEffects])⟩
    · simp [endReceivePacket, AID_ENTER, AID_F1, AID_F2, AID_F3, AID_F4, AID_F5, AID_F9,
        AID_CLEAR, h1, a1, p1, p2] at h
      subst h
      exact ⟨by simp [newEffects], Or.inr (by simp [newEffects])⟩
  by_cases a3 : st.recvBuffer 0 = AID_F3
  · by_cases p2 : st.pstate = s_TRANSMITTING ∨ st.pstate = s_RESET
    · simp [endReceivePacket, AID_ENTER, AID_F1, AID_F2, AID_F3, AID_F4, AID_F5, AID_F9, AID_CLEAR, h1, a3, p2, enter_iRECEIVING, enter_iTRANSMITPREP, enter_iWELCOME, enter_iWELCOMEBIN, enter_iRESET, enter_iRECONNECT_CPREAD, emit, doSIO] at h
      subst h
      exact ⟨by simp [newEffects], Or.inr (by simp [newEffects])⟩
    · simp [endReceivePacket, AID_ENTER, AID_F1, AID_F2, AID_F3, AID_F4, AID_F5, AID_F9, AID_CLEAR, h1, a3, p2, enter_iRECEIVING, enter_iTRANSMITPREP, enter_iWELCOME, enter_iWELCOMEBIN, enter_iRESET, enter_iRECONNECT_CPREAD, emit, doSIO] at h
      subst h
      exact ⟨by simp [newEffects], Or.inl (by simp [SameSlots, newEffects])⟩
  by_cases ac : st.recvBuffer 0 = AID_CLEAR
  · simp [endReceivePacket, AID_ENTER, AID_F1, AID_F2, AID_F3, AID_F4, AID_F5, AID_F9, AID_CLEAR, h1, ac, enter_iRECEIVING, enter_iTRANSMITPREP, enter_iWELCOME, enter_iWELCOMEBIN, enter_iRESET, enter_iRECONNECT_CPREAD, emit, doSIO] at h
    subst h
    exact ⟨by simp [newEffects], Or.inr (by simp [newEffects])⟩
  by_cases ae : st.recvBuffer 0 = AID_ENTER
  · by_cases p1 : st.pstate = s_iRECONNECT_CPREAD
    · by_cases d : st.recvBuffer 6 = chr_D ∧ st.recvBuffer 7 = chr_I ∧ st.recvBuffer 8 = chr_A
          ∧ st.recvBuffer 9 = chr_L ∧ st.recvBuffer 10 = chr_SP
      · have h2 : enter_iRECONNECT_DIALED (resetAllRequests { st with inRecv := false }) = st1 := by
          simpa [endReceivePacket, AID_ENTER, AID_F1, AID_F2, AID_F3, AID_F4, AID_F5, AID_F9,
            AID_CLEAR, h1, ae, p1, d] using h
        subst h2
        refine ⟨?_, Or.inr ?_⟩ <;>
          simp [newEffects, enter_iRECONNECT_DIALED, emit, doSIO, resetAllRequests_out, rejectsFor]
      · simp [endReceivePacket, AID_ENTER, AID_F1, AID_F2, AID_F3, AID_F4, AID_F5, AID_F9,
          AID_CLEAR, h1, ae, p1, d, enter_iRECONNECT_CPREAD, emit, doSIO] at h
        subst h
        exact ⟨by simp [newEffects], Or.inr (by simp [newEffects])⟩
    by_cases l : recvLenOf csw2 < 21
    · simp [endReceivePacket, AID_ENTER, AID_F1, AID_F2, AID_F3, AID_F4, AID_F5, AID_F9,
        AID_CLEAR, h1, ae, p1, l, enter_iRESET, emit, doSIO] at h
      subst h
      exact ⟨by simp [newEffects], Or.inl (by simp [SameSlots, newEffects])⟩
    by_cases p2 : st.pstate ≠ s_RECEIVING ∧ st.pstate ≠ s_iRECEIVING
    · simp [endReceivePacket, AID_ENTER, AID_F1, AID_F2, AID_F3, AID_F4, AID_F5, AID_F9,
        AID_CLEAR, h1, ae, p1, l, p2, enter_iRESET, emit, doSIO] at h
      subst h
      exact ⟨by simp [newEffects], Or.inl (by simp [SameSlots, newEffects])⟩
    · have h2 : processData (recvLenOf csw2) false { st with inRecv := false } = st1 := by
        simpa [endReceivePacket, AID_ENTER, AID_F1, AID_F2, AID_F3, AID_F4, AID_F5, AID_F9,
          AID_CLEAR, h1, ae, p1, l, p2] using h
      subst h2
      exact processData_effects (recvLenOf csw2) false { st with inRecv := false }
  by_cases l : recvLenOf csw2 < 21
  · simp [endReceivePacket, h1, a5, a2, a9, a1, a3, ac, ae, l, enter_iRESET, emit, doSIO] at h
    subst h
    exact ⟨by simp [newEffects], Or.inl (by simp [SameSlots, newEffects])⟩
  by_cases a4 : st.recvBuffer 0 = AID_F4
  · by_cases p2 : st.pstate ≠ s_RECEIVING ∧ st.pstate ≠ s_iRECEIVING
    · simp [endReceivePacket, AID_ENTER, AID_F1, AID_F2, AID_F3, AID_F4, AID_F5, AID_F9,
        AID_CLEAR, h1, a4, l, p2, enter_iRESET, emit, doSIO] at h
      subst h
      exact ⟨by simp [newEffects], Or.inl (by simp [SameSlots, newEffects])⟩
    · have h2 : processData (recvLenOf csw2) true { st with inRecv := false } = st1 := by
        simpa [endReceivePacket, AID_ENTER, AID_F1, AID_F2, AID_F3, AID_F4, AID_F5, AID_F9,
          AID_CLEAR, h1, a4, l, p2] using h
      subst h2
      exact processData_effects (recvLenOf csw2) true { st with inRecv := false }
  · simp [endReceivePacket, h1, a5, a2, a9, a1, a3, ac, ae, l, a4, enter_iRESET, emit, doSIO] at h
    subst h
    exact ⟨by simp [newEffects], Or.inl (by simp [SameSlots, newEffects])⟩

theorem devintHandler_effects (dev csw2 : Nat) (payload : List Nat) (st st1 : Proxy)
    (h : devintHandler dev csw2 payload st = some st1)
    (hr : Effect.sio Ccw.ccw_handshake_reset ∈ newEffects st st1) :
    SameSlots st st1 ∧ st1.pstate = s_iRESET ∧ st1.inRecv = false ∧
    ∀ x, x ∈ newEffects st st1 → ∃ c, x = Effect.sio c := by
  have h0 := h
  unfold devintHandler at h
  by_cases hd : dev = GRAFDEV
  swap
  · simp [hd] at h
    subst h
    simp [newEffects] at hr
  by_cases hde : csw2 &&& Unit_DeviceEnd ≠ 0
  swap
  · by_cases hatt : csw2 &&& Unit_Attention ≠ 0
    · simp [hd, hde, hatt, beginReceivePacket, emit, doSIO] at h
      subst h
      simp [newEffects] at hr
    · simp [hd, hde, hatt] at h
      subst h
      simp [newEffects] at hr
  have key : ∀ st2 : Proxy, ∀ l : List Effect, st2.out = st.out ++ l →
      (∀ x, x ∈ l → ∃ c, x = Effect.sio c) →
      Effect.sio Ccw.ccw_handshake_reset ∉ l → SameSlots st st2 →
      endReceivePacket csw2 payload st2 = some st1 →
      SameSlots st st1 ∧ st1.pstate = s_iRESET ∧ st1.inRecv = false ∧
      ∀ x, x ∈ newEffects st st1 → ∃ c, x = Effect.sio c := by
    intro st2 l hl hsio hnot hss he
    obtain ⟨ho, hc⟩ := endReceivePacket_effects csw2 payload st2 st1 he
    have hne : newEffects st st1 = l ++ newEffects st2 st1 := by
      apply newEffects_append
      rw [ho, hl, List.append_assoc]
    rw [hne] at hr
    rcases hc with ⟨hs, hp, hn, hi⟩ | hc
    · refine ⟨?_, hp, hi, ?_⟩
      · obtain ⟨a1, a2, a3, a4, a5, a6, a7⟩ := hs
        obtain ⟨b1, b2, b3, b4, b5, b6, b7⟩ := hss
        exact ⟨a1.trans b1, a2.trans b2, a3.trans b3, a4.trans b4, a5.trans b5, a6.trans b6,
          a7.trans b7⟩
      · intro x hx
        rw [hne, hn] at hx
        rcases List.mem_append.1 hx with hx | hx
        · exact hsio x hx
        · exact ⟨Ccw.ccw_handshake_reset, by simpa using hx⟩
    · rcases List.mem_append.1 hr with hx | hx
      · exact absurd hx hnot
      · exact absurd hx hc
  by_cases hatt : csw2 &&& Unit_Attention ≠ 0
  · have e : devintHandler dev csw2 payload st
        = endReceivePacket csw2 payload (beginReceivePacket { st with lastCsw2 := csw2 }) := by
      simp [devintHandler, hd, hde, hatt, beginReceivePacket, emit, doSIO]
    rw [e] at h0
    exact key (beginReceivePacket { st with lastCsw2 := csw2 }) [Effect.sio Ccw.ccw_recv_data]
      rfl (by simp) (by simp) ⟨rfl, rfl, rfl, rfl, rfl, rfl, rfl⟩ h0
  · simp only [hd, if_pos hde, if_neg hatt, if_true] at h
    by_cases hin : st.inRecv = true
    · have e : devintHandler dev csw2 payload st
          = endReceivePacket csw2 payload { st with lastCsw2 := csw2 } := by
        simp [devintHandler, hd, hde, hatt, hin]
      rw [e] at h0
      exact key { st with lastCsw2 := csw2 } [] (by simp) (by simp) (by simp)
        ⟨rfl, rfl, rfl, rfl, rfl, rfl, rfl⟩ h0
    · exfalso
      simp only [hin] at h
      cases hp : st.pstate <;>
        simp [hp, enter_iTRANSMITPREP, enter_iIDLE, emit, doSIO] at h
      all_goals first
        | (subst h
           simp [newEffects] at hr)
        | (split at h <;> injection h with h <;> subst h <;> simp [newEffects] at hr)

theorem getSlot_out (st : Proxy) : (getSlot st).2.out = st.out := by
  unfold getSlot
  split_ifs
  · rfl
  · split <;> rfl

theorem handleExt_effects (code : Nat) (hdr : VMCMHDR) (st : Proxy) :
    Effect.sio Ccw.ccw_handshake_reset ∉ newEffects st (handleExt code hdr st) := by
  have ho := getSlot_out st
  by_cases c1 : code = 0x4001
  swap
  · simp [handleExt, c1, newEffects]
  by_cases c2 : hdr.vmcmfunc = VMCPSENX
  · simp only [handleExt, c1, c2, if_true]
    split_ifs <;> simp [newEffects, emit, doSIO, send_Dump]
  by_cases c3 : hdr.vmcmfunc = VMCPSENR
  swap
  · simp [handleExt, c1, c2, c3, newEffects]
  have c4 : ¬ (VMCPSENR = VMCPSENX) := by decide
  simp only [handleExt, c1, c3, c4, if_true, if_false]
  cases hg : getSlot st with
  | mk r s =>
    rw [hg] at ho
    simp only at ho
    cases r with
    | none => simp [newEffects, sendVmcfReject, emit, ho]
    | some q =>
      simp only []
      split_ifs <;> simp [newEffects, ho, enter_iTRANSMITPREP, enqueueRequest, emit, doSIO]

theorem some_getD_of_isSome (x : Option Proxy) (d : Proxy) (h : x.isSome = true) :
    x = some (x.getD d) := by
  cases x <;> simp_all

/-- C23: a transition of the device interrupt handler or of the external
interrupt handler that issues the Reset handshake leaves the slot table, the
free ring and the transmit queue as they were, ends in s_iRESET, and makes no
call other than SIOs (no VMCF reply, no VMCF reject). -/
theorem reset_keeps_slots (st st1 : Proxy)
    (h : (∃ dev csw2 payload, devintHandler dev csw2 payload st = some st1) ∨
      (∃ code hdr, handleExt code hdr st = st1))
    (hr : Effect.sio Ccw.ccw_handshake_reset ∈ newEffects st st1) :
    SameSlots st st1 ∧ st1.pstate = s_iRESET ∧
    ∀ x, x ∈ newEffects st st1 → ∃ c, x = Effect.sio c := by
  rcases h with ⟨dev, csw2, payload, h⟩ | ⟨code, hdr, h⟩
  · obtain ⟨h1, h2, _, h3⟩ := devintHandler_effects dev csw2 payload st st1 h hr
    exact ⟨h1, h2, h3⟩
  · subst h
    exact absurd hr (handleExt_effects code hdr st)

theorem reset_keeps_slots_witness :
    Effect.sio Ccw.ccw_handshake_reset ∈ newEffects collisionF3Proxy collisionF3Result ∧
    havingRequest collisionF3Proxy = true ∧
    SameSlots collisionF3Proxy collisionF3Result ∧ collisionF3Result.pstate = s_iRESET ∧
    ∀ x, x ∈ newEffects collisionF3Proxy collisionF3Result → ∃ c, x = Effect.sio c :=
  ⟨by decide, by decide,
   reset_keeps_slots collisionF3Proxy collisionF3Result
    (Or.inl ⟨GRAFDEV, csw2ReadEnd 1, [],
      some_getD_of_isSome _ _ (by decide)⟩) (by decide)⟩

/-! ## Reset rounds -/

theorem status_bits (m : Nat) (h : m < 65536) :
    (0x04000000 + m) &&& 0x04000000 ≠ 0 ∧ (0x04000000 + m) &&& 0x80000000 = 0 ∧
    (0x04000000 + m) &&& 0xFFFF = m := by
  have e1 : (0x04000000 + m) &&& 0x04000000
      = ((0x04000000 + m).testBit 26).toNat * 2 ^ 26 := Nat.and_two_pow _ 26
  have e2 : (0x04000000 + m) &&& 0x80000000
      = ((0x04000000 + m).testBit 31).toNat * 2 ^ 31 := Nat.and_two_pow _ 31
  have e3 : (0x04000000 + m) &&& 0xFFFF = (0x04000000 + m) % 2 ^ 16 :=
    Nat.and_pow_two_sub_one_eq_mod _ 16
  rw [e1, e2, e3]
  simp only [Nat.testBit_to_div_mod]
  have a1 : (0x04000000 + m) / 2 ^ 26 % 2 = 1 := by omega
  have a2 : ¬ ((0x04000000 + m) / 2 ^ 31 % 2 = 1) := by omega
  simp only [a1, a2, decide_True, decide_False, Bool.toNat_true, Bool.toNat_false]
  refine ⟨by norm_num, by norm_num, by omega⟩

theorem csw2ReadEnd_bits (n : Nat) (hn : n ≤ RECV_BUFFER_SIZE) :
    csw2ReadEnd n &&& Unit_DeviceEnd ≠ 0 ∧ csw2ReadEnd n &&& Unit_Attention = 0 ∧
    recvLenOf (csw2ReadEnd n) = (n : Int) := by
  have hn2 : n ≤ 2560 := hn
  obtain ⟨h1, h2, h3⟩ := status_bits (2560 - n) (by omega)
  refine ⟨h1, h2, ?_⟩
  have e : recvLenOf (csw2ReadEnd n) = (2560 : Int) - (((0x04000000 + (2560 - n)) &&& 0xFFFF : Nat) : Int) := rfl
  rw [e, h3]
  omega

theorem SameSlots_trans (a b c : Proxy) (h1 : SameSlots a b) (h2 : SameSlots b c) :
    SameSlots a c := by
  obtain ⟨a1, a2, a3, a4, a5, a6, a7⟩ := h1
  obtain ⟨b1, b2, b3, b4, b5, b6, b7⟩ := h2
  exact ⟨b1.trans a1, b2.trans a2, b3.trans a3, b4.trans a4, b5.trans a5, b6.trans a6,
    b7.trans a7⟩

theorem deliver_attention (st : Proxy) :
    deliver st Event.attention
      = some (beginReceivePacket { st with lastCsw2 := Unit_Attention }) := by
  have h1 : Unit_Attention &&& Unit_Attention ≠ 0 := by decide
  have h2 : ¬ (Unit_Attention &&& Unit_DeviceEnd ≠ 0) := by decide
  simp only [deliver, devintHandler, if_pos h1, if_neg h2, if_true]

theorem resetRounds_inv : ∀ (fs : List (List Nat)) (st st1 : Proxy),
    resetRounds fs st = some st1 →
    SameSlots st st1 ∧ (st1.pstate = s_RESET ∨ st1 = st) := by
  intro fs
  induction fs with
  | nil =>
    intro st st1 h
    simp only [resetRounds, Option.some.injEq] at h
    subst h
    exact ⟨⟨rfl, rfl, rfl, rfl, rfl, rfl, rfl⟩, Or.inr rfl⟩
  | cons f fs ih =>
    intro st st1 h
    simp only [resetRounds, deliver_attention, Option.some_bind] at h
    cases hb : deliver (beginReceivePacket { st with lastCsw2 := Unit_Attention })
        (Event.readEnd f) with
    | none => simp [hb] at h
    | some sb =>
      simp only [hb, Option.some_bind] at h
      split_ifs at h with hr
      have hr2 : Effect.sio Ccw.ccw_handshake_reset ∈ newEffects
          (channelStore f (beginReceivePacket { st with lastCsw2 := Unit_Attention })) sb := hr
      obtain ⟨hs, hp, hi, _⟩ := devintHandler_effects _ _ _ _ _ hb hr2
      have hd : deliver sb Event.deviceEnd
          = some { sb with lastCsw2 := Unit_DeviceEnd, pstate := s_RESET } := by
        have h1 : ¬ (Unit_DeviceEnd &&& Unit_Attention ≠ 0) := by decide
        have h2 : Unit_DeviceEnd &&& Unit_DeviceEnd ≠ 0 := by decide
        have h3 : ¬ (Unit_DeviceEnd = 0) := by decide
        simp [deliver, devintHandler, if_neg h1, if_pos h2, hi, hp, h3]
      rw [hd, Option.some_bind] at h
      obtain ⟨ha, hb2⟩ := ih _ _ h
      refine ⟨?_, Or.inl ?_⟩
      · refine SameSlots_trans _ _ _ ?_ ha
        obtain ⟨a1, a2, a3, a4, a5, a6, a7⟩ := hs
        exact ⟨a1, a2, a3, a4, a5, a6, a7⟩
      · rcases hb2 with hb2 | hb2
        · exact hb2
        · rw [hb2]

theorem endReceivePacket_plain_ack (csw2 : Nat) (payload : List Nat) (st : Proxy)
    (hlen : 1 ≤ recvLenOf csw2) (haid : st.recvBuffer 0 = AID_F1)
    (hp : st.pstate = s_RESET ∨ st.pstate = s_IDLE)
    (hq : havingRequest st = false)
    (hw : ¬ (recvLenOf csw2 > 3 ∧ st.recvBuffer 3 = AID_F5)) :
    endReceivePacket csw2 payload st = some { st with inRecv := false, pstate := s_IDLE } := by
  have h1 : ¬ recvLenOf csw2 < 1 := by omega
  have hq2 : st.reqLastOut = st.reqLastIn := by
    simpa [havingRequest] using hq
  have hw2 : ¬ (recvLenOf csw2 > 3 ∧ st.recvBuffer 3 = 0xF5) := hw
  rcases hp with hp | hp
  · simp [endReceivePacket, AID_ENTER, AID_F1, AID_F2, AID_F3, AID_F4, AID_F5, AID_F9,
      AID_CLEAR, h1, haid, hp, hq2, hw2, havingRequest]
  · simp [endReceivePacket, AID_ENTER, AID_F1, AID_F2, AID_F3, AID_F4, AID_F5, AID_F9,
      AID_CLEAR, h1, haid, hp, hq2, hw2, havingRequest]

/-- C24: from s_IDLE with an empty transmit queue, any number of rounds in
which a frame of the outside proxy makes the proxy issue Reset and the device
end of the Reset command follows (s_iRESET to s_RESET), followed by an Ack
frame without want-send, ends in s_IDLE with the slot table, the free ring and
the transmit queue as they were at the start. -/
theorem reset_rounds_return_to_idle (fs : List (List Nat)) (ack : List Nat) (st st1 : Proxy)
    (hs : st.pstate = s_IDLE) (hq : havingRequest st = false) (hack : plainAck ack)
    (h : resetRounds fs st = some st1) :
    (fs ≠ [] → st1.pstate = s_RESET) ∧
    ∃ st2, run st1 [Event.attention, Event.readEnd ack] = some st2 ∧
      st2.pstate = s_IDLE ∧ SameSlots st st2 := by
  obtain ⟨hss, hp⟩ := resetRounds_inv fs st st1 h
  obtain ⟨l1, l2, l3, l4⟩ := hack
  obtain ⟨b1, b2, b3⟩ := csw2ReadEnd_bits ack.length l2
  have hp2 : st1.pstate = s_RESET ∨ st1.pstate = s_IDLE := by
    rcases hp with hp | hp
    · exact Or.inl hp
    · rw [hp]
      exact Or.inr hs
  have hq1 : havingRequest st1 = false := by
    obtain ⟨_, _, _, _, _, a6, a7⟩ := hss
    simp only [havingRequest, a6, a7]
    exact hq
  refine ⟨?_, ?_⟩
  · intro hne
    cases fs with
    | nil => exact absurd rfl hne
    | cons f fs =>
      rcases hp with hp | hp
      · exact hp
      · exfalso
        simp only [resetRounds, deliver_attention, Option.some_bind] at h
        cases hb : deliver (beginReceivePacket { st with lastCsw2 := Unit_Attention })
            (Event.readEnd f) with
        | none => simp [hb] at h
        | some sb =>
          simp only [hb, Option.some_bind] at h
          split_ifs at h with hr
          have hr2 : Effect.sio Ccw.ccw_handshake_reset ∈ newEffects
              (channelStore f (beginReceivePacket { st with lastCsw2 := Unit_Attention })) sb := hr
          obtain ⟨_, hp1, hi, _⟩ := devintHandler_effects _ _ _ _ _ hb hr2
          have hd : deliver sb Event.deviceEnd
              = some { sb with lastCsw2 := Unit_DeviceEnd, pstate := s_RESET } := by
            have h1 : ¬ (Unit_DeviceEnd &&& Unit_Attention ≠ 0) := by decide
            have h2 : Unit_DeviceEnd &&& Unit_DeviceEnd ≠ 0 := by decide
            have h3 : ¬ (Unit_DeviceEnd = 0) := by decide
            simp [deliver, devintHandler, if_neg h1, if_pos h2, hi, hp1, h3]
          rw [hd, Option.some_bind] at h
          obtain ⟨_, hc⟩ := resetRounds_inv _ _ _ h
          rcases hc with hc | hc
          · rw [hp, hs] at hc
            exact absurd hc (by decide)
          · have : st1.pstate = s_RESET := by rw [hc]
            rw [hp, hs] at this
            exact absurd this (by decide)
  · obtain ⟨sa, hsa⟩ : ∃ s, s = channelStore ack
        (beginReceivePacket { st1 with lastCsw2 := Unit_Attention }) := ⟨_, rfl⟩
    have hrb0 : sa.recvBuffer 0 = AID_F1 := by
      rw [hsa]
      simp only [channelStore]
      rw [if_pos (by omega)]
      exact l3
    have hw : ¬ (recvLenOf (csw2ReadEnd ack.length) > 3 ∧ sa.recvBuffer 3 = AID_F5) := by
      rintro ⟨w1, w2⟩
      rw [b3] at w1
      have w3 : 3 < ack.length := by omega
      rw [hsa] at w2
      simp only [channelStore] at w2
      rw [if_pos w3] at w2
      exact l4 ⟨w3, w2⟩
    have hpa : sa.pstate = s_RESET ∨ sa.pstate = s_IDLE := by
      rw [hsa]
      exact hp2
    have hqa : havingRequest sa = false := by
      rw [hsa]
      exact hq1
    have hsl : SameSlots st1 sa := by
      rw [hsa]
      exact ⟨rfl, rfl, rfl, rfl, rfl, rfl, rfl⟩
    have hin : sa.inRecv = true := by
      rw [hsa]
      rfl
    have he := endReceivePacket_plain_ack (csw2ReadEnd ack.length) []
      { sa with lastCsw2 := csw2ReadEnd ack.length } (by rw [b3]; omega) hrb0 hpa hqa hw
    have b2n : ¬ (csw2ReadEnd ack.length &&& Unit_Attention ≠ 0) := by
      rw [b2]
      simp
    have hdv : deliver (beginReceivePacket { st1 with lastCsw2 := Unit_Attention })
        (Event.readEnd ack)
        = endReceivePacket (csw2ReadEnd ack.length) []
          { sa with lastCsw2 := csw2ReadEnd ack.length } := by
      show devintHandler GRAFDEV (csw2ReadEnd ack.length) [] (channelStore ack _) = _
      rw [← hsa]
      simp only [devintHandler, if_pos b1, if_neg b2n, if_true, hin]
    refine ⟨{ sa with lastCsw2 := csw2ReadEnd ack.length, inRecv := false, pstate := s_IDLE },
      ?_, rfl, ?_⟩
    · simp only [run, deliver_attention, Option.some_bind, hdv, he]
    · exact SameSlots_trans _ _ _ hss (SameSlots_trans _ _ _ hsl ⟨rfl, rfl, rfl, rfl, rfl, rfl, rfl⟩)

theorem reset_rounds_return_to_idle_witness :
    ((resetRounds [[0xF3], [0xF5], [0x00]] idleProxy).getD initialProxy).pstate = s_RESET ∧
    ∃ st2, run ((resetRounds [[0xF3], [0xF5], [0x00]] idleProxy).getD initialProxy)
        [Event.attention, Event.readEnd [0xF1]] = some st2 ∧
      st2.pstate = s_IDLE ∧ SameSlots idleProxy st2 :=
  ⟨(reset_rounds_return_to_idle [[0xF3], [0xF5], [0x00]] [0xF1] idleProxy _ (by decide)
      (by decide) ⟨by decide, by decide, by decide, by decide⟩
      (some_getD_of_isSome _ _ (by decide))).1 (by decide),
   (reset_rounds_return_to_idle [[0xF3], [0xF5], [0x00]] [0xF1] idleProxy _ (by decide)
      (by decide) ⟨by decide, by decide, by decide, by decide⟩
      (some_getD_of_isSome _ _ (by decide))).2⟩

/-! ## decoding in place -/

theorem decodeStep_eq_from (wire : Nat → Nat) (d : Int) (n : Nat) (s : DecState)
    (h : DecInv wire d n s) : decodeStep s = decodeStepFrom wire s := by
  obtain ⟨hb, hd, _, _, _, hrest, _⟩ := h
  have h1 : s.buf s.block = wire s.block := hrest _ (by rw [hb]; omega)
  have h2 : Function.update s.buf s.dest
      (if s.blockModif &&& s.mask ≠ 0 then wire s.block ||| 0x80 else wire s.block)
      (s.block + 2 + 7) = wire (s.block + 2 + 7) := by
    rw [Function.update_noteq (by rw [hb, hd]; omega)]
    exact hrest _ (by rw [hb]; omega)
  unfold decodeStep decodeStepFrom
  simp only [h1, h2]

theorem decodeLoop_eq_from (wire : Nat → Nat) (d : Int) : ∀ (f n : Nat) (s : DecState),
    DecInv wire d n s → n + f ≤ decodePasses d →
    decodeLoop f s = decodeLoopFrom wire f s := by
  intro f
  induction f with
  | zero => intro n s _ _; rfl
  | succ f ih =>
    intro n s h hle
    rw [decodeLoop, decodeLoopFrom]
    split_ifs
    · rw [← decodeStep_eq_from wire d n s h]
      exact ih (n + 1) (decodeStep s) (decodeStep_inv wire d n s h) (by omega)
    · rfl

theorem DecInv_start (buf : Nat → Nat) (recvLen : Int) :
    DecInv buf (recvLen - 11) 0 (decodeStart buf recvLen) :=
  ⟨rfl, rfl, rfl, rfl, by simp [decodeStart], fun _ _ => rfl, fun m hm => absurd hm (by omega)⟩

/-- C28: decoding in place gives the buffer (and the length) that decoding
from an unmodified copy of the receive buffer gives, for every buffer content
and every received length; in every pass the write index `dest` is not above
the read index `block` and below the index of the block modifier that is
fetched next; and the loop has ended after seven passes for each of the
ceil(dlen/8) blocks: `dlen` is positive before each of these passes and not
positive after them, so that further passes change nothing. -/
theorem decode7to8_in_place (buf : Nat → Nat) (recvLen : Int) :
    decode7to8 buf recvLen = decodeFromCopy buf recvLen ∧
    (∀ n, n < decodePasses (recvLen - 11) →
      0 < (decodeLoop n (decodeStart buf recvLen)).dlen ∧
      (decodeLoop n (decodeStart buf recvLen)).dest
        ≤ (decodeLoop n (decodeStart buf recvLen)).block ∧
      (decodeLoop n (decodeStart buf recvLen)).dest
        < (decodeLoop n (decodeStart buf recvLen)).block + 2 + 7) ∧
    (decodeLoop (decodePasses (recvLen - 11)) (decodeStart buf recvLen)).dlen ≤ 0 ∧
    (∀ g, decodeLoop (decodePasses (recvLen - 11) + g) (decodeStart buf recvLen)
      = decodeLoop (decodePasses (recvLen - 11)) (decodeStart buf recvLen)) ∧
    decodePasses (recvLen - 11) = 7 * (⌈((recvLen - 11 : Int) : ℚ) / 8⌉).toNat := by
  refine ⟨?_, ?_, decodeLoop_exits buf recvLen, decodeLoop_fuel_enough buf recvLen, ?_⟩
  · have h := decodeLoop_eq_from buf (recvLen - 11) (decodePasses (recvLen - 11)) 0
      (decodeStart buf recvLen) (DecInv_start buf recvLen) (by omega)
    have h2 : decodeLoop (decodePasses (recvLen - 11))
          { buf := buf, block := 11, dest := 11, blockModif := buf (11 + 7), mask := 0x40,
            dlen := recvLen - 11 }
        = decodeLoopFrom buf (decodePasses (recvLen - 11))
          { buf := buf, block := 11, dest := 11, blockModif := buf (11 + 7), mask := 0x40,
            dlen := recvLen - 11 } := h
    unfold decode7to8 decodeFromCopy
    simp only [h2]
  · intro n hn
    have h := decodeLoop_inv buf (recvLen - 11) n 0 (decodeStart buf recvLen)
      (DecInv_start buf recvLen) (by omega)
    rw [Nat.zero_add] at h
    obtain ⟨hb, hd, _, _, hdl, _, _⟩ := h
    refine ⟨?_, ?_, ?_⟩
    · rw [hdl]
      exact decodePasses_pos _ n hn
    · rw [hb, hd]
      omega
    · rw [hb, hd]
      omega
  · unfold decodePasses
    rw [ceil_div_eight]

/-! ## decoding: buffer bounds -/

theorem decodeStepIndices_mem (wire : Nat → Nat) (d : Int) (n : Nat) (s : DecState)
    (h : DecInv wire d n s) (i : Nat) (hi : i ∈ decodeStepIndices s) :
    i ≤ 11 + 8 * (n / 7) + 15 := by
  obtain ⟨hb, hd, _, _, _, _, _⟩ := h
  unfold decodeStepIndices at hi
  split_ifs at hi <;> simp only [List.mem_cons, List.mem_singleton, List.not_mem_nil,
    or_false] at hi <;> omega

/-- The accesses of the decoding loop stay inside the receive buffer when at
most 2547 bytes were received. -/
theorem decodeStepIndices_in_buffer (buf : Nat → Nat) (recvLen : Int) (n i : Nat)
    (hlen : recvLen ≤ 2547) (hn : n < decodePasses (recvLen - 11))
    (hi : i ∈ decodeStepIndices (decodeLoop n (decodeStart buf recvLen))) :
    i < RECV_BUFFER_SIZE := by
  have h := decodeLoop_inv buf (recvLen - 11) n 0 (decodeStart buf recvLen)
    (DecInv_start buf recvLen) (by omega)
  rw [Nat.zero_add] at h
  have hb := decodeStepIndices_mem buf (recvLen - 11) n _ h i hi
  have hp : decodePasses (recvLen - 11) ≤ 7 * 317 := by
    unfold decodePasses
    omega
  show i < 2560
  omega

/-- C29 (code at the failing input): with 2560 bytes received in 7-of-8 mode
(residual count 0) the loop makes 2233 passes; the last of them, entered with
`dlen` still positive, reads the wire byte at index 2561 and fetches the
modifier `block[7]` of a further block at index 2570, both outside
`recvBuffer[2560]`; the byte written goes to index 2243. -/
theorem decode7to8_reads_past_buffer (buf : Nat → Nat) :
    recvLenOf (csw2ReadEnd 2560) = 2560 ∧
    decodePasses (2560 - 11) = 2233 ∧
    0 < (decodeLoop 2232 (decodeStart buf 2560)).dlen ∧
    decodeStepIndices (decodeLoop 2232 (decodeStart buf 2560)) = [2561, 2243, 2570] ∧
    RECV_BUFFER_SIZE = 2560 := by
  have h := decodeLoop_inv buf (2560 - 11) 2232 0 (decodeStart buf 2560)
    (DecInv_start buf 2560) (by decide)
  rw [Nat.zero_add] at h
  obtain ⟨hb, hd, hm, _, hdl, _, _⟩ := h
  refine ⟨by decide, by decide, ?_, ?_, rfl⟩
  · rw [hdl]
    decide
  · unfold decodeStepIndices
    rw [hb, hd, hm]
    decide

/-! ## slot bookkeeping: defects -/

/-- C21 (code at the failing input): after the events `eventsDoubleFree`
slot 5 is in the transmit queue (it carries the request with message id 200)
and is at the same time the next slot that `getSlot()` hands out; the next
client request is therefore stored into slot 5 as well and the transmit queue
holds slot 5 twice. -/
theorem slot_free_and_queued :
    (run initialProxy eventsDoubleFree).map
      (fun s => (acquirable s, queued s, (s.requests 5).msgId, s.pstate))
    = some ([5], [5], 200, s_RECEIVING) ∧
    (run initialProxy (eventsDoubleFree ++ [Event.vmcf requestC])).map
      (fun s => (acquirable s, queued s, (s.requests 5).msgId))
    = some ([], [5, 5], 300) := by
  decide!

/-- C26 (code at the failing input): the events `eventsQueueWrap` lead to
s_TRANSMITPREP with 128 requests enqueued, so that `reqLastIn` has come round
to `reqLastOut` and `havingRequest()` is false; the Ack (F1) of the outside
proxy then makes `getNextRequestToSend()` return NULL, which
`enter_iTRANSMITTING` dereferences. -/
theorem transmitprep_with_empty_queue :
    (run initialProxy eventsQueueWrap).map
      (fun s => (s.pstate, havingRequest s, s.reqLastIn, s.reqLastOut, s.totalReqCount))
    = some (s_TRANSMITPREP, false, 0, 0, 128) ∧
    (run initialProxy eventsQueueWrap).map (fun s => (getNextRequestToSend s).1) = some none ∧
    (run initialProxy (eventsQueueWrap ++ [Event.readEnd [0xF1]])).isNone = true := by
  decide!

/-! ## slot operations -/

/-- C27 (counterexample): 127 slots are acquired and enqueued, slot 1 is
released while it is acquired (and still in the transmit queue), and the slot
acquired next is enqueued: every release was of an acquired slot and every
slot was enqueued once, 127 slots are acquired, but 128 entries are waiting in
the transmit queue, `reqLastIn` has come round to `reqLastOut` and
`havingRequest()` is false. -/
theorem queue_wraps_after_release_of_queued_slot :
    releasesAcquired opsReleaseQueued (initRequestBuffers initialProxy, emptyBook) = true ∧
    enqueuesFresh opsReleaseQueued (initRequestBuffers initialProxy, emptyBook) = true ∧
    (fun p : Proxy × Book =>
        (p.2.acquired.length, p.2.queue.length, havingRequest p.1, p.1.reqLastIn,
          p.1.reqLastOut))
      (slotRun opsReleaseQueued (initRequestBuffers initialProxy, emptyBook))
    = (127, 128, false, 0, 0) := by
  decide!

theorem RingInv_step (op : SlotOp) (p : Proxy × Book) (h : RingInv p)
    (hrel : ∀ q, op = SlotOp.release q → q ∈ p.2.acquired) : RingInv (slotStep op p) := by
  obtain ⟨hc, hl, hw⟩ := h
  cases op with
  | acquire =>
    cases hg : (getSlot p.1).1 with
    | none =>
      have e := getSlot_none_state p.1 hg
      simp only [slotStep, hg, e]
      exact ⟨hc, hl, hw⟩
    | some q =>
      obtain ⟨e, _, hne⟩ := getSlot_some_state p.1 q hg
      simp only [slotStep, hg, e]
      refine ⟨?_, hl, ?_⟩
      · show RING_NEXT p.1.reqCurrFree < 128
        rw [RING_NEXT_mod _ hc]
        omega
      · show (p.1.reqLastFree + 128 - RING_NEXT p.1.reqCurrFree) % 128
          + (q :: p.2.acquired).length = 127
        rw [RING_NEXT_mod _ hc, List.length_cons]
        omega
  | enqueue hdr q => exact ⟨hc, hl, hw⟩
  | dequeue =>
    refine ⟨?_, ?_, ?_⟩
    · show (getNextRequestToSend p.1).2.reqCurrFree < 128
      unfold getNextRequestToSend
      split <;> exact hc
    · show (getNextRequestToSend p.1).2.reqLastFree < 128
      unfold getNextRequestToSend
      split <;> exact hl
    · show ((getNextRequestToSend p.1).2.reqLastFree + 128
          - (getNextRequestToSend p.1).2.reqCurrFree) % 128 + p.2.acquired.length = 127
      unfold getNextRequestToSend
      split <;> exact hw
  | release q =>
    have hm := hrel q rfl
    have hlen := List.length_erase_of_mem hm
    have hpos := List.length_pos_of_mem hm
    refine ⟨hc, ?_, ?_⟩
    · show RING_NEXT p.1.reqLastFree < 128
      rw [RING_NEXT_mod _ hl]
      omega
    · show (RING_NEXT p.1.reqLastFree + 128 - p.1.reqCurrFree) % 128
        + (p.2.acquired.erase q).length = 127
      rw [RING_NEXT_mod _ hl, hlen]
      omega

theorem QueueIs_enqueue (hdr : VMCMHDR) (q : Nat) (st : Proxy) (l : List Nat)
    (h : QueueIs st l) (hlt : l.length < 127) :
    QueueIs (enqueueRequest hdr q st) (l ++ [q]) := by
  obtain ⟨hlo, hli, hlen, hent⟩ := h
  have hin : st.reqLastIn < 128 := by omega
  have e1 : (enqueueRequest hdr q st).reqLastOut = st.reqLastOut := rfl
  have e2 : (enqueueRequest hdr q st).reqLastIn = RING_NEXT st.reqLastIn := rfl
  have e3 : (enqueueRequest hdr q st).reqQueue
      = Function.update st.reqQueue (RING_NEXT st.reqLastIn) (some q) := rfl
  unfold QueueIs
  rw [e1, e2, e3, RING_NEXT_mod _ hin, List.length_append]
  simp only [List.length_singleton]
  refine ⟨hlo, by omega, by omega, ?_⟩
  intro i hi
  by_cases hil : i < l.length
  · rw [Function.update_noteq (by omega), hent i hil, List.getElem?_append_left hil]
  · have hie : i = l.length := by omega
    subst hie
    have hsame : (st.reqLastOut + 1 + l.length) % 128 = (st.reqLastIn + 1) % 128 := by
      omega
    rw [hsame, Function.update_same]
    simp

theorem QueueIs_dequeue (st : Proxy) (l : List Nat) (h : QueueIs st l) :
    QueueIs (getNextRequestToSend st).2 l.tail := by
  obtain ⟨hlo, hli, hlen, hent⟩ := h
  cases l with
  | nil =>
    have heq : st.reqLastOut = st.reqLastIn := by
      rw [hli]
      simp only [List.length_nil]
      omega
    simp only [getNextRequestToSend, heq, if_true, List.tail_nil]
    exact ⟨by omega, by simp; omega, by simp, fun i hi => absurd hi (by simp)⟩
  | cons a t =>
    simp only [List.length_cons] at hli hlen hent
    have hne : st.reqLastOut ≠ st.reqLastIn := by omega
    simp only [getNextRequestToSend, hne, if_false, List.tail_cons]
    rw [RING_NEXT_mod _ hlo]
    refine ⟨?_, ?_, ?_, ?_⟩
    · show (st.reqLastOut + 1) % 128 < 128
      omega
    · show st.reqLastIn = ((st.reqLastOut + 1) % 128 + t.length) % 128
      omega
    · omega
    · intro i hi
      show Function.update st.reqQueue ((st.reqLastOut + 1) % 128) none
        (((st.reqLastOut + 1) % 128 + 1 + i) % 128) = _
      rw [Function.update_noteq (by omega)]
      have := hent (i + 1) (by omega)
      simp only [List.getElem?_cons_succ] at this
      rw [← this]
      congr 1
      omega

theorem QueueIs_of_fields (st st1 : Proxy) (l : List Nat) (h : QueueIs st l)
    (e1 : st1.reqLastOut = st.reqLastOut) (e2 : st1.reqLastIn = st.reqLastIn)
    (e3 : st1.reqQueue = st.reqQueue) : QueueIs st1 l := by
  unfold QueueIs at h ⊢
  rw [e1, e2, e3]
  exact h

theorem BookInv_step (op : SlotOp) (p : Proxy × Book) (hr : RingInv p) (hb : BookInv p)
    (henq : ∀ hdr q, op = SlotOp.enqueue hdr q → q ∈ p.2.fresh)
    (hrel : ∀ q, op = SlotOp.release q → q ∉ p.2.queue) : BookInv (slotStep op p) := by
  obtain ⟨hs, hq⟩ := hb
  cases op with
  | acquire =>
    cases hg : (getSlot p.1).1 with
    | none =>
      have e := getSlot_none_state p.1 hg
      simp only [slotStep, hg, e]
      exact ⟨hs, hq⟩
    | some q =>
      obtain ⟨e, _, _⟩ := getSlot_some_state p.1 q hg
      simp only [slotStep, hg, e]
      refine ⟨?_, QueueIs_of_fields _ _ _ hq rfl rfl rfl⟩
      show ((q :: p.2.fresh) ++ p.2.queue).Subperm (q :: p.2.acquired)
      rw [List.cons_append]
      exact (List.subperm_cons q).2 hs
  | enqueue hdr q =>
    have hm := henq hdr q rfl
    have hlen := hs.length_le
    have hpos := List.length_pos_of_mem hm
    rw [List.length_append] at hlen
    have hlt : p.2.queue.length < 127 := by
      have := hr.2.2
      omega
    refine ⟨?_, QueueIs_enqueue hdr q p.1 p.2.queue hq hlt⟩
    show (p.2.fresh.erase q ++ (p.2.queue ++ [q])).Subperm p.2.acquired
    have hperm : (p.2.fresh.erase q ++ (p.2.queue ++ [q])).Perm (p.2.fresh ++ p.2.queue) := by
      rw [← List.append_assoc]
      refine (List.perm_append_singleton q _).trans ?_
      rw [← List.cons_append]
      exact List.Perm.append_right _ (List.perm_cons_erase hm).symm
    exact hperm.subperm.trans hs
  | dequeue =>
    refine ⟨?_, QueueIs_dequeue p.1 p.2.queue hq⟩
    show (p.2.fresh ++ p.2.queue.tail).Subperm p.2.acquired
    exact ((List.tail_sublist p.2.queue).append_left p.2.fresh).subperm.trans hs
  | release q =>
    have hnq := hrel q rfl
    refine ⟨?_, QueueIs_of_fields _ _ _ hq rfl rfl rfl⟩
    show (p.2.fresh.erase q ++ p.2.queue).Subperm (p.2.acquired.erase q)
    have he : (p.2.fresh ++ p.2.queue).erase q = p.2.fresh.erase q ++ p.2.queue := by
      by_cases hf : q ∈ p.2.fresh
      · exact List.erase_append_left _ hf
      · rw [List.erase_of_not_mem hf, List.erase_of_not_mem]
        simp [hf, hnq]
    rw [← he]
    exact hs.erase q

theorem slotRun_RingInv : ∀ (ops : List SlotOp) (p : Proxy × Book), RingInv p →
    releasesAcquired ops p = true → RingInv (slotRun ops p) := by
  intro ops
  induction ops with
  | nil => intro p h _; exact h
  | cons op ops ih =>
    intro p h h1
    cases op with
    | acquire =>
      exact ih _ (RingInv_step _ p h (fun q hq => by cases hq)) h1
    | enqueue hdr q =>
      exact ih _ (RingInv_step _ p h (fun q hq => by cases hq)) h1
    | dequeue =>
      exact ih _ (RingInv_step _ p h (fun q hq => by cases hq)) h1
    | release q =>
      simp only [releasesAcquired, Bool.and_eq_true, decide_eq_true_eq] at h1
      exact ih _ (RingInv_step _ p h (fun q2 hq => by cases hq; exact h1.1)) h1.2

theorem slotRun_BookInv : ∀ (ops : List SlotOp) (p : Proxy × Book), RingInv p → BookInv p →
    releasesAcquired ops p = true → enqueuesFresh ops p = true →
    releasesUnqueued ops p = true → BookInv (slotRun ops p) := by
  intro ops
  induction ops with
  | nil => intro p _ h _ _ _; exact h
  | cons op ops ih =>
    intro p hr hb h1 h2 h3
    cases op with
    | acquire =>
      exact ih _ (RingInv_step _ p hr (fun q hq => by cases hq))
        (BookInv_step _ p hr hb (fun _ _ hq => by cases hq) (fun _ hq => by cases hq)) h1 h2 h3
    | enqueue hdr q =>
      simp only [enqueuesFresh, Bool.and_eq_true, decide_eq_true_eq] at h2
      exact ih _ (RingInv_step _ p hr (fun q hq => by cases hq))
        (BookInv_step _ p hr hb (fun _ _ hq => by cases hq; exact h2.1)
          (fun _ hq => by cases hq)) h1 h2.2 h3
    | dequeue =>
      exact ih _ (RingInv_step _ p hr (fun q hq => by cases hq))
        (BookInv_step _ p hr hb (fun _ _ hq => by cases hq) (fun _ hq => by cases hq)) h1 h2 h3
    | release q =>
      simp only [releasesAcquired, Bool.and_eq_true, decide_eq_true_eq] at h1
      simp only [releasesUnqueued, Bool.and_eq_true, decide_eq_true_eq] at h3
      exact ih _ (RingInv_step _ p hr (fun q2 hq => by cases hq; exact h1.1))
        (BookInv_step _ p hr hb (fun _ _ hq => by cases hq)
          (fun _ hq => by cases hq; exact h3.1)) h1.2 h2 h3.2

theorem RingInv_init (st0 : Proxy) : RingInv (initRequestBuffers st0, emptyBook) := by
  refine ⟨?_, ?_, ?_⟩
  · show 1 < 128
    omega
  · show 0 < 128
    omega
  · show (0 + 128 - 1) % 128 + 0 = 127
    rfl

theorem BookInv_init (st0 : Proxy) : BookInv (initRequestBuffers st0, emptyBook) := by
  refine ⟨List.Subperm.refl _, ?_, ?_, ?_, ?_⟩
  · show 0 < 128
    omega
  · show 0 = (0 + 0) % 128
    rfl
  · show 0 ≤ 127
    omega
  · intro i hi
    exact absurd hi (by simp [emptyBook])

/-- C27 (amended): from a freshly initialised table, for every sequence of
`getSlot`, `enqueueRequest`, `getNextRequestToSend` and `freeSlot` calls in
which only acquired slots are released, at most 127 slots are acquired at any
time; if moreover every slot is enqueued at most once after it was acquired
and no slot is released while it waits in the transmit queue, the transmit
queue holds at most 127 entries, `reqLastIn` is `reqLastOut` plus the number of
entries modulo 128 (the indices do not wrap onto each other), and
`havingRequest()` is true exactly when an enqueued slot has not been dequeued
yet. -/
theorem slot_ops_bounds (ops : List SlotOp) (st0 : Proxy)
    (h1 : releasesAcquired ops (initRequestBuffers st0, emptyBook) = true) :
    (slotRun ops (initRequestBuffers st0, emptyBook)).2.acquired.length ≤ 127 ∧
    (enqueuesFresh ops (initRequestBuffers st0, emptyBook) = true →
      releasesUnqueued ops (initRequestBuffers st0, emptyBook) = true →
      (slotRun ops (initRequestBuffers st0, emptyBook)).2.queue.length ≤ 127 ∧
      (slotRun ops (initRequestBuffers st0, emptyBook)).1.reqLastOut < 128 ∧
      (slotRun ops (initRequestBuffers st0, emptyBook)).1.reqLastIn
        = ((slotRun ops (initRequestBuffers st0, emptyBook)).1.reqLastOut
          + (slotRun ops (initRequestBuffers st0, emptyBook)).2.queue.length) % 128 ∧
      (havingRequest (slotRun ops (initRequestBuffers st0, emptyBook)).1 = true ↔
        (slotRun ops (initRequestBuffers st0, emptyBook)).2.queue ≠ [])) := by
  have hr := slotRun_RingInv ops _ (RingInv_init st0) h1
  refine ⟨?_, ?_⟩
  · have := hr.2.2
    omega
  · intro h2 h3
    obtain ⟨_, hlo, hli, hlen, _⟩ :=
      slotRun_BookInv ops _ (RingInv_init st0) (BookInv_init st0) h1 h2 h3
    refine ⟨hlen, hlo, hli, ?_⟩
    rw [← List.length_pos, havingRequest]
    simp only [bne_iff_ne, ne_eq]
    constructor
    · intro hne
      by_contra h0
      apply hne
      rw [hli]
      have : (slotRun ops (initRequestBuffers st0, emptyBook)).2.queue.length = 0 := by omega
      rw [this]
      omega
    · intro hpos heq
      rw [hli] at heq
      omega

theorem slot_ops_bounds_witness :
    (slotRun opsInOrder (initRequestBuffers initialProxy, emptyBook)).2.acquired.length ≤ 127 ∧
    (slotRun opsInOrder (initRequestBuffers initialProxy, emptyBook)).2.queue = [2] ∧
    (slotRun opsInOrder (initRequestBuffers initialProxy, emptyBook)).2.queue.length ≤ 127 ∧
    (slotRun opsInOrder (initRequestBuffers initialProxy, emptyBook)).1.reqLastOut < 128 ∧
    (slotRun opsInOrder (initRequestBuffers initialProxy, emptyBook)).1.reqLastIn
      = ((slotRun opsInOrder (initRequestBuffers initialProxy, emptyBook)).1.reqLastOut
        + (slotRun opsInOrder (initRequestBuffers initialProxy, emptyBook)).2.queue.length)
          % 128 ∧
    (havingRequest (slotRun opsInOrder (initRequestBuffers initialProxy, emptyBook)).1 = true ↔
      (slotRun opsInOrder (initRequestBuffers initialProxy, emptyBook)).2.queue ≠ []) :=
  ⟨(slot_ops_bounds opsInOrder initialProxy (by decide)).1, by decide,
   (slot_ops_bounds opsInOrder initialProxy (by decide)).2 (by decide) (by decide)⟩

/-! ## replies behind the end of a frame, requests with message id 0 -/

/-- C1 (code at the failing input): with the requests of two clients in
flight (slots 1 and 2), the 25-byte frame `shortDataFrame` for slot 2 declares
a transmit length of 4 but holds only the data bytes AA BB behind its 23 bytes
of AID, framing and header fields; exactly one reply is issued, to the user and
message id of slot 2 with the user words of the frame, but its length is 4 and
its data are AA BB followed by BE EF, the bytes that the frame received before
(the response for the other client in slot 1) left at offsets 25 and 26 of the
receive buffer; the slot is released. -/
theorem endReceivePacket_reply_past_frame_end :
    shortDataFrame.length = 25 ∧ shortDataFrame.drop 23 = [0xAA, 0xBB] ∧
    (run initialProxy eventsTwoInFlight).map
      (fun s => (s.pstate, s.usingBinaryTransfer, (s.requests 2).msgId,
        s.recvBuffer 25, s.recvBuffer 26))
      = some (s_RECEIVING, true, 200, 0xBE, 0xEF) ∧
    2 ∉ acquirable twoInFlightProxy ∧
    (deliver twoInFlightProxy (Event.readEnd shortDataFrame)).map
      (fun s => (newEffects twoInFlightProxy s, (s.requests 2).msgId, s.pstate))
      = some ([Effect.vmcfReply [0xC2, 0x40, 0x40, 0x40, 0x40, 0x40, 0x40, 0x40] 200 7 8 4
                [0xAA, 0xBB, 0xBE, 0xEF],
               Effect.sio Ccw.ccw_handshake_ack], 0, s_iIDLE) := by
  decide!

/-- C7 (code at the failing input): three client requests are waiting in
slots 1, 2 and 3 when a new outside proxy takes over; the request in slot 1
came with VMCF message id 0.  None of the three slots is free (they are in the
transmit queue and `getSlot()` does not hand them out), but the Enter "DIAL "
frame is answered with rejects for the slots 2 and 3 only: the client of slot 1
gets no reject, and the slot table is initialised again. -/
theorem endReceivePacket_dial_skips_message_id_zero :
    (run initialProxy eventsTakeoverZero).map
      (fun s => (s.pstate, queued s, (acquirable s).take 3, (s.requests 1).user,
        (s.requests 1).msgId))
      = some (s_iRECONNECT_CPREAD, [1, 2, 3], [4, 5, 6],
          [0xC4, 0x40, 0x40, 0x40, 0x40, 0x40, 0x40, 0x40], 0) ∧
    (1 ∉ acquirable takeoverZeroProxy ∧ 2 ∉ acquirable takeoverZeroProxy ∧
      3 ∉ acquirable takeoverZeroProxy) ∧
    (deliver takeoverZeroProxy (Event.readEnd dialFrame)).map
      (fun s => (newEffects takeoverZeroProxy s, s.pstate, queued s, (acquirable s).length))
      = some ([Effect.vmcfReject [0xC2, 0x40, 0x40, 0x40, 0x40, 0x40, 0x40, 0x40] 200 2,
               Effect.vmcfReject [0xC3, 0x40, 0x40, 0x40, 0x40, 0x40, 0x40, 0x40] 300 2,
               Effect.sio Ccw.ccw_reconnect_dialed], s_INITIAL, [], 127) := by
  decide!

end Nicof
